import Mathlib

/-!
# Fleet tracking core: ingestion handler and geofence detector

A shallow embedding of the ingestion pipeline of `nandanugg/tj-test`
(`module/core`): the MQTT location subscriber (`handleMessage`,
`validateLocationMessage`), the geofence service (`CheckAndAlert`,
`haversine`, `toRad`), the location service, the RabbitMQ alert publisher
(`PublishAlert`), the query handlers (`GetAllVehicles`, `GetLatestLocation`,
`GetHistory`) and the wiring of `Build`, followed by theorems about them.

Conventions of the embedding
* A Go `float64` is a value of `F64 R`: NaN, one of the two infinities, or a
  finite value taken from a linearly ordered field `R`.  Every finite binary64
  number is a rational, so `R = ℚ` contains all of them and keeps every
  comparison executable; `R = ℝ` is used when the arithmetic of the `math`
  package is read as exact real arithmetic.
* A Go `error` is an `Option Error`, `none` being `nil`.
* `int64` values are integers; no arithmetic is performed on them here.
* Interface-typed collaborators (location service, geofence service,
  publisher) are state-passing functions over an arbitrary world state `σ`.
  They receive their argument by value: a collaborator is taken not to write
  through the pointer it is handed (the repository's implementations do not).
* Decimal literals of the tests (`-6.2088`, `106.8456`) are read exactly, or,
  in binary64 arithmetic, converted by `binary64.round` as the Go compiler does.
* Functions of packages outside the repository (`encoding/json`, `math`,
  float arithmetic) are parameters; `strconv.ParseInt` is modelled after
  `strconv/atoi.go`.  Facts about float64 are proved for every environment
  obeying stated laws of IEEE 754 arithmetic, each operation being rounded on
  its own, or in exact real arithmetic, or by evaluation in
  `FloatMath.binary64`: binary64 arithmetic with the portable functions of
  package `math` (`sin.go`, `atan.go`, `atan2.go`).
-/

namespace Fleet

/-! ## float64 values and their comparisons -/

/-- Values of the Go type `float64`. -/
inductive F64 (R : Type) where
  | nan : F64 R
  | negInf : F64 R
  | posInf : F64 R
  | fin (x : R) : F64 R
deriving DecidableEq

namespace F64

variable {R : Type} [LinearOrder R]

/-- Go `a < b` on float64: false as soon as an operand is NaN. -/
def lt : F64 R → F64 R → Bool
  | nan, _ => false
  | _, nan => false
  | negInf, negInf => false
  | negInf, _ => true
  | _, negInf => false
  | posInf, _ => false
  | fin _, posInf => true
  | fin x, fin y => decide (x < y)

/-- Go `a <= b` on float64: false as soon as an operand is NaN. -/
def le : F64 R → F64 R → Bool
  | nan, _ => false
  | _, nan => false
  | negInf, _ => true
  | _, posInf => true
  | posInf, _ => false
  | fin _, negInf => false
  | fin x, fin y => decide (x ≤ y)

/-- Go `a > b` on float64. -/
def gt (a b : F64 R) : Bool := lt b a

/-- The value is a number lying in the closed interval `[lo, hi]`. -/
def InRange (lo hi : R) : F64 R → Prop
  | fin x => lo ≤ x ∧ x ≤ hi
  | _ => False

instance (lo hi : R) (v : F64 R) : Decidable (InRange lo hi v) := by
  cases v <;> unfold InRange <;> infer_instance

end F64

/-! ## Domain types (`module/core/domain`) and the pieces of `time` they use -/

/-- A Go `error` value is described by its message. -/
abbrev Error := String

namespace time

/-- A `time.Time` instant: whole seconds since the Unix epoch and the
nanoseconds within that second. -/
structure Time where
  sec : Int
  nsec : Nat
deriving DecidableEq, Repr

/-- Go `time.Unix(sec, nsec)`: the instant `sec` seconds and `nsec`
nanoseconds after the epoch, nanoseconds normalised into `[0, 1e9)`. -/
def Unix (sec nsec : Int) : Time :=
  { sec := sec + Int.fdiv nsec 1000000000, nsec := (Int.fmod nsec 1000000000).toNat }

/-- Go `t.Unix()`: the number of seconds elapsed since the epoch. -/
def Time.Unix (t : Time) : Int := t.sec

end time

/-- Go `domain.Location`. -/
structure Location (R : Type) where
  Lat : F64 R
  Lon : F64 R
  Timestamp : time.Time
deriving DecidableEq

/-- Go `domain.VehicleLocation`. -/
structure VehicleLocation (R : Type) where
  VehicleID : String
  Location : Location R
deriving DecidableEq

/-- Go `domain.GeoPoint`: a circular geofence. -/
structure GeoPoint (R : Type) where
  Lat : F64 R
  Lon : F64 R
  Radius : F64 R
deriving DecidableEq

/-- Go `domain.GeofenceEventType`, a string type. -/
abbrev GeofenceEventType := String

/-- Go constant `domain.GeofenceEntry`. -/
def GeofenceEntry : GeofenceEventType := "geofence_entry"

/-- Go constant `domain.GeofenceExit`. -/
def GeofenceExit : GeofenceEventType := "geofence_exit"

/-- Go `domain.GeofenceAlert`. -/
structure GeofenceAlert (R : Type) where
  VehicleID : String
  Event : GeofenceEventType
  Location : Location R
  Timestamp : Int
deriving DecidableEq

/-! ## Ingestion handler (`internal/handler/subscriber/location.go`) -/

/-- Go `locationMessage`, the decoded position report. -/
structure locationMessage (R : Type) where
  VehicleID : String
  Latitude : F64 R
  Longitude : F64 R
  Timestamp : Int
deriving DecidableEq

section Validation

variable {R : Type} [LinearOrderedField R]

/-- Go `validateLocationMessage`: the first violated check decides the error. -/
def validateLocationMessage (msg : locationMessage R) : Option Error :=
  if msg.VehicleID == "" then
    some "vehicle_id: required"
  else if F64.lt msg.Latitude (F64.fin (-90)) || F64.gt msg.Latitude (F64.fin 90) then
    some "latitude: must be between -90 and 90"
  else if F64.lt msg.Longitude (F64.fin (-180)) || F64.gt msg.Longitude (F64.fin 180) then
    some "longitude: must be between -180 and 180"
  else if msg.Timestamp ≤ 0 then
    some "timestamp: must be positive"
  else
    none

/-- The ingress invariants of the specification, on a decoded report. -/
def IngressInvariants (msg : locationMessage R) : Prop :=
  msg.VehicleID ≠ "" ∧ F64.InRange (-90) 90 msg.Latitude ∧
    F64.InRange (-180) 180 msg.Longitude ∧ 0 < msg.Timestamp

end Validation

section Handler

variable {R : Type} [LinearOrderedField R] {σ : Type}

/-- Go `json.Unmarshal(payload, &raw)` for a `locationMessage`: a decoder from
the raw payload to either a decode error or the decoded report.  The decoder
belongs to `encoding/json` and is a parameter of the handler. -/
abbrev Unmarshal (R : Type) := List UInt8 → Except Error (locationMessage R)

/-- Go `LocationSubscriber` without its MQTT client: the two interface-typed
services, each a state-passing function over the world state `σ` returning the
Go `error` of the call. -/
structure LocationSubscriber (R : Type) (σ : Type) where
  locationSvc : VehicleLocation R → σ → Option Error × σ
  geofenceSvc : VehicleLocation R → σ → Option Error × σ

/-- Go `(*LocationSubscriber).handleMessage`.  The function returns nothing to
the transport; the embedding returns the world state it leaves behind and the
lines it passed to `log.Printf`. -/
def LocationSubscriber.handleMessage (unmarshal : Unmarshal R) (s : LocationSubscriber R σ)
    (payload : List UInt8) (w : σ) : σ × List String :=
  match unmarshal payload with
  | .error err => (w, ["invalid location message: " ++ err])
  | .ok raw =>
    match validateLocationMessage raw with
    | some err => (w, ["validation error: " ++ err])
    | none =>
      let vl : VehicleLocation R :=
        { VehicleID := raw.VehicleID
          Location :=
            { Lat := raw.Latitude
              Lon := raw.Longitude
              Timestamp := time.Unix raw.Timestamp 0 } }
      match s.locationSvc vl w with
      | (some err, w1) => (w1, ["save location error: " ++ err])
      | (none, w1) =>
        match s.geofenceSvc vl w1 with
        | (some err, w2) => (w2, ["geofence check error: " ++ err])
        | (none, w2) => (w2, [])

/-- A call made by the handler on one of its services, with the `error` the
call returned. -/
inductive Call (R : Type) where
  | SaveLocation (vl : VehicleLocation R) (result : Option Error) : Call R
  | CheckAndAlert (vl : VehicleLocation R) (result : Option Error) : Call R
deriving DecidableEq

/-- The subscriber with both services wrapped so that every call is appended
to a call log carried next to the world state (the recording doubles of
`location_test.go`, for arbitrary service behaviour). -/
def LocationSubscriber.recorded (s : LocationSubscriber R σ) :
    LocationSubscriber R (σ × List (Call R)) where
  locationSvc := fun vl w =>
    ((s.locationSvc vl w.1).1, ((s.locationSvc vl w.1).2, w.2 ++ [Call.SaveLocation vl (s.locationSvc vl w.1).1]))
  geofenceSvc := fun vl w =>
    ((s.geofenceSvc vl w.1).1, ((s.geofenceSvc vl w.1).2, w.2 ++ [Call.CheckAndAlert vl (s.geofenceSvc vl w.1).1]))

/-- The `VehicleLocation` the handler builds from a decoded report. -/
def locationMessage.toVehicleLocation (raw : locationMessage R) : VehicleLocation R :=
  { VehicleID := raw.VehicleID
    Location :=
      { Lat := raw.Latitude
        Lon := raw.Longitude
        Timestamp := time.Unix raw.Timestamp 0 } }

/-- The ingress invariants of the specification, on a `VehicleLocation`. -/
def VehicleLocation.Valid (vl : VehicleLocation R) : Prop :=
  vl.VehicleID ≠ "" ∧ F64.InRange (-90) 90 vl.Location.Lat ∧
    F64.InRange (-180) 180 vl.Location.Lon ∧ 0 < vl.Location.Timestamp.Unix

/-- The decoder never produces a NaN coordinate: JSON has no literal for NaN,
so `encoding/json` cannot decode one into a `float64` field. -/
def Unmarshal.NoNaN (unmarshal : Unmarshal R) : Prop :=
  ∀ payload raw, unmarshal payload = .ok raw →
    raw.Latitude ≠ F64.nan ∧ raw.Longitude ≠ F64.nan

end Handler

/-! ## Geofence detector (`service/geofence.go`) -/

/-- The float64 arithmetic and the functions of package `math` used by
`haversine`.  They are not part of the repository and are a parameter of the
detector. -/
structure FloatMath (R : Type) where
  add : F64 R → F64 R → F64 R
  sub : F64 R → F64 R → F64 R
  mul : F64 R → F64 R → F64 R
  div : F64 R → F64 R → F64 R
  Pi : F64 R
  Sin : F64 R → F64 R
  Cos : F64 R → F64 R
  Sqrt : F64 R → F64 R
  Atan2 : F64 R → F64 R → F64 R

section Detector

variable {R : Type} [LinearOrderedField R] {σ : Type}

/-- Go constant `earthRadiusMeters`. -/
def earthRadiusMeters : ℕ := 6371000

/-- Go `toRad`: `deg * math.Pi / 180`. -/
def toRad (fm : FloatMath R) (deg : F64 R) : F64 R :=
  fm.div (fm.mul deg fm.Pi) (F64.fin 180)

/-- Go `haversine`.  The untyped constant expression `earthRadiusMeters * 2`
is folded before its conversion to float64. -/
def haversine (fm : FloatMath R) (lat1 lon1 lat2 lon2 : F64 R) : F64 R :=
  let dLat := toRad fm (fm.sub lat2 lat1)
  let dLon := toRad fm (fm.sub lon2 lon1)
  let a :=
    fm.add
      (fm.mul (fm.Sin (fm.div dLat (F64.fin 2))) (fm.Sin (fm.div dLat (F64.fin 2))))
      (fm.mul
        (fm.mul (fm.mul (fm.Cos (toRad fm lat1)) (fm.Cos (toRad fm lat2)))
          (fm.Sin (fm.div dLon (F64.fin 2))))
        (fm.Sin (fm.div dLon (F64.fin 2))))
  fm.mul (F64.fin ((earthRadiusMeters * 2 : ℕ) : R))
    (fm.Atan2 (fm.Sqrt a) (fm.Sqrt (fm.sub (F64.fin 1) a)))

/-- Go `GeofenceService`: the publisher (interface `publisher.GeofencePublisher`,
a state-passing `PublishAlert`) and the configured geofences. -/
structure GeofenceService (R : Type) (σ : Type) where
  publisher : GeofenceAlert R → σ → Option Error × σ
  geofences : List (GeoPoint R)

/-- The alert `CheckAndAlert` builds for a location. -/
def alertFor (vl : VehicleLocation R) : GeofenceAlert R :=
  { VehicleID := vl.VehicleID
    Event := GeofenceEntry
    Location := vl.Location
    Timestamp := vl.Location.Timestamp.Unix }

/-- The body of the `for _, gf := range s.geofences` loop of `CheckAndAlert`,
run over the geofences still to be visited. -/
def checkGeofences (fm : FloatMath R) (publisher : GeofenceAlert R → σ → Option Error × σ)
    (vl : VehicleLocation R) : List (GeoPoint R) → σ → Option Error × σ
  | [], w => (none, w)
  | gf :: rest, w =>
    let dist := haversine fm vl.Location.Lat vl.Location.Lon gf.Lat gf.Lon
    if F64.le dist gf.Radius then
      let alert : GeofenceAlert R :=
        { VehicleID := vl.VehicleID
          Event := GeofenceEntry
          Location := vl.Location
          Timestamp := vl.Location.Timestamp.Unix }
      match publisher alert w with
      | (some err, w1) => (some err, w1)
      | (none, w1) => checkGeofences fm publisher vl rest w1
    else
      checkGeofences fm publisher vl rest w

/-- Go `(*GeofenceService).CheckAndAlert`. -/
def GeofenceService.CheckAndAlert (fm : FloatMath R) (s : GeofenceService R σ)
    (vl : VehicleLocation R) (w : σ) : Option Error × σ :=
  checkGeofences fm s.publisher vl s.geofences w

/-- A publisher wrapped so that every alert it is handed is appended to a call
log before the publisher runs (`mockGeofencePublisher` of `geofence_test.go`,
for an arbitrary publisher). -/
def recordAlerts (publisher : GeofenceAlert R → σ → Option Error × σ) :
    GeofenceAlert R → σ × List (GeofenceAlert R) → Option Error × (σ × List (GeofenceAlert R)) :=
  fun alert w => ((publisher alert w.1).1, ((publisher alert w.1).2, w.2 ++ [alert]))

/-- The geofence contains the position: its haversine distance to the
position is at most its radius, in the float64 comparison of the source. -/
def GeoPoint.contains (fm : FloatMath R) (vl : VehicleLocation R) (gf : GeoPoint R) : Bool :=
  F64.le (haversine fm vl.Location.Lat vl.Location.Lon gf.Lat gf.Lon) gf.Radius

/-- The world state after `n` successive `PublishAlert` calls with the same
alert. -/
def publishedState (publisher : GeofenceAlert R → σ → Option Error × σ)
    (alert : GeofenceAlert R) : ℕ → σ → σ
  | 0, w => w
  | n + 1, w => publishedState publisher alert n (publisher alert w).2

/-- Publishing the same alert up to `n` times, stopping at the first call that
returns an error: the error (if any), the world state left behind and the
number of `PublishAlert` calls made. -/
def publishRepeatedly (publisher : GeofenceAlert R → σ → Option Error × σ)
    (alert : GeofenceAlert R) : ℕ → σ → Option Error × σ × ℕ
  | 0, w => (none, w, 0)
  | n + 1, w =>
    match publisher alert w with
    | (some err, w1) => (some err, w1, 1)
    | (none, w1) =>
      ((publishRepeatedly publisher alert n w1).1, (publishRepeatedly publisher alert n w1).2.1,
        (publishRepeatedly publisher alert n w1).2.2 + 1)

/-- Calling `CheckAndAlert` on each location of a sequence in turn, as the
transport does for successive reports: the `error` of every call, in order,
and the world state left behind.  The service value itself is never written. -/
def checkEach (fm : FloatMath R) (s : GeofenceService R σ) :
    List (VehicleLocation R) → σ → List (Option Error) × σ
  | [], w => ([], w)
  | vl :: rest, w =>
    ((s.CheckAndAlert fm vl w).1 :: (checkEach fm s rest (s.CheckAndAlert fm vl w).2).1,
      (checkEach fm s rest (s.CheckAndAlert fm vl w).2).2)

end Detector

/-! ## Laws of float64 arithmetic

Properties of IEEE 754 binary64 arithmetic (each operation rounded to nearest
on its own) and of the documented special cases of package `math`, stated on
`F64`, where the two zeros are one value. -/

section Laws

variable {R : Type} [LinearOrderedField R]

/-- IEEE negation: the sign is flipped, NaN stays NaN. -/
def F64.neg : F64 R → F64 R
  | F64.nan => F64.nan
  | F64.negInf => F64.posInf
  | F64.posInf => F64.negInf
  | F64.fin x => F64.fin (-x)

/-- The exact results involving zero and one on which `haversine` of a point
with itself relies: `x - x = 0`, `x - 0 = x`, `0 * x = 0 = x * 0`,
`0 / x = 0` for `x ≠ 0`, `0 + 0 = 0`, `Sin(0) = 0`, `Sqrt(0) = 0`,
`Sqrt(1) = 1`, `Atan2(0, x) = 0` for `x > 0`, a finite `Pi`, and a finite
product of two cosines of finite numbers. -/
structure FloatMath.ZeroLaws (fm : FloatMath R) : Prop where
  sub_self : ∀ x : R, fm.sub (F64.fin x) (F64.fin x) = F64.fin 0
  sub_zero : ∀ x : R, fm.sub (F64.fin x) (F64.fin 0) = F64.fin x
  zero_mul : ∀ x : R, fm.mul (F64.fin 0) (F64.fin x) = F64.fin 0
  mul_zero : ∀ x : R, fm.mul (F64.fin x) (F64.fin 0) = F64.fin 0
  zero_div : ∀ x : R, x ≠ 0 → fm.div (F64.fin 0) (F64.fin x) = F64.fin 0
  zero_add : fm.add (F64.fin 0) (F64.fin 0) = F64.fin 0
  Pi_finite : ∃ p : R, fm.Pi = F64.fin p
  Sin_zero : fm.Sin (F64.fin 0) = F64.fin 0
  Cos_mul_Cos : ∀ x y : R, ∃ m : R, fm.mul (fm.Cos (F64.fin x)) (fm.Cos (F64.fin y)) = F64.fin m
  Sqrt_zero : fm.Sqrt (F64.fin 0) = F64.fin 0
  Sqrt_one : fm.Sqrt (F64.fin 1) = F64.fin 1
  Atan2_zero : ∀ x : R, 0 < x → fm.Atan2 (F64.fin 0) (F64.fin x) = F64.fin 0

/-- The sign symmetries on which the symmetry of `haversine` relies:
`a - b = -(b - a)`, `(-a) * b = -(a * b)`, `a * b = b * a`,
`(-a) / b = -(a / b)` and `Sin(-a) = -Sin(a)`, for all values. -/
structure FloatMath.SignLaws (fm : FloatMath R) : Prop where
  sub_swap : ∀ a b : F64 R, fm.sub a b = F64.neg (fm.sub b a)
  neg_mul : ∀ a b : F64 R, fm.mul (F64.neg a) b = F64.neg (fm.mul a b)
  mul_comm : ∀ a b : F64 R, fm.mul a b = fm.mul b a
  neg_div : ∀ a b : F64 R, fm.div (F64.neg a) b = F64.neg (fm.div a b)
  Sin_neg : ∀ a : F64 R, fm.Sin (F64.neg a) = F64.neg (fm.Sin a)

/-- The degrees `deg` convert to a finite number of radians (in binary64:
`deg * Pi` does not overflow). -/
def FiniteRadians (fm : FloatMath R) (deg : R) : Prop :=
  ∃ r : R, toRad fm (F64.fin deg) = F64.fin r

/-- The value is NaN or at least zero (`+Inf` included): it is not a negative
number and not `-Inf`. -/
def F64.NotNegative (v : F64 R) : Prop :=
  v = F64.nan ∨ F64.le (F64.fin 0) v = true

/-- The range facts on which the sign of `haversine` relies: `Sqrt` returns
NaN, `+Inf` or a number that is at least zero; `Atan2(y, x)` of two values that
are NaN or at least zero is NaN or at least zero (an angle of the first
quadrant); and the product of a number that is at least zero with a value that
is NaN or at least zero is NaN or at least zero. -/
structure FloatMath.RangeLaws (fm : FloatMath R) : Prop where
  Sqrt_notNegative : ∀ v : F64 R, (fm.Sqrt v).NotNegative
  Atan2_notNegative : ∀ y x : F64 R, y.NotNegative → x.NotNegative → (fm.Atan2 y x).NotNegative
  mul_notNegative : ∀ (c : R) (v : F64 R), 0 ≤ c → v.NotNegative →
    (fm.mul (F64.fin c) v).NotNegative

end Laws

/-! ## Exact real arithmetic as a float64 environment

`FloatMath.exact` reads every float64 operation on finite operands as the
exact real operation (no rounding) and follows IEEE 754 and the documented
special cases of package `math` on NaN and the infinities.  Zero carries no
sign and is treated as `+0`. -/

/-- The product of an infinity (positive or negative, as flagged) and a finite
factor: NaN for a zero factor, else the infinity with the product of the signs. -/
noncomputable def infTimes (positive : Bool) (x : ℝ) : F64 ℝ :=
  if x = 0 then F64.nan
  else if 0 < x then (if positive then F64.posInf else F64.negInf)
  else (if positive then F64.negInf else F64.posInf)

section Exact

open F64

/-- The float64 environment in which operations on finite operands are exact
real arithmetic; `Atan2 y x` is the argument of the complex number `x + y i`. -/
noncomputable def FloatMath.exact : FloatMath ℝ where
  add := fun a b =>
    match a, b with
    | nan, _ => nan
    | _, nan => nan
    | posInf, negInf => nan
    | negInf, posInf => nan
    | posInf, _ => posInf
    | _, posInf => posInf
    | negInf, _ => negInf
    | _, negInf => negInf
    | fin x, fin y => fin (x + y)
  sub := fun a b =>
    match a, b with
    | nan, _ => nan
    | _, nan => nan
    | posInf, posInf => nan
    | negInf, negInf => nan
    | posInf, _ => posInf
    | _, negInf => posInf
    | negInf, _ => negInf
    | _, posInf => negInf
    | fin x, fin y => fin (x - y)
  mul := fun a b =>
    match a, b with
    | nan, _ => nan
    | _, nan => nan
    | posInf, posInf => posInf
    | negInf, negInf => posInf
    | posInf, negInf => negInf
    | negInf, posInf => negInf
    | posInf, fin y => infTimes true y
    | negInf, fin y => infTimes false y
    | fin x, posInf => infTimes true x
    | fin x, negInf => infTimes false x
    | fin x, fin y => fin (x * y)
  div := fun a b =>
    match a, b with
    | nan, _ => nan
    | _, nan => nan
    | fin x, fin y =>
      if y = 0 then (if x = 0 then nan else if 0 < x then posInf else negInf) else fin (x / y)
    | fin _, _ => fin 0
    | posInf, fin y => if 0 ≤ y then posInf else negInf
    | negInf, fin y => if 0 ≤ y then negInf else posInf
    | _, _ => nan
  Pi := fin Real.pi
  Sin := fun a =>
    match a with
    | fin x => fin (Real.sin x)
    | _ => nan
  Cos := fun a =>
    match a with
    | fin x => fin (Real.cos x)
    | _ => nan
  Sqrt := fun a =>
    match a with
    | nan => nan
    | negInf => nan
    | posInf => posInf
    | fin x => if x < 0 then nan else fin (Real.sqrt x)
  Atan2 := fun y x =>
    match y, x with
    | nan, _ => nan
    | _, nan => nan
    | posInf, posInf => fin (Real.pi / 4)
    | negInf, posInf => fin (-(Real.pi / 4))
    | posInf, negInf => fin (3 * Real.pi / 4)
    | negInf, negInf => fin (-(3 * Real.pi / 4))
    | fin _, posInf => fin 0
    | fin y, negInf => if 0 ≤ y then fin Real.pi else fin (-Real.pi)
    | posInf, fin _ => fin (Real.pi / 2)
    | negInf, fin _ => fin (-(Real.pi / 2))
    | fin y, fin x => fin (Complex.arg ⟨x, y⟩)

/-- The intermediate value `a` of `haversine` in exact arithmetic, for finite
coordinates in degrees. -/
noncomputable def haversineA (lat1 lon1 lat2 lon2 : ℝ) : ℝ :=
  Real.sin ((lat2 - lat1) * Real.pi / 180 / 2) * Real.sin ((lat2 - lat1) * Real.pi / 180 / 2) +
    Real.cos (lat1 * Real.pi / 180) * Real.cos (lat2 * Real.pi / 180) *
        Real.sin ((lon2 - lon1) * Real.pi / 180 / 2) *
      Real.sin ((lon2 - lon1) * Real.pi / 180 / 2)

/-- The angle `atan2(y, x)` of the point `(x, y)`, in `(-π, π]`. -/
noncomputable def atan2 (y x : ℝ) : ℝ := Complex.arg ⟨x, y⟩

/-- The haversine formula as the specification words it: `2 R atan2(√a, √(1-a))`
with `R = 6371000` and `a = sin²(Δlat/2) + cos(lat1) cos(lat2) sin²(Δlon/2)`,
all angles being the degree values multiplied by `π / 180`. -/
noncomputable def haversineFormula (lat1 lon1 lat2 lon2 : ℝ) : ℝ :=
  let rad := fun deg : ℝ => deg * (Real.pi / 180)
  let a := Real.sin (rad (lat2 - lat1) / 2) ^ 2 +
    Real.cos (rad lat1) * Real.cos (rad lat2) * Real.sin (rad (lon2 - lon1) / 2) ^ 2
  2 * 6371000 * atan2 (Real.sqrt a) (Real.sqrt (1 - a))

end Exact

/-! ## The haversine formula in float64 arithmetic -/

section FloatFormula

variable {R : Type} [LinearOrderedField R]

/-- The haversine formula of the specification evaluated in a float64
environment, every operation rounded on its own: `2 R atan2(√a, √(1-a))` with
`R = 6371000` and `a = sin²(Δlat/2) + cos(lat1) cos(lat2) sin²(Δlon/2)`, a
square being the product of the value with itself, a product being taken from
left to right, and an angle being its degree value times `π`, divided by 180. -/
def haversineFormulaF64 (fm : FloatMath R) (lat1 lon1 lat2 lon2 : F64 R) : F64 R :=
  let rad := fun deg : F64 R => fm.div (fm.mul deg fm.Pi) (F64.fin 180)
  let sinHalfLat := fm.Sin (fm.div (rad (fm.sub lat2 lat1)) (F64.fin 2))
  let sinHalfLon := fm.Sin (fm.div (rad (fm.sub lon2 lon1)) (F64.fin 2))
  let a := fm.add (fm.mul sinHalfLat sinHalfLat)
    (fm.mul (fm.mul (fm.mul (fm.Cos (rad lat1)) (fm.Cos (rad lat2))) sinHalfLon) sinHalfLon)
  fm.mul (F64.fin (2 * 6371000)) (fm.Atan2 (fm.Sqrt a) (fm.Sqrt (fm.sub (F64.fin 1) a)))

/-- The local variable `a` of `haversine`:
`Sin(dLat/2)*Sin(dLat/2) + Cos(toRad(lat1))*Cos(toRad(lat2))*Sin(dLon/2)*Sin(dLon/2)`. -/
def haversine.a (fm : FloatMath R) (lat1 lon1 lat2 lon2 : F64 R) : F64 R :=
  let dLat := toRad fm (fm.sub lat2 lat1)
  let dLon := toRad fm (fm.sub lon2 lon1)
  fm.add
    (fm.mul (fm.Sin (fm.div dLat (F64.fin 2))) (fm.Sin (fm.div dLat (F64.fin 2))))
    (fm.mul
      (fm.mul (fm.mul (fm.Cos (toRad fm lat1)) (fm.Cos (toRad fm lat2)))
        (fm.Sin (fm.div dLon (F64.fin 2))))
      (fm.Sin (fm.div dLon (F64.fin 2))))

end FloatFormula

/-! ## IEEE 754 binary64 arithmetic and the portable `math` functions of Go

`FloatMath.binary64` is the float64 environment of a Go program in which every
floating-point operation is rounded on its own to the nearest binary64 number,
ties to even (no fused multiply-add, as on amd64), and in which `math.Sin`,
`math.Cos` and `math.Atan2` are the portable implementations of package `math`
(`sin.go`, `atan.go`, `atan2.go`) and `math.Sqrt` is correctly rounded.  A
finite binary64 number is the rational it denotes; the two zeros are one value,
read as `+0`.  The reduction `trigReduce` that `sin` and `cos` apply to
arguments from `1 << 29` on is a parameter. -/

namespace binary64

/-- The number of binary digits of `n` (0 for 0), for `n < 2 ^ fuel`. -/
def bitLen : ℕ → ℕ → ℕ
  | 0, _ => 0
  | fuel + 1, n => if n = 0 then 0 else bitLen fuel (n / 2) + 1

/-- Whether `2 ^ l ≤ n / d`, for a positive `d`. -/
def pow2Le (l : Int) (n d : ℕ) : Bool :=
  if 0 ≤ l then decide (d * 2 ^ l.toNat ≤ n) else decide (d ≤ n * 2 ^ (-l).toNat)

/-- The integer `l` with `2 ^ l ≤ n / d < 2 ^ (l + 1)`, for positive `n` and
`d` of at most 4096 binary digits. -/
def floorLog2 (n d : ℕ) : Int :=
  if pow2Le ((bitLen 4096 n : Int) - (bitLen 4096 d : Int)) n d then
    (bitLen 4096 n : Int) - (bitLen 4096 d : Int)
  else (bitLen 4096 n : Int) - (bitLen 4096 d : Int) - 1

/-- The integer nearest to `n / d`, the even one of the two in a tie. -/
def roundHalfEven (n d : ℕ) : ℕ :=
  if 2 * (n % d) < d then n / d
  else if d < 2 * (n % d) then n / d + 1
  else if (n / d) % 2 = 0 then n / d else n / d + 1

/-- The rational `m * 2 ^ e`. -/
def scale (m : ℕ) (e : Int) : ℚ :=
  if 0 ≤ e then ((m * 2 ^ e.toNat : ℕ) : ℚ) else (m : ℚ) / ((2 ^ (-e).toNat : ℕ) : ℚ)

/-- The significand of `n / d` at the binary exponent `e`: the integer nearest
to `(n / d) / 2 ^ e`, ties to even. -/
def significand (n d : ℕ) (e : Int) : ℕ :=
  if 0 ≤ e then roundHalfEven n (d * 2 ^ e.toNat) else roundHalfEven (n * 2 ^ (-e).toNat) d

/-- The binary exponent of the last place of the binary64 numbers around
`n / d`: 52 below the exponent of `n / d`, and at least -1074 (subnormals). -/
def lastPlace (n d : ℕ) : Int := max (floorLog2 n d - 52) (-1074)

/-- Rounding of a real number (here a rational) to binary64, to nearest with
ties to even: the conversion Go applies to a constant, and the rounding of
every arithmetic result.  A magnitude that rounds to `2 ^ 1024` or more
overflows to an infinity. -/
def round (q : ℚ) : F64 ℚ :=
  if q = 0 then F64.fin 0
  else if 971 < lastPlace q.num.natAbs q.den ∨
      (lastPlace q.num.natAbs q.den = 971 ∧
        2 ^ 53 ≤ significand q.num.natAbs q.den (lastPlace q.num.natAbs q.den)) then
    (if q < 0 then F64.negInf else F64.posInf)
  else if q < 0 then
    F64.fin (-scale (significand q.num.natAbs q.den (lastPlace q.num.natAbs q.den))
      (lastPlace q.num.natAbs q.den))
  else
    F64.fin (scale (significand q.num.natAbs q.den (lastPlace q.num.natAbs q.den))
      (lastPlace q.num.natAbs q.den))

/-- The product of an infinity (positive or negative, as flagged) and a finite
factor: NaN for a zero factor, else the infinity with the product of the signs. -/
def infTimes (positive : Bool) (x : ℚ) : F64 ℚ :=
  if x = 0 then F64.nan
  else if 0 < x then (if positive then F64.posInf else F64.negInf)
  else (if positive then F64.negInf else F64.posInf)

/-- Go `a + b` on float64. -/
def add : F64 ℚ → F64 ℚ → F64 ℚ
  | F64.nan, _ => F64.nan
  | _, F64.nan => F64.nan
  | F64.posInf, F64.negInf => F64.nan
  | F64.negInf, F64.posInf => F64.nan
  | F64.posInf, _ => F64.posInf
  | _, F64.posInf => F64.posInf
  | F64.negInf, _ => F64.negInf
  | _, F64.negInf => F64.negInf
  | F64.fin x, F64.fin y => round (x + y)

/-- Go `a - b` on float64. -/
def sub : F64 ℚ → F64 ℚ → F64 ℚ
  | F64.nan, _ => F64.nan
  | _, F64.nan => F64.nan
  | F64.posInf, F64.posInf => F64.nan
  | F64.negInf, F64.negInf => F64.nan
  | F64.posInf, _ => F64.posInf
  | _, F64.negInf => F64.posInf
  | F64.negInf, _ => F64.negInf
  | _, F64.posInf => F64.negInf
  | F64.fin x, F64.fin y => round (x - y)

/-- Go `a * b` on float64. -/
def mul : F64 ℚ → F64 ℚ → F64 ℚ
  | F64.nan, _ => F64.nan
  | _, F64.nan => F64.nan
  | F64.posInf, F64.posInf => F64.posInf
  | F64.negInf, F64.negInf => F64.posInf
  | F64.posInf, F64.negInf => F64.negInf
  | F64.negInf, F64.posInf => F64.negInf
  | F64.posInf, F64.fin y => infTimes true y
  | F64.negInf, F64.fin y => infTimes false y
  | F64.fin x, F64.posInf => infTimes true x
  | F64.fin x, F64.negInf => infTimes false x
  | F64.fin x, F64.fin y => round (x * y)

/-- Go `a / b` on float64; a zero divisor is read as `+0`. -/
def div : F64 ℚ → F64 ℚ → F64 ℚ
  | F64.nan, _ => F64.nan
  | _, F64.nan => F64.nan
  | F64.fin x, F64.fin y =>
    if y = 0 then (if x = 0 then F64.nan else if 0 < x then F64.posInf else F64.negInf)
    else round (x / y)
  | F64.fin _, _ => F64.fin 0
  | F64.posInf, F64.fin y => if 0 ≤ y then F64.posInf else F64.negInf
  | F64.negInf, F64.fin y => if 0 ≤ y then F64.negInf else F64.posInf
  | _, _ => F64.nan

/-- Newton iteration for the integer square root, from a start `x ≥ √n`. -/
def isqrtFrom : ℕ → ℕ → ℕ → ℕ
  | 0, _, x => x
  | fuel + 1, n, x => if (x + n / x) / 2 < x then isqrtFrom fuel n ((x + n / x) / 2) else x

/-- The integer square root `⌊√n⌋`, for `n` of at most 4096 binary digits. -/
def isqrt (n : ℕ) : ℕ :=
  if n = 0 then 0 else isqrtFrom 4096 n (2 ^ ((bitLen 4096 n + 1) / 2))

/-- The binary exponent of the last place of `√(n / d)`: with
`4 ^ h ≤ n / d < 4 ^ (h + 1)` it is `h - 52`. -/
def sqrtLastPlace (n d : ℕ) : Int := floorLog2 n d / 2 - 52

/-- The integer part of `√(n / d) / 2 ^ e`. -/
def sqrtFloor (n d : ℕ) (e : Int) : ℕ :=
  if 0 ≤ e then isqrt (n / (d * 4 ^ e.toNat)) else isqrt (n * 4 ^ (-e).toNat / d)

/-- Whether `√(n / d) / 2 ^ e` is below, at or above `s + 1/2`, as the ordering
of `4 (n / d) / 4 ^ e` against `(2 s + 1) ^ 2`. -/
def sqrtCompare (n d : ℕ) (e : Int) (s : ℕ) : Ordering :=
  if 0 ≤ e then compare (4 * n) ((2 * s + 1) ^ 2 * (d * 4 ^ e.toNat))
  else compare (4 * n * 4 ^ (-e).toNat) ((2 * s + 1) ^ 2 * d)

/-- The square root of a positive rational, rounded to the nearest binary64
number, ties to even. -/
def sqrtRound (q : ℚ) : F64 ℚ :=
  match sqrtCompare q.num.natAbs q.den (sqrtLastPlace q.num.natAbs q.den)
      (sqrtFloor q.num.natAbs q.den (sqrtLastPlace q.num.natAbs q.den)) with
  | Ordering.lt =>
    F64.fin (scale (sqrtFloor q.num.natAbs q.den (sqrtLastPlace q.num.natAbs q.den))
      (sqrtLastPlace q.num.natAbs q.den))
  | Ordering.gt =>
    F64.fin (scale (sqrtFloor q.num.natAbs q.den (sqrtLastPlace q.num.natAbs q.den) + 1)
      (sqrtLastPlace q.num.natAbs q.den))
  | Ordering.eq =>
    if sqrtFloor q.num.natAbs q.den (sqrtLastPlace q.num.natAbs q.den) % 2 = 0 then
      F64.fin (scale (sqrtFloor q.num.natAbs q.den (sqrtLastPlace q.num.natAbs q.den))
        (sqrtLastPlace q.num.natAbs q.den))
    else
      F64.fin (scale (sqrtFloor q.num.natAbs q.den (sqrtLastPlace q.num.natAbs q.den) + 1)
        (sqrtLastPlace q.num.natAbs q.den))

/-- Go `math.Sqrt`: the correctly rounded square root; NaN for a negative
argument. -/
def Sqrt : F64 ℚ → F64 ℚ
  | F64.nan => F64.nan
  | F64.negInf => F64.nan
  | F64.posInf => F64.posInf
  | F64.fin x => if x < 0 then F64.nan else if x = 0 then F64.fin 0 else sqrtRound x

/-- Go `math.Float64frombits`: the float64 with the IEEE 754 binary
representation `b` (sign bit, 11 exponent bits, 52 fraction bits). -/
def ofBits (b : ℕ) : F64 ℚ :=
  if b / 2 ^ 52 % 2048 = 2047 then
    (if b % 2 ^ 52 = 0 then (if b / 2 ^ 63 % 2 = 1 then F64.negInf else F64.posInf)
    else F64.nan)
  else if b / 2 ^ 52 % 2048 = 0 then
    (if b / 2 ^ 63 % 2 = 1 then F64.fin (-scale (b % 2 ^ 52) (-1074))
    else F64.fin (scale (b % 2 ^ 52) (-1074)))
  else if b / 2 ^ 63 % 2 = 1 then
    F64.fin (-scale (2 ^ 52 + b % 2 ^ 52) ((b / 2 ^ 52 % 2048 : ℕ) - 1075))
  else F64.fin (scale (2 ^ 52 + b % 2 ^ 52) ((b / 2 ^ 52 % 2048 : ℕ) - 1075))

end binary64

namespace math

open binary64

/-- Go `math.Pi`, an untyped constant: the decimal expansion written in the
source, converted to float64 where it is used. -/
def Pi : ℚ := 3.14159265358979323846264338327950288419716939937510582097494459

/-- Go `reduceThreshold`: `sin` and `cos` hand arguments from `1 << 29` on to
`trigReduce`. -/
def reduceThreshold : ℕ := 2 ^ 29

/-- Go `_sin`, the coefficients of the sine series. -/
def _sin : ℕ → ℚ
  | 0 => 1.58962301576546568060e-10
  | 1 => -2.50507477628578072866e-8
  | 2 => 2.75573136213857245213e-6
  | 3 => -1.98412698295895385996e-4
  | 4 => 8.33333333332211858878e-3
  | _ => -1.66666666666666307295e-1

/-- Go `_cos`, the coefficients of the cosine series. -/
def _cos : ℕ → ℚ
  | 0 => -1.13585365213876817300e-11
  | 1 => 2.08757008419747316778e-9
  | 2 => -2.75573141792967388112e-7
  | 3 => 2.48015872888517045348e-5
  | 4 => -1.38888888888730564116e-3
  | _ => 4.16666666666665929218e-2

/-- Go constant `PI4A` of `sin` and `cos`, the first of the three parts of
`Pi / 4`. -/
def PI4A : ℚ := 7.85398125648498535156e-1

/-- Go constant `PI4B`. -/
def PI4B : ℚ := 3.77489470793079817668e-8

/-- Go constant `PI4C`. -/
def PI4C : ℚ := 2.69515142907905952645e-15

/-- Go `uint64(x)` for a float64 `x` that is not negative: the integer part. -/
def toUint64 : F64 ℚ → ℕ
  | F64.fin x => x.num.toNat / x.den
  | _ => 0

/-- The argument reduction of `sin` and `cos` below `reduceThreshold` (the
`else` branch): `j = uint64(x * (4 / Pi))` and `y = float64(j)`, both advanced
by one when `j` is odd, then the octant `j & 7` and the remainder
`z = ((x - y*PI4A) - y*PI4B) - y*PI4C`. -/
def reduce (x : F64 ℚ) : ℕ × F64 ℚ :=
  let j := toUint64 (mul x (round (4 / Pi)))
  let y := binary64.round (j : ℚ)
  let j1 := if j % 2 = 1 then j + 1 else j
  let y1 := if j % 2 = 1 then add y (F64.fin 1) else y
  (j1 % 8, sub (sub (sub x (mul y1 (round PI4A))) (mul y1 (round PI4B))) (mul y1 (round PI4C)))

/-- The sine series of `sin` and `cos`:
`z + z*zz*((((((_sin[0]*zz)+_sin[1])*zz+_sin[2])*zz+_sin[3])*zz+_sin[4])*zz+_sin[5])`. -/
def sinSeries (z zz : F64 ℚ) : F64 ℚ :=
  add z
    (mul (mul z zz)
      (add (mul (add (mul (add (mul (add (mul (add (mul (round (_sin 0)) zz) (round (_sin 1))) zz)
        (round (_sin 2))) zz) (round (_sin 3))) zz) (round (_sin 4))) zz) (round (_sin 5))))

/-- The cosine series of `sin` and `cos`:
`1.0 - 0.5*zz + zz*zz*((((((_cos[0]*zz)+_cos[1])*zz+_cos[2])*zz+_cos[3])*zz+_cos[4])*zz+_cos[5])`. -/
def cosSeries (zz : F64 ℚ) : F64 ℚ :=
  add (sub (F64.fin 1) (mul (F64.fin (1 / 2)) zz))
    (mul (mul zz zz)
      (add (mul (add (mul (add (mul (add (mul (add (mul (round (_cos 0)) zz) (round (_cos 1))) zz)
        (round (_cos 2))) zz) (round (_cos 3))) zz) (round (_cos 4))) zz) (round (_cos 5))))

/-- The value `y`, negated when `sign` is set (`if sign { y = -y }`). -/
def withSign (sign : Bool) (y : F64 ℚ) : F64 ℚ := if sign then F64.neg y else y

/-- Go `math.sin`, the portable implementation behind `math.Sin`.
`trigReduce` is the Payne-Hanek reduction of arguments from `reduceThreshold`
on. -/
def sin (trigReduce : F64 ℚ → ℕ × F64 ℚ) : F64 ℚ → F64 ℚ
  | F64.nan => F64.nan
  | F64.posInf => F64.nan
  | F64.negInf => F64.nan
  | F64.fin x =>
    if x = 0 then F64.fin 0
    else
      let jz := if F64.le (F64.fin (reduceThreshold : ℚ)) (F64.fin |x|) then
          trigReduce (F64.fin |x|)
        else reduce (F64.fin |x|)
      let sign := if 3 < jz.1 then ! decide (x < 0) else decide (x < 0)
      let j := if 3 < jz.1 then jz.1 - 4 else jz.1
      if j = 1 ∨ j = 2 then withSign sign (cosSeries (mul jz.2 jz.2))
      else withSign sign (sinSeries jz.2 (mul jz.2 jz.2))

/-- Go `math.cos`, the portable implementation behind `math.Cos`. -/
def cos (trigReduce : F64 ℚ → ℕ × F64 ℚ) : F64 ℚ → F64 ℚ
  | F64.nan => F64.nan
  | F64.posInf => F64.nan
  | F64.negInf => F64.nan
  | F64.fin x =>
    let jz := if F64.le (F64.fin (reduceThreshold : ℚ)) (F64.fin |x|) then
        trigReduce (F64.fin |x|)
      else reduce (F64.fin |x|)
    let j := if 3 < jz.1 then jz.1 - 4 else jz.1
    let sign := if 1 < j then ! decide (3 < jz.1) else decide (3 < jz.1)
    if j = 1 ∨ j = 2 then withSign sign (sinSeries jz.2 (mul jz.2 jz.2))
    else withSign sign (cosSeries (mul jz.2 jz.2))

/-- Go constants `P0` to `P4` of `xatan`. -/
def xatanP : ℕ → ℚ
  | 0 => -8.750608600031904122785e-01
  | 1 => -1.615753718733365076637e+01
  | 2 => -7.500855792314704667340e+01
  | 3 => -1.228866684490136173410e+02
  | _ => -6.485021904942025371773e+01

/-- Go constants `Q0` to `Q4` of `xatan`. -/
def xatanQ : ℕ → ℚ
  | 0 => 2.485846490142306297962e+01
  | 1 => 1.650270098316988542046e+02
  | 2 => 4.328810604912902668951e+02
  | 3 => 4.853903996359136964868e+02
  | _ => 1.945506571482613964425e+02

/-- Go `xatan`: the rational approximation of the arc tangent valid in
`[0, 0.66]`, `z := x*x`,
`z = z*((((P0*z+P1)*z+P2)*z+P3)*z+P4) / (((((z+Q0)*z+Q1)*z+Q2)*z+Q3)*z+Q4)`,
`z = x*z + x`. -/
def xatan (x : F64 ℚ) : F64 ℚ :=
  let z := mul x x
  add
    (mul x
      (div
        (mul z
          (add (mul (add (mul (add (mul (add (mul (round (xatanP 0)) z)
            (round (xatanP 1))) z) (round (xatanP 2))) z) (round (xatanP 3))) z)
            (round (xatanP 4))))
        (add (mul (add (mul (add (mul (add (mul (add z
            (round (xatanQ 0))) z) (round (xatanQ 1))) z) (round (xatanQ 2))) z)
            (round (xatanQ 3))) z) (round (xatanQ 4)))))
    x

/-- Go constant `Morebits` of `satan`: `pi/2 = PIO2 + Morebits`. -/
def Morebits : ℚ := 6.123233995736765886130e-17

/-- Go constant `Tan3pio8` of `satan`: `tan(3*pi/8)`. -/
def Tan3pio8 : ℚ := 2.41421356237309504880

/-- Go `satan`: reduces its argument (known to be positive) to the range
`[0, 0.66]` and calls `xatan`. -/
def satan (x : F64 ℚ) : F64 ℚ :=
  if F64.le x (round 0.66) then xatan x
  else if F64.gt x (round Tan3pio8) then
    add (sub (round (Pi / 2)) (xatan (div (F64.fin 1) x))) (round Morebits)
  else
    add (add (round (Pi / 4)) (xatan (div (sub x (F64.fin 1)) (add x (F64.fin 1)))))
      (round (1 / 2 * Morebits))

/-- Go `math.atan`, the portable implementation behind `math.Atan`. -/
def atan (x : F64 ℚ) : F64 ℚ :=
  if x = F64.fin 0 then x
  else if F64.gt x (F64.fin 0) then satan x
  else F64.neg (satan (F64.neg x))

/-- Go `math.atan2`, the portable implementation behind `math.Atan2`: the
special cases, then `Atan(y / x)` moved to the quadrant of `(x, y)`. -/
def atan2 : F64 ℚ → F64 ℚ → F64 ℚ
  | F64.nan, _ => F64.nan
  | _, F64.nan => F64.nan
  | F64.posInf, F64.posInf => round (Pi / 4)
  | F64.negInf, F64.posInf => F64.neg (round (Pi / 4))
  | F64.posInf, F64.negInf => round (3 * Pi / 4)
  | F64.negInf, F64.negInf => F64.neg (round (3 * Pi / 4))
  | F64.fin _, F64.posInf => F64.fin 0
  | F64.fin y, F64.negInf => if 0 ≤ y then round Pi else F64.neg (round Pi)
  | F64.posInf, F64.fin _ => round (Pi / 2)
  | F64.negInf, F64.fin _ => F64.neg (round (Pi / 2))
  | F64.fin y, F64.fin x =>
    if y = 0 then (if 0 ≤ x then F64.fin 0 else round Pi)
    else if x = 0 then (if 0 < y then round (Pi / 2) else F64.neg (round (Pi / 2)))
    else if x < 0 then
      (if F64.le (atan (div (F64.fin y) (F64.fin x))) (F64.fin 0) then
        add (atan (div (F64.fin y) (F64.fin x))) (round Pi)
      else sub (atan (div (F64.fin y) (F64.fin x))) (round Pi))
    else atan (div (F64.fin y) (F64.fin x))

/-- The argument is NaN, an infinity, or of magnitude below `reduceThreshold`:
`sin` and `cos` do not call `trigReduce` on it. -/
def belowThreshold : F64 ℚ → Bool
  | F64.fin x => ! F64.le (F64.fin (reduceThreshold : ℚ)) (F64.fin |x|)
  | _ => true

end math

/-- The float64 environment of Go with the portable `math` functions, every
operation rounded on its own to the nearest binary64 number. -/
def FloatMath.binary64 (trigReduce : F64 ℚ → ℕ × F64 ℚ) : FloatMath ℚ where
  add := binary64.add
  sub := binary64.sub
  mul := binary64.mul
  div := binary64.div
  Pi := binary64.round math.Pi
  Sin := math.sin trigReduce
  Cos := math.cos trigReduce
  Sqrt := binary64.Sqrt
  Atan2 := math.atan2

/-- A stand-in for `trigReduce` where the reduction is not reached. -/
def noReduce : F64 ℚ → ℕ × F64 ℚ := fun x => (0, x)

/-- The four arguments `haversine` hands to `math.Sin` and `math.Cos` in
binary64 arithmetic: `dLat/2`, `dLon/2`, `toRad(lat1)` and `toRad(lat2)`. -/
def trigArguments (lat1 lon1 lat2 lon2 : F64 ℚ) : List (F64 ℚ) :=
  [binary64.div (toRad (FloatMath.binary64 noReduce) (binary64.sub lat2 lat1)) (F64.fin 2),
    binary64.div (toRad (FloatMath.binary64 noReduce) (binary64.sub lon2 lon1)) (F64.fin 2),
    toRad (FloatMath.binary64 noReduce) lat1,
    toRad (FloatMath.binary64 noReduce) lat2]

/-! ## Location service (`service/location.go`) and its repository -/

/-- Modelled from the spec: Go `domain.Vehicle`, whose declaration is not among
the sources; the store's `GetAllVehicles` returns vehicle identifiers, and the
uses (`rows.Scan(&v.VehicleID)`, `domain.Vehicle{VehicleID: ...}`) show one
string field. -/
structure Vehicle where
  VehicleID : String
deriving DecidableEq, Repr

/-- Go `domain.HistoryQuery`. -/
structure HistoryQuery where
  VehicleID : String
  Start : time.Time
  End : time.Time
deriving DecidableEq, Repr

/-- Go interface `database.LocationRepository`, each method a state-passing
function.  A read returns either its `error` or its value. -/
structure LocationRepository (R : Type) (σ : Type) where
  Insert : VehicleLocation R → σ → Option Error × σ
  GetLatest : String → σ → Except Error (VehicleLocation R) × σ
  GetHistory : HistoryQuery → σ → Except Error (List (VehicleLocation R)) × σ
  GetAllVehicles : σ → Except Error (List Vehicle) × σ

/-- Go `LocationService`. -/
structure LocationService (R : Type) (σ : Type) where
  repo : LocationRepository R σ

section LocationServiceMethods

variable {R : Type} {σ : Type}

/-- Go `(*LocationService).SaveLocation`. -/
def LocationService.SaveLocation (s : LocationService R σ) (vl : VehicleLocation R) (w : σ) :
    Option Error × σ :=
  s.repo.Insert vl w

/-- Go `(*LocationService).GetLatest`. -/
def LocationService.GetLatest (s : LocationService R σ) (vehicleID : String) (w : σ) :
    Except Error (VehicleLocation R) × σ :=
  s.repo.GetLatest vehicleID w

/-- Go `(*LocationService).GetHistory`. -/
def LocationService.GetHistory (s : LocationService R σ) (query : HistoryQuery) (w : σ) :
    Except Error (List (VehicleLocation R)) × σ :=
  s.repo.GetHistory query w

/-- Go `(*LocationService).GetAllVehicles`. -/
def LocationService.GetAllVehicles (s : LocationService R σ) (w : σ) :
    Except Error (List Vehicle) × σ :=
  s.repo.GetAllVehicles w

end LocationServiceMethods

/-! ## Alert publisher (`internal/repository/publisher/rabbitmq/geofence.go`) -/

/-- A JSON value, as far as the alert message needs one. -/
inductive JSON (R : Type) where
  | string (s : String) : JSON R
  | number (x : F64 R) : JSON R
  | integer (n : Int) : JSON R
  | object (fields : List (String × JSON R)) : JSON R

namespace rabbitmq

/-- Go constant `exchangeName`. -/
def exchangeName : String := "fleet.events"

/-- Go constant `queueName`. -/
def queueName : String := "geofence_alerts"

/-- Go `amqp.Publishing`, reduced to the fields the publisher sets. -/
structure Publishing where
  ContentType : String
  Body : List UInt8
deriving DecidableEq, Repr

/-- The arguments of one `PublishWithContext(ctx, exchange, key, mandatory,
immediate, msg)` call. -/
structure PublishCall where
  exchange : String
  key : String
  mandatory : Bool
  immediate : Bool
  msg : Publishing
deriving DecidableEq, Repr

/-- Go `*amqp.Channel`, reduced to `PublishWithContext`: a state-passing
function from the arguments of the call to the `error` it returns. -/
structure Channel (σ : Type) where
  PublishWithContext : String → String → Bool → Bool → Publishing → σ → Option Error × σ

/-- Go `GeofencePublisher`. -/
structure GeofencePublisher (σ : Type) where
  ch : Channel σ

/-- Go `alertLocation`. -/
structure alertLocation (R : Type) where
  Latitude : F64 R
  Longitude : F64 R

/-- Go `alertMessage`. -/
structure alertMessage (R : Type) where
  VehicleID : String
  Event : GeofenceEventType
  Location : alertLocation R
  Timestamp : Int

section Publish

variable {R : Type} {σ : Type}

/-- The JSON object the struct tags of `alertLocation` describe. -/
def alertLocation.toJSON (l : alertLocation R) : JSON R :=
  JSON.object [("latitude", JSON.number l.Latitude), ("longitude", JSON.number l.Longitude)]

/-- The JSON object the struct tags of `alertMessage` describe, fields in the
order of their declaration. -/
def alertMessage.toJSON (m : alertMessage R) : JSON R :=
  JSON.object
    [("vehicle_id", JSON.string m.VehicleID),
     ("event", JSON.string m.Event),
     ("location", m.Location.toJSON),
     ("timestamp", JSON.integer m.Timestamp)]

/-- Go `(*GeofencePublisher).PublishAlert`.  `Marshal` is the encoder of
`encoding/json` from a JSON value to bytes; `json.Marshal(msg)` is `Marshal`
applied to the JSON value of `msg`. -/
def GeofencePublisher.PublishAlert (Marshal : JSON R → Except Error (List UInt8))
    (p : GeofencePublisher σ) (alert : GeofenceAlert R) (w : σ) : Option Error × σ :=
  let msg : alertMessage R :=
    { VehicleID := alert.VehicleID
      Event := alert.Event
      Location :=
        { Latitude := alert.Location.Lat
          Longitude := alert.Location.Lon }
      Timestamp := alert.Timestamp }
  match Marshal msg.toJSON with
  | .error err => (some ("marshal alert: " ++ err), w)
  | .ok body =>
    p.ch.PublishWithContext exchangeName "" false false
      { ContentType := "application/json", Body := body } w

/-- A channel wrapped so that the arguments of every `PublishWithContext` call
are appended to a call log before the channel runs. -/
def recordPublishings (ch : Channel σ) : Channel (σ × List PublishCall) where
  PublishWithContext := fun exchange key mandatory immediate msg w =>
    ((ch.PublishWithContext exchange key mandatory immediate msg w.1).1,
      ((ch.PublishWithContext exchange key mandatory immediate msg w.1).2,
        w.2 ++ [{ exchange := exchange, key := key, mandatory := mandatory,
                  immediate := immediate, msg := msg }]))

end Publish

end rabbitmq

/-! ## Query API (`internal/handler/http/vehicle.go`) -/

namespace http

/-- Go constant `http.StatusOK`. -/
def StatusOK : ℕ := 200

/-- Go constant `http.StatusBadRequest`. -/
def StatusBadRequest : ℕ := 400

/-- Go constant `http.StatusNotFound`. -/
def StatusNotFound : ℕ := 404

/-- Go constant `http.StatusInternalServerError`. -/
def StatusInternalServerError : ℕ := 500

/-- Go interface `locationService` of the query API, each method a
state-passing function returning either its `error` or its value. -/
structure locationService (R : Type) (σ : Type) where
  GetLatest : String → σ → Except Error (VehicleLocation R) × σ
  GetHistory : HistoryQuery → σ → Except Error (List (VehicleLocation R)) × σ
  GetAllVehicles : σ → Except Error (List Vehicle) × σ

/-- Go `locationResponse`. -/
structure locationResponse (R : Type) where
  VehicleID : String
  Latitude : F64 R
  Longitude : F64 R
  Timestamp : Int
deriving DecidableEq

/-- Go `VehicleHandler`. -/
structure VehicleHandler (R : Type) (σ : Type) where
  locationSvc : locationService R σ

/-- What a handler reads from its `*gin.Context`: the path parameters
(`c.Param`) and the query parameters (`c.Query`, the empty string when the
parameter is absent). -/
structure Request where
  Param : String → String
  Query : String → String

/-- The value a handler passes to `c.JSON`. -/
inductive Body (R : Type) where
  | error (message : String) : Body R
  | location (l : locationResponse R) : Body R
  | locations (ls : List (locationResponse R)) : Body R
  | vehicles (vs : List Vehicle) : Body R
deriving DecidableEq

/-- The response written by `c.JSON(status, body)`. -/
structure Response (R : Type) where
  status : ℕ
  body : Body R
deriving DecidableEq

section Handlers

variable {R : Type} {σ : Type}

/-- Go `toLocationResponse`. -/
def toLocationResponse (vl : VehicleLocation R) : locationResponse R :=
  { VehicleID := vl.VehicleID
    Latitude := vl.Location.Lat
    Longitude := vl.Location.Lon
    Timestamp := vl.Location.Timestamp.Unix }

/-- Go `(*VehicleHandler).GetAllVehicles`. -/
def VehicleHandler.GetAllVehicles (h : VehicleHandler R σ) (_c : Request) (w : σ) :
    Response R × σ :=
  match h.locationSvc.GetAllVehicles w with
  | (.error _, w1) =>
    ({ status := StatusInternalServerError, body := Body.error "failed to fetch vehicles" }, w1)
  | (.ok vehicles, w1) => ({ status := StatusOK, body := Body.vehicles vehicles }, w1)

/-- Go `(*VehicleHandler).GetLatestLocation`. -/
def VehicleHandler.GetLatestLocation (h : VehicleHandler R σ) (c : Request) (w : σ) :
    Response R × σ :=
  let vehicleID := c.Param "vehicle_id"
  match h.locationSvc.GetLatest vehicleID w with
  | (.error _, w1) => ({ status := StatusNotFound, body := Body.error "vehicle not found" }, w1)
  | (.ok vl, w1) => ({ status := StatusOK, body := Body.location (toLocationResponse vl) }, w1)

/-- Go `(*VehicleHandler).GetHistory`.  `ParseInt` is `strconv.ParseInt`,
applied to the text, the base and the bit size. -/
def VehicleHandler.GetHistory (ParseInt : String → ℕ → ℕ → Except Error Int)
    (h : VehicleHandler R σ) (c : Request) (w : σ) : Response R × σ :=
  let vehicleID := c.Param "vehicle_id"
  match ParseInt (c.Query "start") 10 64 with
  | .error _ => ({ status := StatusBadRequest, body := Body.error "invalid start parameter" }, w)
  | .ok start =>
    match ParseInt (c.Query "end") 10 64 with
    | .error _ => ({ status := StatusBadRequest, body := Body.error "invalid end parameter" }, w)
    | .ok end_ =>
      let query : HistoryQuery :=
        { VehicleID := vehicleID
          Start := time.Unix start 0
          End := time.Unix end_ 0 }
      match h.locationSvc.GetHistory query w with
      | (.error _, w1) =>
        ({ status := StatusInternalServerError, body := Body.error "failed to fetch history" }, w1)
      | (.ok locations, w1) =>
        ({ status := StatusOK, body := Body.locations (locations.map toLocationResponse) }, w1)

end Handlers

end http

/-! ## Wiring (`module/core/build.go`) -/

/-- Go `Module`. -/
structure Module (R : Type) (σ : Type) where
  LocationSvc : LocationService R σ
  GeofenceSvc : GeofenceService R σ
  handler : http.VehicleHandler R σ
  subscriber : LocationSubscriber R σ

section Wiring

variable {R : Type} [LinearOrderedField R] {σ : Type}

/-- Go `Build`, given the repository and the publisher it constructs from its
connections: the location service and the geofence service are created over
them and handed to the query handler and to the subscriber. -/
def Build (fm : FloatMath R) (locationRepo : LocationRepository R σ)
    (geofencePub : GeofenceAlert R → σ → Option Error × σ) (geofences : List (GeoPoint R)) :
    Module R σ :=
  let locationSvc : LocationService R σ := { repo := locationRepo }
  let geofenceSvc : GeofenceService R σ := { publisher := geofencePub, geofences := geofences }
  { LocationSvc := locationSvc
    GeofenceSvc := geofenceSvc
    handler :=
      { locationSvc :=
          { GetLatest := locationSvc.GetLatest
            GetHistory := locationSvc.GetHistory
            GetAllVehicles := locationSvc.GetAllVehicles } }
    subscriber :=
      { locationSvc := locationSvc.SaveLocation
        geofenceSvc := geofenceSvc.CheckAndAlert fm } }

/-- An effect of the pipeline on the outside world: a row inserted into the
store or an alert handed to the publisher. -/
inductive Effect (R : Type) where
  | inserted (vl : VehicleLocation R) : Effect R
  | published (alert : GeofenceAlert R) : Effect R

/-- A repository wrapped so that every `Insert` is appended to an effect log
before the repository runs; reads are passed through. -/
def recordInserts (repo : LocationRepository R σ) : LocationRepository R (σ × List (Effect R)) where
  Insert := fun vl w => ((repo.Insert vl w.1).1, ((repo.Insert vl w.1).2, w.2 ++ [Effect.inserted vl]))
  GetLatest := fun id w => ((repo.GetLatest id w.1).1, ((repo.GetLatest id w.1).2, w.2))
  GetHistory := fun q w => ((repo.GetHistory q w.1).1, ((repo.GetHistory q w.1).2, w.2))
  GetAllVehicles := fun w => ((repo.GetAllVehicles w.1).1, ((repo.GetAllVehicles w.1).2, w.2))

/-- A publisher wrapped so that every alert it is handed is appended to an
effect log before the publisher runs. -/
def recordPublishes (publisher : GeofenceAlert R → σ → Option Error × σ) :
    GeofenceAlert R → σ × List (Effect R) → Option Error × (σ × List (Effect R)) :=
  fun alert w => ((publisher alert w.1).1, ((publisher alert w.1).2, w.2 ++ [Effect.published alert]))

end Wiring

/-! ## `strconv.ParseInt`

The standard-library function `GetHistory` calls on its query parameters,
after `strconv/atoi.go`, for an explicit base (with base 0 excluded no prefix
and no underscore is recognised).  `uint64` arithmetic wraps modulo `2 ^ 64`. -/

namespace strconv

/-- Go `strconv.ErrSyntax`. -/
def ErrSyntax : Error := "invalid syntax"

/-- Go `strconv.ErrRange`. -/
def ErrRange : Error := "value out of range"

/-- The digit a byte stands for in `ParseUint`: `0`-`9`, then the letters of
either case from 10 on; no digit for any other byte. -/
def digitValue (c : Char) : Option ℕ :=
  if 48 ≤ c.toNat ∧ c.toNat ≤ 57 then some (c.toNat - 48)
  else if 97 ≤ c.toNat ∧ c.toNat ≤ 122 then some (c.toNat - 97 + 10)
  else if 65 ≤ c.toNat ∧ c.toNat ≤ 90 then some (c.toNat - 65 + 10)
  else none

/-- The digit loop of Go `ParseUint` on `uint64` (arithmetic modulo `2 ^ 64`),
from the accumulator `n`, returning the value and the `error`: a byte that is
no digit of the base is a syntax error, an overflow of `n * base` or of
`n * base + d` a range error with the value `maxVal`. -/
def parseUintLoop (base maxVal : ℕ) : List Char → ℕ → ℕ × Option Error
  | [], n => (n, none)
  | c :: rest, n =>
    match digitValue c with
    | none => (0, some ErrSyntax)
    | some d =>
      if base ≤ d then (0, some ErrSyntax)
      else if (2 ^ 64 - 1) / base + 1 ≤ n then (maxVal, some ErrRange)
      else if (n * base % 2 ^ 64 + d) % 2 ^ 64 < n * base % 2 ^ 64 ∨
          maxVal < (n * base % 2 ^ 64 + d) % 2 ^ 64 then (maxVal, some ErrRange)
      else parseUintLoop base maxVal rest ((n * base % 2 ^ 64 + d) % 2 ^ 64)

/-- Go `strconv.ParseUint` for an explicit base from 2 to 36 (the prefix
detection of base 0 is not modelled; the repository passes base 10). -/
def ParseUint (s : List Char) (base bitSize : ℕ) : ℕ × Option Error :=
  if s = [] then (0, some ErrSyntax)
  else if ¬ (2 ≤ base ∧ base ≤ 36) then (0, some "invalid base")
  else if 64 < bitSize then (0, some "invalid bit size")
  else parseUintLoop base (2 ^ (if bitSize = 0 then 64 else bitSize) - 1) s 0

/-- Go `int64(u)` for a `uint64`: the two's complement reading. -/
def toInt64 (u : ℕ) : Int :=
  if u % 2 ^ 64 < 2 ^ 63 then (u % 2 ^ 64 : ℕ) else (u % 2 ^ 64 : ℕ) - 2 ^ 64

/-- Go `-n` on `int64`, wrapping. -/
def negInt64 (n : Int) : Int :=
  (-n + 2 ^ 63) % 2 ^ 64 - 2 ^ 63

/-- The second half of Go `strconv.ParseInt`, after the sign is picked off
and `ParseUint` has returned `un` and `err`: an error other than a range error
is passed on, a magnitude that does not fit the signed bit size is a range
error, and the value is `int64(un)`, negated after a minus sign. -/
def signedResult (neg : Bool) (bitSize : ℕ) (un : ℕ) (err : Option Error) : Except Error Int :=
  if err.isSome ∧ err ≠ some ErrRange then .error (err.getD ErrSyntax)
  else
    let cutoff := 2 ^ ((if bitSize = 0 then 64 else bitSize) - 1)
    if neg = false ∧ cutoff ≤ un then .error ErrRange
    else if neg = true ∧ cutoff < un then .error ErrRange
    else if neg = true then .ok (negInt64 (toInt64 un)) else .ok (toInt64 un)

/-- Go `strconv.ParseInt` for an explicit base from 2 to 36: the empty text is
a syntax error; otherwise a leading `+` or `-` is picked off, the rest goes to
`ParseUint` and the result is range-checked by `signedResult`.  The value is
returned only when there is no `error`. -/
def ParseInt (s : String) (base bitSize : ℕ) : Except Error Int :=
  match s.toList with
  | [] => .error ErrSyntax
  | c :: rest =>
    signedResult (decide (c = '-')) bitSize
      (ParseUint (if c = '+' ∨ c = '-' then rest else c :: rest) base bitSize).1
      (ParseUint (if c = '+' ∨ c = '-' then rest else c :: rest) base bitSize).2

end strconv

/-! ## What the query API accepts as a timestamp -/

/-- The number a string of decimal digits denotes when read after the digits
that gave `acc`; nothing for a string with another character. -/
def decimalDigits : List Char → ℕ → Option ℕ
  | [], acc => some acc
  | c :: rest, acc =>
    if 48 ≤ c.toNat ∧ c.toNat ≤ 57 then decimalDigits rest (acc * 10 + (c.toNat - 48)) else none

/-- The integer a decimal numeral denotes: an optional sign `+` or `-`
followed by at least one decimal digit. -/
def decimalNumeral (s : String) : Option Int :=
  match s.toList with
  | [] => none
  | c :: rest =>
    if c = '+' then
      (if rest = [] then none else Option.map (fun n : ℕ => (n : Int)) (decimalDigits rest 0))
    else if c = '-' then
      (if rest = [] then none else Option.map (fun n : ℕ => -(n : Int)) (decimalDigits rest 0))
    else Option.map (fun n : ℕ => (n : Int)) (decimalDigits (c :: rest) 0)

/-- The text is a base-10 signed 64-bit integer: a decimal numeral whose value
lies in `[-2^63, 2^63)`. -/
def IsBase10Int64 (s : String) : Prop :=
  ∃ n : Int, decimalNumeral s = some n ∧ -2 ^ 63 ≤ n ∧ n < 2 ^ 63

/-! ## Observing the calls of the query handlers -/

namespace http

/-- A call made by a query handler on its location service. -/
inductive ServiceCall where
  | GetLatest (vehicleID : String) : ServiceCall
  | GetHistory (query : HistoryQuery) : ServiceCall
  | GetAllVehicles : ServiceCall
deriving DecidableEq, Repr

/-- The location service wrapped so that every call is appended to a call log
before the service runs. -/
def locationService.recorded {R : Type} {σ : Type} (svc : locationService R σ) :
    locationService R (σ × List ServiceCall) where
  GetLatest := fun id w =>
    ((svc.GetLatest id w.1).1, ((svc.GetLatest id w.1).2, w.2 ++ [ServiceCall.GetLatest id]))
  GetHistory := fun q w =>
    ((svc.GetHistory q w.1).1, ((svc.GetHistory q w.1).2, w.2 ++ [ServiceCall.GetHistory q]))
  GetAllVehicles := fun w =>
    ((svc.GetAllVehicles w.1).1, ((svc.GetAllVehicles w.1).2, w.2 ++ [ServiceCall.GetAllVehicles]))

end http

/-! ## Test doubles and sample data of the repository's tests -/

/-- A publisher that accepts every alert and keeps no state. -/
def okPublisher {R : Type} : GeofenceAlert R → Unit → Option Error × Unit :=
  fun _ w => (none, w)

/-- The publisher of `TestCheckAndAlert_PublishError`: every call fails. -/
def downPublisher {R : Type} : GeofenceAlert R → Unit → Option Error × Unit :=
  fun _ w => (some "rabbitmq down", w)

/-- The vehicle location used throughout `geofence_test.go`. -/
def sampleLocation (R : Type) [LinearOrderedField R] : VehicleLocation R :=
  { VehicleID := "B1234XYZ"
    Location :=
      { Lat := F64.fin (-6.2088), Lon := F64.fin 106.8456, Timestamp := time.Unix 1715003456 0 } }

/-- The geofences of `TestCheckAndAlert_MultipleGeofences`: two centred on the
sample location, with radius 50 and 100, and one far away. -/
def sampleGeofences (R : Type) [LinearOrderedField R] : List (GeoPoint R) :=
  [{ Lat := F64.fin (-6.2088), Lon := F64.fin 106.8456, Radius := F64.fin 50 },
   { Lat := F64.fin (-6.2088), Lon := F64.fin 106.8456, Radius := F64.fin 100 },
   { Lat := F64.fin (-7.0), Lon := F64.fin 107.0, Radius := F64.fin 50 }]

/-- Three geofences that all contain the sample location (radius 50, 100 and
200 around it). -/
def nestedGeofences (R : Type) [LinearOrderedField R] : List (GeoPoint R) :=
  [{ Lat := F64.fin (-6.2088), Lon := F64.fin 106.8456, Radius := F64.fin 50 },
   { Lat := F64.fin (-6.2088), Lon := F64.fin 106.8456, Radius := F64.fin 100 },
   { Lat := F64.fin (-6.2088), Lon := F64.fin 106.8456, Radius := F64.fin 200 }]

/-- A decoded report used by the handler tests. -/
def sampleMessage (R : Type) [LinearOrderedField R] : locationMessage R :=
  { VehicleID := "B1234XYZ", Latitude := F64.fin (-6.2088), Longitude := F64.fin 106.8456,
    Timestamp := 1715003456 }

/-- The report of `TestHandleMessage_ValidationError`: no vehicle id. -/
def anonymousMessage (R : Type) [LinearOrderedField R] : locationMessage R :=
  { VehicleID := "", Latitude := F64.fin (-6.2), Longitude := F64.fin 106.8,
    Timestamp := 1715003456 }

/-- A decoder double standing for `json.Unmarshal`: the empty payload is
malformed, every other payload decodes to the given report. -/
def stubUnmarshal {R : Type} (raw : locationMessage R) : Unmarshal R :=
  fun payload =>
    if payload = [] then .error "unexpected end of JSON input" else .ok raw

/-- An in-memory location service: the world state is the list of saved
locations, and every save succeeds. -/
def memoryLocationSvc {R : Type} :
    VehicleLocation R → List (VehicleLocation R) → Option Error × List (VehicleLocation R) :=
  fun vl w => (none, w ++ [vl])

/-- The location service of `TestHandleMessage_SaveError_SkipsGeofence`:
every save fails and nothing is stored. -/
def failingLocationSvc {R : Type} :
    VehicleLocation R → List (VehicleLocation R) → Option Error × List (VehicleLocation R) :=
  fun _ w => (some "db error", w)

/-- A geofence service double that reports no error and leaves the world
untouched. -/
def quietGeofenceSvc {R : Type} :
    VehicleLocation R → List (VehicleLocation R) → Option Error × List (VehicleLocation R) :=
  fun _ w => (none, w)

/-- A geofence service double whose check fails and leaves the world untouched. -/
def failingGeofenceSvc {R : Type} :
    VehicleLocation R → List (VehicleLocation R) → Option Error × List (VehicleLocation R) :=
  fun _ w => (some "rabbitmq down", w)

/-- The far-away location of `TestCheckAndAlert_OutsideGeofence`. -/
def farLocation (R : Type) [LinearOrderedField R] : VehicleLocation R :=
  { VehicleID := "B1234XYZ"
    Location :=
      { Lat := F64.fin (-7.0), Lon := F64.fin 107.0, Timestamp := time.Unix 1715003456 0 } }

/-- The geofence of `cmd/server/main.go` and of the tests: radius 50 around
(-6.2088, 106.8456). -/
def centerGeofence (R : Type) [LinearOrderedField R] : GeoPoint R :=
  { Lat := F64.fin (-6.2088), Lon := F64.fin 106.8456, Radius := F64.fin 50 }

/-- A geofence with a negative radius, centred on the sample location. -/
def negativeGeofence (R : Type) [LinearOrderedField R] : GeoPoint R :=
  { Lat := F64.fin (-6.2088), Lon := F64.fin 106.8456, Radius := F64.fin (-50) }

/-- The report of the end-to-end scenario of the specification. -/
def b1Message (R : Type) [LinearOrderedField R] : locationMessage R :=
  { VehicleID := "B1", Latitude := F64.fin (-6.2088), Longitude := F64.fin 106.8456,
    Timestamp := 1715003456 }

/-- An in-memory repository: the world state is the list of inserted rows,
every insert succeeds, and the reads answer from that list (an unknown vehicle
has no latest row). -/
def memoryRepo (R : Type) : LocationRepository R (List (VehicleLocation R)) where
  Insert := fun vl w => (none, w ++ [vl])
  GetLatest := fun id w =>
    match (w.filter (fun vl => vl.VehicleID == id)).getLast? with
    | some vl => (.ok vl, w)
    | none => (.error "sql: no rows in result set", w)
  GetHistory := fun q w => (.ok (w.filter (fun vl => vl.VehicleID == q.VehicleID)), w)
  GetAllVehicles := fun w => (.ok (w.map (fun vl => { VehicleID := vl.VehicleID })), w)

/-- A publisher over any world that accepts every alert and changes nothing. -/
def acceptingPublisher {R : Type} {σ : Type} : GeofenceAlert R → σ → Option Error × σ :=
  fun _ w => (none, w)

/-- An encoder double standing for `json.Marshal`: every value encodes, to a
fixed body. -/
def stubMarshal {R : Type} : JSON R → Except Error (List UInt8) :=
  fun _ => .ok [123, 125]

/-- A channel that accepts every publishing and keeps no state. -/
def openChannel : rabbitmq.Channel Unit where
  PublishWithContext := fun _ _ _ _ _ w => (none, w)

/-- A closed channel: every publish fails. -/
def closedChannel : rabbitmq.Channel Unit where
  PublishWithContext := fun _ _ _ _ _ w => (some "channel/connection is not open", w)

/-- A query service whose store is unreachable: every method returns the
error `db error`, as in `TestGetHistory_ServiceError`. -/
def unreachableService (R : Type) : http.locationService R Unit where
  GetLatest := fun _ w => (.error "db error", w)
  GetHistory := fun _ w => (.error "db error", w)
  GetAllVehicles := fun w => (.error "db error", w)

/-- The request `GET /vehicles/B1234XYZ/history?start=1715000000&end=1715009999`
of the handler tests, as seen through `c.Param` and `c.Query`. -/
def sampleRequest : http.Request where
  Param := fun name => if name = "vehicle_id" then "B1234XYZ" else ""
  Query := fun name =>
    if name = "start" then "1715000000" else if name = "end" then "1715009999" else ""

/-- A parser double standing for `strconv.ParseInt` on the two timestamps of
`sampleRequest`; every other text is rejected. -/
def stubParseInt : String → ℕ → ℕ → Except Error Int :=
  fun text _ _ =>
    if text = "1715000000" then .ok 1715000000
    else if text = "1715009999" then .ok 1715009999
    else .error "invalid syntax"

/-- The request of `TestGetHistory_InvalidStart`: `start=abc&end=1715009999`. -/
def invalidStartRequest : http.Request where
  Param := fun name => if name = "vehicle_id" then "B1234XYZ" else ""
  Query := fun name => if name = "start" then "abc" else if name = "end" then "1715009999" else ""

/-- The request of `TestGetHistory_InvalidEnd`: `start=1715000000&end=abc`. -/
def invalidEndRequest : http.Request where
  Param := fun name => if name = "vehicle_id" then "B1234XYZ" else ""
  Query := fun name => if name = "start" then "1715000000" else if name = "end" then "abc" else ""

/-- A history request without any query parameter. -/
def bareRequest : http.Request where
  Param := fun name => if name = "vehicle_id" then "B1234XYZ" else ""
  Query := fun _ => ""

/-! # Theorems -/

open F64

/-! ## Validation -/

section ValidationFacts

variable {R : Type} [LinearOrderedField R]

/-- Acceptance spelled out: no check of `validateLocationMessage` fires. -/
theorem validateLocationMessage_eq_none_iff (msg : locationMessage R) :
    validateLocationMessage msg = none ↔
      msg.VehicleID ≠ "" ∧
      (F64.lt msg.Latitude (F64.fin (-90)) = false ∧ F64.gt msg.Latitude (F64.fin 90) = false) ∧
      (F64.lt msg.Longitude (F64.fin (-180)) = false ∧
        F64.gt msg.Longitude (F64.fin 180) = false) ∧
      0 < msg.Timestamp := by
  unfold validateLocationMessage
  split_ifs with h1 h2 h3 h4
  · simp_all
  · rw [Bool.or_eq_true] at h2
    rcases h2 with h2 | h2 <;> simp [h2]
  · rw [Bool.or_eq_true] at h3
    rcases h3 with h3 | h3 <;> simp [h3]
  · simp_all
  · simp_all

/-- An accepted report whose coordinates are not NaN satisfies the ingress
invariants. -/
theorem validateLocationMessage_sound (msg : locationMessage R)
    (hlat : msg.Latitude ≠ nan) (hlon : msg.Longitude ≠ nan)
    (h : validateLocationMessage msg = none) : IngressInvariants msg := by
  rw [validateLocationMessage_eq_none_iff] at h
  rcases msg with ⟨id, lat, lon, ts⟩
  cases lat <;> cases lon <;>
    simp_all [F64.lt, F64.gt, IngressInvariants, F64.InRange]

/-- A report whose coordinates are not NaN and that violates an ingress
invariant is rejected. -/
theorem validateLocationMessage_rejects (msg : locationMessage R)
    (hlat : msg.Latitude ≠ nan) (hlon : msg.Longitude ≠ nan)
    (h : ¬ IngressInvariants msg) : ∃ err, validateLocationMessage msg = some err := by
  cases hv : validateLocationMessage msg with
  | none => exact absurd (validateLocationMessage_sound msg hlat hlon hv) h
  | some err => exact ⟨err, rfl⟩

/-- The float64 nearest to 90.0000001 is rejected as a latitude, and the one
nearest to -180.0000001 as a longitude. -/
theorem validateLocationMessage_rejects_just_outside :
    validateLocationMessage
        ({ VehicleID := "X", Latitude := fin (3166593491513317 / 35184372088832),
           Longitude := fin 0, Timestamp := 1 } : locationMessage ℚ) =
      some "latitude: must be between -90 and 90" ∧
    validateLocationMessage
        ({ VehicleID := "X", Latitude := fin 0,
           Longitude := fin (-6333186979508197 / 35184372088832), Timestamp := 1 } :
          locationMessage ℚ) =
      some "longitude: must be between -180 and 180" := by
  constructor <;> simp [validateLocationMessage, F64.lt, F64.gt] <;> norm_num

/-- A report satisfying the ingress invariants is accepted. -/
theorem validateLocationMessage_of_invariants (msg : locationMessage R)
    (h : IngressInvariants msg) : validateLocationMessage msg = none := by
  obtain ⟨hid, hlat, hlon, hts⟩ := h
  rcases msg with ⟨id, lat, lon, ts⟩
  cases lat <;> simp [F64.InRange] at hlat
  cases lon <;> simp [F64.InRange] at hlon
  simp at hid hts
  simp [validateLocationMessage, F64.lt, F64.gt, hid, hlat, hlon, hts, not_lt.mpr]

/-- C1: a report with a non-empty vehicle id, latitude in [-90, 90], longitude
in [-180, 180] and a positive timestamp passes `validateLocationMessage`. -/
theorem validateLocationMessage_accepts_valid (msg : locationMessage R)
    (h : IngressInvariants msg) : validateLocationMessage msg = none :=
  validateLocationMessage_of_invariants msg h

end ValidationFacts

/-- Boundary values of C1: latitude -90 with longitude -180, and latitude 90
with longitude 180, satisfy the invariants and are accepted. -/
theorem validateLocationMessage_accepts_valid_witness :
    (IngressInvariants
        ({ VehicleID := "X", Latitude := fin (-90), Longitude := fin (-180), Timestamp := 1 } :
          locationMessage ℚ) ∧
      validateLocationMessage
        ({ VehicleID := "X", Latitude := fin (-90), Longitude := fin (-180), Timestamp := 1 } :
          locationMessage ℚ) = none) ∧
    (IngressInvariants
        ({ VehicleID := "X", Latitude := fin 90, Longitude := fin 180, Timestamp := 1 } :
          locationMessage ℚ) ∧
      validateLocationMessage
        ({ VehicleID := "X", Latitude := fin 90, Longitude := fin 180, Timestamp := 1 } :
          locationMessage ℚ) = none) :=
  ⟨⟨by simp [IngressInvariants, F64.InRange],
      validateLocationMessage_accepts_valid _ (by simp [IngressInvariants, F64.InRange])⟩,
    ⟨by simp [IngressInvariants, F64.InRange],
      validateLocationMessage_accepts_valid _ (by simp [IngressInvariants, F64.InRange])⟩⟩

/-- A report whose latitude (or longitude) is the float64 NaN violates the
range invariant, yet `validateLocationMessage` returns no error for it: both
comparisons of a range check are false on NaN.  NaN is not among the values
`json.Unmarshal` decodes, so the handler never passes such a report. -/
theorem validateLocationMessage_accepts_nan :
    (validateLocationMessage
        ({ VehicleID := "X", Latitude := nan, Longitude := fin 0, Timestamp := 1 } :
          locationMessage ℚ) = none ∧
      ¬ IngressInvariants
        ({ VehicleID := "X", Latitude := nan, Longitude := fin 0, Timestamp := 1 } :
          locationMessage ℚ)) ∧
    (validateLocationMessage
        ({ VehicleID := "X", Latitude := fin 0, Longitude := nan, Timestamp := 1 } :
          locationMessage ℚ) = none ∧
      ¬ IngressInvariants
        ({ VehicleID := "X", Latitude := fin 0, Longitude := nan, Timestamp := 1 } :
          locationMessage ℚ)) := by
  refine ⟨⟨by decide, ?_⟩, ⟨by decide, ?_⟩⟩ <;> simp [IngressInvariants, F64.InRange]

/-! ## Ingestion handler -/

section HandlerFacts

variable {R : Type} [LinearOrderedField R] {σ : Type}

/-- The seconds of `time.Unix(ts, 0)` are `ts`. -/
theorem time_Unix_Unix (ts : Int) : (time.Unix ts 0).Unix = ts := by
  simp [time.Unix, time.Time.Unix, Int.fdiv]

/-- The location built from a report satisfying the invariants is valid. -/
theorem toVehicleLocation_valid (raw : locationMessage R) (h : IngressInvariants raw) :
    raw.toVehicleLocation.Valid := by
  obtain ⟨h1, h2, h3, h4⟩ := h
  exact ⟨h1, h2, h3, by simpa [locationMessage.toVehicleLocation, time_Unix_Unix] using h4⟩

/-- The handler on a payload that does not decode. -/
theorem handleMessage_decode_error (unmarshal : Unmarshal R) (s : LocationSubscriber R σ)
    (payload : List UInt8) (w : σ) (err : Error) (h : unmarshal payload = .error err) :
    s.handleMessage unmarshal payload w = (w, ["invalid location message: " ++ err]) := by
  simp [LocationSubscriber.handleMessage, h]

/-- The handler on a payload decoding to a report that fails validation. -/
theorem handleMessage_validation_error (unmarshal : Unmarshal R) (s : LocationSubscriber R σ)
    (payload : List UInt8) (w : σ) (raw : locationMessage R) (err : Error)
    (h : unmarshal payload = .ok raw) (hv : validateLocationMessage raw = some err) :
    s.handleMessage unmarshal payload w = (w, ["validation error: " ++ err]) := by
  simp [LocationSubscriber.handleMessage, h, hv]

/-- The handler on a payload decoding to a valid report: save, then detect. -/
theorem handleMessage_valid (unmarshal : Unmarshal R) (s : LocationSubscriber R σ)
    (payload : List UInt8) (w : σ) (raw : locationMessage R)
    (h : unmarshal payload = .ok raw) (hv : validateLocationMessage raw = none) :
    s.handleMessage unmarshal payload w =
      match s.locationSvc raw.toVehicleLocation w with
      | (some err, w1) => (w1, ["save location error: " ++ err])
      | (none, w1) =>
        match s.geofenceSvc raw.toVehicleLocation w1 with
        | (some err, w2) => (w2, ["geofence check error: " ++ err])
        | (none, w2) => (w2, []) := by
  simp [LocationSubscriber.handleMessage, h, hv, locationMessage.toVehicleLocation]

/-- The world state left by the handler when the save of a valid report fails. -/
theorem handleMessage_save_error (unmarshal : Unmarshal R) (s : LocationSubscriber R σ)
    (payload : List UInt8) (w : σ) (raw : locationMessage R) (err : Error)
    (h : unmarshal payload = .ok raw) (hv : validateLocationMessage raw = none)
    (hs : (s.locationSvc raw.toVehicleLocation w).1 = some err) :
    (s.handleMessage unmarshal payload w).1 = (s.locationSvc raw.toVehicleLocation w).2 := by
  rw [handleMessage_valid unmarshal s payload w raw h hv]
  rcases hsv : s.locationSvc raw.toVehicleLocation w with ⟨e, w1⟩
  rw [hsv] at hs
  simp at hs
  subst hs
  rfl

/-- The world state left by the handler when the save of a valid report
succeeds: the state the geofence check leaves, whatever the check returns. -/
theorem handleMessage_saved (unmarshal : Unmarshal R) (s : LocationSubscriber R σ)
    (payload : List UInt8) (w : σ) (raw : locationMessage R)
    (h : unmarshal payload = .ok raw) (hv : validateLocationMessage raw = none)
    (hs : (s.locationSvc raw.toVehicleLocation w).1 = none) :
    (s.handleMessage unmarshal payload w).1 =
      (s.geofenceSvc raw.toVehicleLocation (s.locationSvc raw.toVehicleLocation w).2).2 := by
  rw [handleMessage_valid unmarshal s payload w raw h hv]
  rcases hsv : s.locationSvc raw.toVehicleLocation w with ⟨e, w1⟩
  rw [hsv] at hs
  simp at hs
  subst hs
  rcases hg : s.geofenceSvc raw.toVehicleLocation w1 with ⟨e, w2⟩
  cases e <;> simp [hg]

/-- The recorded run when the save of a valid report fails: one call. -/
theorem recorded_save_error (unmarshal : Unmarshal R) (s : LocationSubscriber R σ)
    (payload : List UInt8) (w : σ) (raw : locationMessage R) (err : Error)
    (h : unmarshal payload = .ok raw) (hv : validateLocationMessage raw = none)
    (hs : (s.locationSvc raw.toVehicleLocation w).1 = some err) :
    (s.recorded.handleMessage unmarshal payload (w, [])).1 =
      ((s.locationSvc raw.toVehicleLocation w).2,
        [Call.SaveLocation raw.toVehicleLocation (some err)]) := by
  rw [handleMessage_save_error unmarshal s.recorded payload (w, []) raw err h hv
    (by simpa [LocationSubscriber.recorded] using hs)]
  simp [LocationSubscriber.recorded, hs]

/-- The recorded run when the save of a valid report succeeds: the save, then
the geofence check on the state the save left. -/
theorem recorded_saved (unmarshal : Unmarshal R) (s : LocationSubscriber R σ)
    (payload : List UInt8) (w : σ) (raw : locationMessage R)
    (h : unmarshal payload = .ok raw) (hv : validateLocationMessage raw = none)
    (hs : (s.locationSvc raw.toVehicleLocation w).1 = none) :
    (s.recorded.handleMessage unmarshal payload (w, [])).1 =
      ((s.geofenceSvc raw.toVehicleLocation (s.locationSvc raw.toVehicleLocation w).2).2,
        [Call.SaveLocation raw.toVehicleLocation none,
          Call.CheckAndAlert raw.toVehicleLocation
            (s.geofenceSvc raw.toVehicleLocation
              (s.locationSvc raw.toVehicleLocation w).2).1]) := by
  rw [handleMessage_saved unmarshal s.recorded payload (w, []) raw h hv
    (by simpa [LocationSubscriber.recorded] using hs)]
  simp [LocationSubscriber.recorded, hs]

/-- C3: when the payload fails to decode, or decodes to a report that fails
validation, `handleMessage` returns with the world state untouched and with
neither `SaveLocation` nor `CheckAndAlert` called. -/
theorem handleMessage_drops_rejected (unmarshal : Unmarshal R) (s : LocationSubscriber R σ)
    (payload : List UInt8) (w : σ)
    (h : (∃ err, unmarshal payload = .error err) ∨
      (∃ raw err, unmarshal payload = .ok raw ∧ validateLocationMessage raw = some err)) :
    (s.recorded.handleMessage unmarshal payload (w, [])).1 = (w, []) ∧
      (s.handleMessage unmarshal payload w).1 = w := by
  rcases h with ⟨err, h⟩ | ⟨raw, err, h, hv⟩
  · simp [handleMessage_decode_error _ _ _ _ err h]
  · simp [handleMessage_validation_error _ _ _ _ raw err h hv]

/-- C4: for a valid report whose `SaveLocation` returns an error,
`handleMessage` returns having made exactly one call, that `SaveLocation`, and
no `CheckAndAlert`. -/
theorem handleMessage_save_error_skips_detection (unmarshal : Unmarshal R)
    (s : LocationSubscriber R σ) (payload : List UInt8) (w : σ) (raw : locationMessage R)
    (err : Error) (h : unmarshal payload = .ok raw) (hv : validateLocationMessage raw = none)
    (hs : (s.locationSvc raw.toVehicleLocation w).1 = some err) :
    (s.recorded.handleMessage unmarshal payload (w, [])).1 =
      ((s.locationSvc raw.toVehicleLocation w).2,
        [Call.SaveLocation raw.toVehicleLocation (some err)]) :=
  recorded_save_error unmarshal s payload w raw err h hv hs

/-- C5: for a payload decoding to a valid report `(id, lat, lon, ts)` whose
`SaveLocation` succeeds, `handleMessage` makes exactly two calls: first
`SaveLocation` with the location `vl` of vehicle `id` at `(lat, lon)` with
timestamp `time.Unix(ts, 0)`, the instant `ts` seconds after the epoch, then
`CheckAndAlert` with the same `vl`, run on the state the save left. -/
theorem handleMessage_saves_then_detects (unmarshal : Unmarshal R)
    (s : LocationSubscriber R σ) (payload : List UInt8) (w : σ)
    (id : String) (lat lon : F64 R) (ts : Int) (vl : VehicleLocation R)
    (hvl : vl =
      { VehicleID := id, Location := { Lat := lat, Lon := lon, Timestamp := time.Unix ts 0 } })
    (h : unmarshal payload =
      .ok { VehicleID := id, Latitude := lat, Longitude := lon, Timestamp := ts })
    (hv : validateLocationMessage
      ({ VehicleID := id, Latitude := lat, Longitude := lon, Timestamp := ts } :
        locationMessage R) = none)
    (hs : (s.locationSvc vl w).1 = none) :
    (s.recorded.handleMessage unmarshal payload (w, [])).1 =
        ((s.geofenceSvc vl (s.locationSvc vl w).2).2,
          [Call.SaveLocation vl none,
            Call.CheckAndAlert vl (s.geofenceSvc vl (s.locationSvc vl w).2).1]) ∧
      vl.Location.Timestamp = { sec := ts, nsec := 0 } := by
  subst hvl
  exact ⟨recorded_saved unmarshal s payload w _ h hv hs, by simp [time.Unix, Int.fdiv, Int.fmod]⟩

/-- C6: whenever `handleMessage` calls `CheckAndAlert` on a location, that
location satisfies the ingress invariants, and the only earlier call is a
`SaveLocation` on the same location that returned no error. -/
theorem handleMessage_detects_only_valid_saved (unmarshal : Unmarshal R)
    (hjson : Unmarshal.NoNaN unmarshal) (s : LocationSubscriber R σ) (payload : List UInt8)
    (w : σ) (vl : VehicleLocation R) (r : Option Error)
    (hcall : Call.CheckAndAlert vl r ∈ (s.recorded.handleMessage unmarshal payload (w, [])).1.2) :
    vl.Valid ∧ (s.locationSvc vl w).1 = none ∧
      (s.recorded.handleMessage unmarshal payload (w, [])).1.2 =
        [Call.SaveLocation vl none, Call.CheckAndAlert vl r] := by
  cases hdec : unmarshal payload with
  | error err =>
    rw [handleMessage_decode_error _ _ _ _ err hdec] at hcall
    simp at hcall
  | ok raw =>
    cases hv : validateLocationMessage raw with
    | some err =>
      rw [handleMessage_validation_error _ _ _ _ raw err hdec hv] at hcall
      simp at hcall
    | none =>
      cases hs : (s.locationSvc raw.toVehicleLocation w).1 with
      | some err =>
        rw [recorded_save_error unmarshal s payload w raw err hdec hv hs] at hcall
        simp at hcall
      | none =>
        have hrun := recorded_saved unmarshal s payload w raw hdec hv hs
        rw [hrun] at hcall ⊢
        simp at hcall
        obtain ⟨hvl, hr⟩ := hcall
        subst hvl
        refine ⟨?_, hs, by simp [hr]⟩
        exact toVehicleLocation_valid raw
          (validateLocationMessage_sound raw (hjson payload raw hdec).1
            (hjson payload raw hdec).2 hv)

/-- C7: for a valid report whose `SaveLocation` succeeds and whose
`CheckAndAlert` returns an error, `handleMessage` makes no call after the
check and leaves exactly the world state the check left; a run in which the
check succeeds with the same effect ends in the same state. -/
theorem handleMessage_detect_error_keeps_state (unmarshal : Unmarshal R)
    (s : LocationSubscriber R σ) (payload : List UInt8) (w w2 : σ) (raw : locationMessage R)
    (err : Error) (h : unmarshal payload = .ok raw) (hv : validateLocationMessage raw = none)
    (hs : (s.locationSvc raw.toVehicleLocation w).1 = none)
    (hg : s.geofenceSvc raw.toVehicleLocation (s.locationSvc raw.toVehicleLocation w).2 =
      (some err, w2)) :
    (s.recorded.handleMessage unmarshal payload (w, [])).1 =
        (w2, [Call.SaveLocation raw.toVehicleLocation none,
          Call.CheckAndAlert raw.toVehicleLocation (some err)]) ∧
      ∀ s' : LocationSubscriber R σ, s'.locationSvc = s.locationSvc →
        s'.geofenceSvc raw.toVehicleLocation (s.locationSvc raw.toVehicleLocation w).2 =
          (none, w2) →
        (s'.handleMessage unmarshal payload w).1 = (s.handleMessage unmarshal payload w).1 := by
  constructor
  · rw [recorded_saved unmarshal s payload w raw h hv hs, hg]
  · intro s' hloc hg'
    rw [handleMessage_saved unmarshal s payload w raw h hv hs,
      handleMessage_saved unmarshal s' payload w raw h hv (by rw [hloc]; exact hs), hloc, hg, hg']

end HandlerFacts

section HandlerWitnesses

/-- The sample report passes validation. -/
theorem sampleMessage_valid : validateLocationMessage (sampleMessage ℚ) = none :=
  validateLocationMessage_of_invariants _
    (by simp [IngressInvariants, sampleMessage, F64.InRange]; norm_num)

/-- The stub decoder never yields a NaN coordinate for the sample report. -/
theorem stubUnmarshal_sample_noNaN : Unmarshal.NoNaN (stubUnmarshal (sampleMessage ℚ)) := by
  intro payload raw h
  unfold stubUnmarshal at h
  split_ifs at h
  simp only [Except.ok.injEq] at h
  subst h
  simp [sampleMessage]

/-- Instances of C3: an empty payload does not decode, a payload decoding to a
report without vehicle id fails validation; in both runs nothing is called. -/
theorem handleMessage_drops_rejected_witness :
    ((LocationSubscriber.recorded
          { locationSvc := memoryLocationSvc, geofenceSvc := quietGeofenceSvc }).handleMessage
        (stubUnmarshal (sampleMessage ℚ)) [] ([], [])).1 = ([], []) ∧
      ((LocationSubscriber.recorded
          { locationSvc := memoryLocationSvc, geofenceSvc := quietGeofenceSvc }).handleMessage
        (stubUnmarshal (anonymousMessage ℚ)) [123, 125] ([], [])).1 = ([], []) :=
  ⟨(handleMessage_drops_rejected (stubUnmarshal (sampleMessage ℚ))
      { locationSvc := memoryLocationSvc, geofenceSvc := quietGeofenceSvc } [] []
      (Or.inl ⟨"unexpected end of JSON input", rfl⟩)).1,
    (handleMessage_drops_rejected (stubUnmarshal (anonymousMessage ℚ))
      { locationSvc := memoryLocationSvc, geofenceSvc := quietGeofenceSvc } [123, 125] []
      (Or.inr ⟨anonymousMessage ℚ, "vehicle_id: required", rfl, by
        simp [validateLocationMessage, anonymousMessage]⟩)).1⟩

/-- Instance of C4 (`TestHandleMessage_SaveError_SkipsGeofence`): the save of
the sample report fails; the only call is that save. -/
theorem handleMessage_save_error_skips_detection_witness :
    validateLocationMessage (sampleMessage ℚ) = none ∧
      ((LocationSubscriber.recorded
          { locationSvc := failingLocationSvc, geofenceSvc := quietGeofenceSvc }).handleMessage
        (stubUnmarshal (sampleMessage ℚ)) [123, 125] ([], [])).1 =
        ([], [Call.SaveLocation (sampleMessage ℚ).toVehicleLocation (some "db error")]) :=
  ⟨sampleMessage_valid,
    handleMessage_save_error_skips_detection (stubUnmarshal (sampleMessage ℚ))
      { locationSvc := failingLocationSvc, geofenceSvc := quietGeofenceSvc } [123, 125] []
      (sampleMessage ℚ) "db error" rfl sampleMessage_valid rfl⟩

/-- Instance of C5 (`TestHandleMessage_Success`): the sample report is saved
and then checked, both with vehicle B1234XYZ at (-6.2088, 106.8456) and the
instant 1715003456 seconds after the epoch. -/
theorem handleMessage_saves_then_detects_witness :
    ((LocationSubscriber.recorded
          { locationSvc := memoryLocationSvc, geofenceSvc := quietGeofenceSvc }).handleMessage
        (stubUnmarshal (sampleMessage ℚ)) [123, 125] ([], [])).1 =
      ([sampleLocation ℚ],
        [Call.SaveLocation (sampleLocation ℚ) none, Call.CheckAndAlert (sampleLocation ℚ) none]) ∧
      (sampleLocation ℚ).Location.Timestamp = { sec := 1715003456, nsec := 0 } :=
  handleMessage_saves_then_detects (stubUnmarshal (sampleMessage ℚ))
    { locationSvc := memoryLocationSvc, geofenceSvc := quietGeofenceSvc } [123, 125] []
    "B1234XYZ" (fin (-6.2088)) (fin 106.8456) 1715003456 (sampleLocation ℚ) rfl rfl
    sampleMessage_valid rfl

/-- Instance of C6: in the run on the sample report the location handed to
`CheckAndAlert` is valid and was saved first. -/
theorem handleMessage_detects_only_valid_saved_witness :
    Unmarshal.NoNaN (stubUnmarshal (sampleMessage ℚ)) ∧
      (sampleLocation ℚ).Valid ∧
      ((LocationSubscriber.recorded
          { locationSvc := memoryLocationSvc, geofenceSvc := quietGeofenceSvc }).handleMessage
        (stubUnmarshal (sampleMessage ℚ)) [123, 125] ([], [])).1.2 =
        [Call.SaveLocation (sampleLocation ℚ) none, Call.CheckAndAlert (sampleLocation ℚ) none] :=
  have hrun := handleMessage_detects_only_valid_saved (stubUnmarshal (sampleMessage ℚ))
    stubUnmarshal_sample_noNaN
    { locationSvc := memoryLocationSvc, geofenceSvc := quietGeofenceSvc } [123, 125] []
    (sampleLocation ℚ) none
    (by
      rw [recorded_saved (stubUnmarshal (sampleMessage ℚ)) _ [123, 125] [] (sampleMessage ℚ) rfl
        sampleMessage_valid rfl]
      exact List.mem_cons_of_mem _ (List.mem_singleton.mpr rfl))
  ⟨stubUnmarshal_sample_noNaN, hrun.1, hrun.2.2⟩

/-- Instance of C7: the geofence check of the sample report fails after a
successful save; the saved location stays and nothing else is called. -/
theorem handleMessage_detect_error_keeps_state_witness :
    ((LocationSubscriber.recorded
          { locationSvc := memoryLocationSvc, geofenceSvc := failingGeofenceSvc }).handleMessage
        (stubUnmarshal (sampleMessage ℚ)) [123, 125] ([], [])).1 =
      ([(sampleMessage ℚ).toVehicleLocation],
        [Call.SaveLocation (sampleMessage ℚ).toVehicleLocation none,
          Call.CheckAndAlert (sampleMessage ℚ).toVehicleLocation (some "rabbitmq down")]) ∧
      (LocationSubscriber.handleMessage (stubUnmarshal (sampleMessage ℚ))
          { locationSvc := memoryLocationSvc, geofenceSvc := quietGeofenceSvc }
          [123, 125] []).1 =
        (LocationSubscriber.handleMessage (stubUnmarshal (sampleMessage ℚ))
          { locationSvc := memoryLocationSvc, geofenceSvc := failingGeofenceSvc }
          [123, 125] []).1 :=
  have hrun := handleMessage_detect_error_keeps_state (stubUnmarshal (sampleMessage ℚ))
    { locationSvc := memoryLocationSvc, geofenceSvc := failingGeofenceSvc } [123, 125] []
    [(sampleMessage ℚ).toVehicleLocation] (sampleMessage ℚ) "rabbitmq down" rfl
    sampleMessage_valid rfl rfl
  ⟨hrun.1, hrun.2 { locationSvc := memoryLocationSvc, geofenceSvc := quietGeofenceSvc } rfl rfl⟩

end HandlerWitnesses

/-! ## Geofence detector -/

section DetectorFacts

variable {R : Type} [LinearOrderedField R] {σ : Type}

/-- One iteration of the loop of `CheckAndAlert`. -/
theorem checkGeofences_cons (fm : FloatMath R)
    (publisher : GeofenceAlert R → σ → Option Error × σ) (vl : VehicleLocation R)
    (gf : GeoPoint R) (rest : List (GeoPoint R)) (w : σ) :
    checkGeofences fm publisher vl (gf :: rest) w =
      if GeoPoint.contains fm vl gf = true then
        match publisher (alertFor vl) w with
        | (some err, w1) => (some err, w1)
        | (none, w1) => checkGeofences fm publisher vl rest w1
      else checkGeofences fm publisher vl rest w := rfl

/-- The loop of `CheckAndAlert` publishes the same alert once per containing
geofence, in order, until a publish fails. -/
theorem checkGeofences_eq (fm : FloatMath R) (publisher : GeofenceAlert R → σ → Option Error × σ)
    (vl : VehicleLocation R) (gfs : List (GeoPoint R)) (w : σ) :
    checkGeofences fm publisher vl gfs w =
      ((publishRepeatedly publisher (alertFor vl) (gfs.countP (GeoPoint.contains fm vl)) w).1,
        (publishRepeatedly publisher (alertFor vl) (gfs.countP (GeoPoint.contains fm vl)) w).2.1) := by
  induction gfs generalizing w with
  | nil => simp [checkGeofences, publishRepeatedly]
  | cons gf rest ih =>
    rw [checkGeofences_cons]
    by_cases hc : GeoPoint.contains fm vl gf = true
    · rw [if_pos hc, List.countP_cons_of_pos _ _ hc]
      rcases hp : publisher (alertFor vl) w with ⟨e, w1⟩
      cases e with
      | none => simp [publishRepeatedly, hp, ih w1]
      | some err => simp [publishRepeatedly, hp]
    · rw [if_neg hc, List.countP_cons_of_neg _ _ hc]
      exact ih w

end DetectorFacts

section PublisherFacts

variable {R : Type} {σ : Type}

/-- The calls a recording publisher logs during repeated publishing. -/
theorem publishRepeatedly_recordAlerts (publisher : GeofenceAlert R → σ → Option Error × σ)
    (alert : GeofenceAlert R) (n : ℕ) (w : σ) (log : List (GeofenceAlert R)) :
    publishRepeatedly (recordAlerts publisher) alert n (w, log) =
      ((publishRepeatedly publisher alert n w).1,
        ((publishRepeatedly publisher alert n w).2.1,
          log ++ List.replicate (publishRepeatedly publisher alert n w).2.2 alert),
        (publishRepeatedly publisher alert n w).2.2) := by
  induction n generalizing w log with
  | zero => simp [publishRepeatedly]
  | succ n ih =>
    rcases hp : publisher alert w with ⟨e, w1⟩
    cases e with
    | none =>
      simp [publishRepeatedly, recordAlerts, hp, ih, List.replicate_succ]
    | some err =>
      simp [publishRepeatedly, recordAlerts, hp]

/-- `CheckAndAlert` over a recording publisher, in terms of repeated publishing. -/
theorem CheckAndAlert_recorded [LinearOrderedField R] (fm : FloatMath R)
    (publisher : GeofenceAlert R → σ → Option Error × σ) (gfs : List (GeoPoint R))
    (vl : VehicleLocation R) (w : σ) :
    GeofenceService.CheckAndAlert fm
        { publisher := recordAlerts publisher, geofences := gfs } vl (w, []) =
      ((publishRepeatedly publisher (alertFor vl) (gfs.countP (GeoPoint.contains fm vl)) w).1,
        (publishRepeatedly publisher (alertFor vl) (gfs.countP (GeoPoint.contains fm vl)) w).2.1,
        List.replicate
          (publishRepeatedly publisher (alertFor vl) (gfs.countP (GeoPoint.contains fm vl)) w).2.2
          (alertFor vl)) := by
  simp [GeofenceService.CheckAndAlert, checkGeofences_eq, publishRepeatedly_recordAlerts]

/-- Repeated publishing through a publisher that never fails makes all `n` calls. -/
theorem publishRepeatedly_ok (publisher : GeofenceAlert R → σ → Option Error × σ)
    (hpub : ∀ alert w, (publisher alert w).1 = none) (alert : GeofenceAlert R) (n : ℕ) (w : σ) :
    publishRepeatedly publisher alert n w = (none, publishedState publisher alert n w, n) := by
  induction n generalizing w with
  | zero => rfl
  | succ n ih =>
    rcases hp : publisher alert w with ⟨e, w1⟩
    have he : e = none := by simpa [hp] using hpub alert w
    subst he
    simp [publishRepeatedly, publishedState, hp, ih]

/-- Repeated publishing stops at the first failing call: if the calls numbered
`0 .. k-1` succeed and call `k` fails, exactly `k + 1` calls are made. -/
theorem publishRepeatedly_fail (publisher : GeofenceAlert R → σ → Option Error × σ)
    (alert : GeofenceAlert R) (err : Error) (k n : ℕ) (w : σ) (hk : k < n)
    (hok : ∀ i, i < k → (publisher alert (publishedState publisher alert i w)).1 = none)
    (hfail : (publisher alert (publishedState publisher alert k w)).1 = some err) :
    publishRepeatedly publisher alert n w =
      (some err, publishedState publisher alert (k + 1) w, k + 1) := by
  induction k generalizing n w with
  | zero =>
    obtain ⟨m, rfl⟩ : ∃ m, n = m + 1 := ⟨n - 1, by omega⟩
    rcases hp : publisher alert w with ⟨e, w1⟩
    have he : e = some err := by simpa [publishedState, hp] using hfail
    subst he
    simp [publishRepeatedly, publishedState, hp]
  | succ k ih =>
    obtain ⟨m, rfl⟩ : ∃ m, n = m + 1 := ⟨n - 1, by omega⟩
    rcases hp : publisher alert w with ⟨e, w1⟩
    have he : e = none := by simpa [publishedState, hp] using hok 0 (by omega)
    subst he
    have ih' := ih m w1 (by omega)
      (fun i hi => by simpa [publishedState, hp] using hok (i + 1) (by omega))
      (by simpa [publishedState, hp] using hfail)
    simp [publishRepeatedly, hp, ih']
    simp [publishedState, hp]

end PublisherFacts

/-! ## The detector in exact arithmetic -/

section ExactFacts

theorem exact_add_fin (x y : ℝ) : FloatMath.exact.add (fin x) (fin y) = fin (x + y) := rfl

theorem exact_sub_fin (x y : ℝ) : FloatMath.exact.sub (fin x) (fin y) = fin (x - y) := rfl

theorem exact_mul_fin (x y : ℝ) : FloatMath.exact.mul (fin x) (fin y) = fin (x * y) := rfl

theorem exact_mul_nan (a : F64 ℝ) : FloatMath.exact.mul a nan = nan := by
  cases a <;> rfl

theorem exact_div_fin (x y : ℝ) (hy : y ≠ 0) :
    FloatMath.exact.div (fin x) (fin y) = fin (x / y) := by
  simp [FloatMath.exact, hy]

theorem exact_Pi : FloatMath.exact.Pi = fin Real.pi := rfl

theorem exact_Sin_fin (x : ℝ) : FloatMath.exact.Sin (fin x) = fin (Real.sin x) := rfl

theorem exact_Cos_fin (x : ℝ) : FloatMath.exact.Cos (fin x) = fin (Real.cos x) := rfl

theorem exact_Sqrt_fin (x : ℝ) (hx : 0 ≤ x) :
    FloatMath.exact.Sqrt (fin x) = fin (Real.sqrt x) := by
  simp [FloatMath.exact, not_lt.mpr hx]

theorem exact_Sqrt_neg (x : ℝ) (hx : x < 0) : FloatMath.exact.Sqrt (fin x) = nan := by
  simp [FloatMath.exact, hx]

theorem exact_Atan2_fin (y x : ℝ) :
    FloatMath.exact.Atan2 (fin y) (fin x) = fin (Complex.arg ⟨x, y⟩) := rfl

theorem exact_Atan2_nan (a : F64 ℝ) : FloatMath.exact.Atan2 a nan = nan := by
  cases a <;> rfl

theorem exact_toRad_fin (deg : ℝ) :
    toRad FloatMath.exact (fin deg) = fin (deg * Real.pi / 180) := by
  rw [toRad, exact_Pi, exact_mul_fin, exact_div_fin _ _ (by norm_num)]

/-- In exact arithmetic, `haversine` on finite coordinates in terms of its
intermediate value `a`. -/
theorem haversine_exact_fin (lat1 lon1 lat2 lon2 : ℝ) :
    haversine FloatMath.exact (fin lat1) (fin lon1) (fin lat2) (fin lon2) =
      FloatMath.exact.mul (fin ((earthRadiusMeters * 2 : ℕ) : ℝ))
        (FloatMath.exact.Atan2 (FloatMath.exact.Sqrt (fin (haversineA lat1 lon1 lat2 lon2)))
          (FloatMath.exact.Sqrt (fin (1 - haversineA lat1 lon1 lat2 lon2)))) := by
  simp only [haversine, exact_sub_fin, exact_toRad_fin, exact_div_fin _ (2 : ℝ) (by norm_num),
    exact_Sin_fin, exact_Cos_fin, exact_mul_fin, exact_add_fin, haversineA]

/-- In exact arithmetic, `haversine` on finite coordinates whose intermediate
value `a` lies in `[0, 1]` is `2 R` times the argument of `√(1-a) + √a i`. -/
theorem haversine_exact_of_mem (lat1 lon1 lat2 lon2 : ℝ)
    (h0 : 0 ≤ haversineA lat1 lon1 lat2 lon2) (h1 : haversineA lat1 lon1 lat2 lon2 ≤ 1) :
    haversine FloatMath.exact (fin lat1) (fin lon1) (fin lat2) (fin lon2) =
      fin (((earthRadiusMeters * 2 : ℕ) : ℝ) *
        Complex.arg ⟨Real.sqrt (1 - haversineA lat1 lon1 lat2 lon2),
          Real.sqrt (haversineA lat1 lon1 lat2 lon2)⟩) := by
  rw [haversine_exact_fin, exact_Sqrt_fin _ h0, exact_Sqrt_fin _ (by linarith), exact_Atan2_fin,
    exact_mul_fin]

/-- In exact arithmetic, `haversine` is NaN on finite coordinates whose
intermediate value `a` exceeds 1. -/
theorem haversine_exact_of_gt_one (lat1 lon1 lat2 lon2 : ℝ)
    (h1 : 1 < haversineA lat1 lon1 lat2 lon2) :
    haversine FloatMath.exact (fin lat1) (fin lon1) (fin lat2) (fin lon2) = nan := by
  rw [haversine_exact_fin, exact_Sqrt_neg (1 - _) (by linarith), exact_Atan2_nan, exact_mul_nan]

/-- In exact arithmetic the distance of a finite point to itself is zero. -/
theorem haversine_exact_self (lat lon : ℝ) :
    haversine FloatMath.exact (fin lat) (fin lon) (fin lat) (fin lon) = fin 0 := by
  have ha : haversineA lat lon lat lon = 0 := by simp [haversineA]
  rw [haversine_exact_of_mem lat lon lat lon (by rw [ha]) (by rw [ha]; norm_num), ha]
  have : (⟨Real.sqrt (1 - 0), Real.sqrt 0⟩ : ℂ) = 1 := by
    apply Complex.ext <;> simp
  rw [this, Complex.arg_one, mul_zero]

/-- For `a` in `[0, 1]` the angle `atan2(√a, √(1-a))` is at least `√a`. -/
theorem sqrt_le_arg (a : ℝ) (h0 : 0 ≤ a) (h1 : a ≤ 1) :
    Real.sqrt a ≤ Complex.arg ⟨Real.sqrt (1 - a), Real.sqrt a⟩ := by
  have habs : Complex.abs ⟨Real.sqrt (1 - a), Real.sqrt a⟩ = 1 := by
    rw [Complex.abs_apply, Complex.normSq_mk, Real.mul_self_sqrt (by linarith),
      Real.mul_self_sqrt h0]
    simp
  have hsin := Complex.sin_arg ⟨Real.sqrt (1 - a), Real.sqrt a⟩
  rw [habs, div_one] at hsin
  have hnn : 0 ≤ Complex.arg ⟨Real.sqrt (1 - a), Real.sqrt a⟩ :=
    Complex.arg_nonneg_iff.mpr (Real.sqrt_nonneg a)
  calc Real.sqrt a = Real.sin (Complex.arg ⟨Real.sqrt (1 - a), Real.sqrt a⟩) := hsin.symm
    _ ≤ Complex.arg ⟨Real.sqrt (1 - a), Real.sqrt a⟩ := Real.sin_le hnn

end ExactFacts

section ExactFar

/-- For `0 ≤ x ≤ 1`, `3 x / 4 ≤ sin x`. -/
theorem three_quarters_le_sin (x : ℝ) (h0 : 0 ≤ x) (h1 : x ≤ 1) : 3 * x / 4 ≤ Real.sin x := by
  rcases h0.eq_or_lt with h | h
  · subst h; simp
  · have hs := Real.sin_gt_sub_cube h h1
    have hx3 : x ^ 3 ≤ x := by
      have : x ^ 2 ≤ 1 := by nlinarith
      nlinarith
    linarith

/-- The intermediate value `a` dominates the squared sine of half the
latitude difference when both latitudes lie in `[-90, 90]`. -/
theorem sin_sq_le_haversineA (lat1 lon1 lat2 lon2 : ℝ) (h1 : |lat1| ≤ 90) (h2 : |lat2| ≤ 90) :
    Real.sin ((lat2 - lat1) * Real.pi / 180 / 2) ^ 2 ≤ haversineA lat1 lon1 lat2 lon2 := by
  have hpi := Real.pi_pos
  have hc : ∀ lat : ℝ, |lat| ≤ 90 → 0 ≤ Real.cos (lat * Real.pi / 180) := by
    intro lat hlat
    rw [abs_le] at hlat
    apply Real.cos_nonneg_of_neg_pi_div_two_le_of_le <;> nlinarith [hlat.1, hlat.2]
  have hprod : 0 ≤ Real.cos (lat1 * Real.pi / 180) * Real.cos (lat2 * Real.pi / 180) *
      (Real.sin ((lon2 - lon1) * Real.pi / 180 / 2) *
        Real.sin ((lon2 - lon1) * Real.pi / 180 / 2)) :=
    mul_nonneg (mul_nonneg (hc lat1 h1) (hc lat2 h2)) (mul_self_nonneg _)
  unfold haversineA
  nlinarith [hprod]

/-- In exact arithmetic, two points with latitudes in `[-90, 90]` that differ
in latitude by `d ≤ 90` degrees are not within `r` metres whenever
`r < 79000 d`. -/
theorem haversine_exact_not_le (lat1 lon1 lat2 lon2 r : ℝ) (h1 : |lat1| ≤ 90)
    (h2 : |lat2| ≤ 90) (hd : |lat2 - lat1| ≤ 90) (hr : r < 79000 * |lat2 - lat1|) :
    F64.le (haversine FloatMath.exact (fin lat1) (fin lon1) (fin lat2) (fin lon2)) (fin r) =
      false := by
  by_cases hle : haversineA lat1 lon1 lat2 lon2 ≤ 1
  · have hsq := sin_sq_le_haversineA lat1 lon1 lat2 lon2 h1 h2
    have h0 : 0 ≤ haversineA lat1 lon1 lat2 lon2 := le_trans (sq_nonneg _) hsq
    rw [haversine_exact_of_mem _ _ _ _ h0 hle]
    have hpi3 := Real.pi_gt_three
    have hpi4 := Real.pi_le_four
    have habs0 : 0 ≤ |lat2 - lat1| := abs_nonneg _
    -- the half-angle, in absolute value
    have hx0 : 0 ≤ |lat2 - lat1| * Real.pi / 360 := by positivity
    have hx1 : |lat2 - lat1| * Real.pi / 360 ≤ 1 := by nlinarith
    have hsin := three_quarters_le_sin _ hx0 hx1
    have habs : |Real.sin ((lat2 - lat1) * Real.pi / 180 / 2)| =
        Real.sin (|lat2 - lat1| * Real.pi / 360) := by
      rcases abs_cases (lat2 - lat1) with ⟨he, _⟩ | ⟨he, _⟩
      · rw [he, show (lat2 - lat1) * Real.pi / 180 / 2 = (lat2 - lat1) * Real.pi / 360 by ring]
        rw [he] at hx0 hsin
        exact abs_of_nonneg (le_trans (by positivity) hsin)
      · rw [he, show (lat2 - lat1) * Real.pi / 180 / 2 = -(-(lat2 - lat1) * Real.pi / 360) by ring,
          Real.sin_neg, abs_neg]
        rw [he] at hx0 hsin
        exact abs_of_nonneg (le_trans (by positivity) hsin)
    have hroot : Real.sin (|lat2 - lat1| * Real.pi / 360) ≤
        Real.sqrt (haversineA lat1 lon1 lat2 lon2) := by
      rw [← habs]
      exact Real.abs_le_sqrt hsq
    have harg := sqrt_le_arg _ h0 hle
    have hlow : |lat2 - lat1| / 160 ≤
        Complex.arg ⟨Real.sqrt (1 - haversineA lat1 lon1 lat2 lon2),
          Real.sqrt (haversineA lat1 lon1 lat2 lon2)⟩ := by
      have : |lat2 - lat1| / 160 ≤ 3 * (|lat2 - lat1| * Real.pi / 360) / 4 := by nlinarith
      linarith
    have hgt : r < ((earthRadiusMeters * 2 : ℕ) : ℝ) *
        Complex.arg ⟨Real.sqrt (1 - haversineA lat1 lon1 lat2 lon2),
          Real.sqrt (haversineA lat1 lon1 lat2 lon2)⟩ := by
      have hR : ((earthRadiusMeters * 2 : ℕ) : ℝ) = 12742000 := by
        norm_num [earthRadiusMeters]
      rw [hR]
      nlinarith
    exact decide_eq_false (not_le.mpr hgt)
  · rw [haversine_exact_of_gt_one _ _ _ _ (not_le.mp hle)]
    rfl

end ExactFar

section SampleFacts

/-- In exact arithmetic a geofence with a non-negative radius contains its
own centre. -/
theorem contains_exact_center (vl : VehicleLocation ℝ) (lat lon r : ℝ)
    (hlat : vl.Location.Lat = fin lat) (hlon : vl.Location.Lon = fin lon) (hr : 0 ≤ r) :
    GeoPoint.contains FloatMath.exact vl { Lat := fin lat, Lon := fin lon, Radius := fin r } =
      true := by
  simp [GeoPoint.contains, hlat, hlon, haversine_exact_self, F64.le, hr]

/-- In exact arithmetic the far geofence of the tests does not contain the
sample location. -/
theorem not_contains_exact_far :
    GeoPoint.contains FloatMath.exact (sampleLocation ℝ)
      { Lat := fin (-7.0), Lon := fin 107.0, Radius := fin 50 } = false := by
  apply haversine_exact_not_le
  · rw [abs_le]; constructor <;> norm_num
  · rw [abs_le]; constructor <;> norm_num
  · rw [abs_le]; constructor <;> norm_num
  · rw [show ((-7.0 : ℝ) - (-6.2088)) = -0.7912 by norm_num, abs_neg,
      abs_of_nonneg (by norm_num)]
    norm_num

/-- In exact arithmetic, exactly the first two sample geofences contain the
sample location. -/
theorem sampleGeofences_filter :
    (sampleGeofences ℝ).filter (GeoPoint.contains FloatMath.exact (sampleLocation ℝ)) =
      [{ Lat := fin (-6.2088), Lon := fin 106.8456, Radius := fin 50 },
       { Lat := fin (-6.2088), Lon := fin 106.8456, Radius := fin 100 }] := by
  have h50 := contains_exact_center (sampleLocation ℝ) (-6.2088) 106.8456 50 rfl rfl (by norm_num)
  have h100 := contains_exact_center (sampleLocation ℝ) (-6.2088) 106.8456 100 rfl rfl
    (by norm_num)
  simp [sampleGeofences, List.filter, h50, h100, not_contains_exact_far]

/-- In exact arithmetic, all three nested geofences contain the sample
location. -/
theorem nestedGeofences_filter :
    (nestedGeofences ℝ).filter (GeoPoint.contains FloatMath.exact (sampleLocation ℝ)) =
      nestedGeofences ℝ := by
  have h50 := contains_exact_center (sampleLocation ℝ) (-6.2088) 106.8456 50 rfl rfl (by norm_num)
  have h100 := contains_exact_center (sampleLocation ℝ) (-6.2088) 106.8456 100 rfl rfl
    (by norm_num)
  have h200 := contains_exact_center (sampleLocation ℝ) (-6.2088) 106.8456 200 rfl rfl
    (by norm_num)
  simp [nestedGeofences, List.filter, h50, h100, h200]

end SampleFacts

section DetectorClaims

variable {R : Type} [LinearOrderedField R] {σ : Type}

/-- C8: with a publisher that never fails, `CheckAndAlert` returns nil and the
`PublishAlert` calls are exactly one per geofence whose haversine distance to
the position is at most its radius, in the order of the configured list. -/
theorem CheckAndAlert_alerts_each_containing_geofence (fm : FloatMath R)
    (publisher : GeofenceAlert R → σ → Option Error × σ)
    (hpub : ∀ alert w, (publisher alert w).1 = none) (gfs : List (GeoPoint R))
    (vl : VehicleLocation R) (w : σ) :
    GeofenceService.CheckAndAlert fm
        { publisher := recordAlerts publisher, geofences := gfs } vl (w, []) =
      (none,
        publishedState publisher (alertFor vl) (gfs.filter (GeoPoint.contains fm vl)).length w,
        (gfs.filter (GeoPoint.contains fm vl)).map (fun _ => alertFor vl)) := by
  rw [CheckAndAlert_recorded, publishRepeatedly_ok publisher hpub, List.countP_eq_length_filter]
  simp [List.map_const']

/-- C9: when the publisher succeeds on the alerts of the first `k - 1`
containing geofences and fails on the alert of the `k`-th, `CheckAndAlert`
makes exactly `k` `PublishAlert` calls, however many containing geofences
follow, and returns the publisher's error. -/
theorem CheckAndAlert_stops_at_failed_publish (fm : FloatMath R)
    (publisher : GeofenceAlert R → σ → Option Error × σ) (gfs : List (GeoPoint R))
    (vl : VehicleLocation R) (w : σ) (err : Error) (k : ℕ) (hk0 : 0 < k)
    (hk : k ≤ (gfs.filter (GeoPoint.contains fm vl)).length)
    (hok : ∀ i, i + 1 < k →
      (publisher (alertFor vl) (publishedState publisher (alertFor vl) i w)).1 = none)
    (hfail :
      (publisher (alertFor vl) (publishedState publisher (alertFor vl) (k - 1) w)).1 = some err) :
    GeofenceService.CheckAndAlert fm
        { publisher := recordAlerts publisher, geofences := gfs } vl (w, []) =
      (some err, publishedState publisher (alertFor vl) k w, List.replicate k (alertFor vl)) := by
  obtain ⟨j, rfl⟩ : ∃ j, k = j + 1 := ⟨k - 1, by omega⟩
  rw [CheckAndAlert_recorded,
    publishRepeatedly_fail publisher (alertFor vl) err j _ w
      (by rw [List.countP_eq_length_filter]; omega) (fun i hi => hok i (by omega))
      (by simpa using hfail)]

/-- C10: every alert `CheckAndAlert` hands to the publisher has event
`geofence_entry` (not `geofence_exit`), the vehicle id and the location of the
input, and the Unix seconds of the input location's timestamp. -/
theorem CheckAndAlert_alert_fields (fm : FloatMath R)
    (publisher : GeofenceAlert R → σ → Option Error × σ) (gfs : List (GeoPoint R))
    (vl : VehicleLocation R) (w : σ) (alert : GeofenceAlert R)
    (h : alert ∈ (GeofenceService.CheckAndAlert fm
      { publisher := recordAlerts publisher, geofences := gfs } vl (w, [])).2.2) :
    alert.Event = GeofenceEntry ∧ alert.Event ≠ GeofenceExit ∧
      alert.VehicleID = vl.VehicleID ∧ alert.Location = vl.Location ∧
      alert.Timestamp = vl.Location.Timestamp.Unix := by
  rw [CheckAndAlert_recorded] at h
  have := List.eq_of_mem_replicate h
  subst this
  exact ⟨rfl, (by decide : GeofenceEntry ≠ GeofenceExit), rfl, rfl, rfl⟩

end DetectorClaims

/-- The scenario of C8: the sample location against geofences of radius 50
and 100 centred on it and one far away gives exactly two alerts. -/
theorem CheckAndAlert_alerts_each_containing_geofence_witness :
    (∀ (alert : GeofenceAlert ℝ) (w : Unit), (okPublisher alert w).1 = none) ∧
      GeofenceService.CheckAndAlert FloatMath.exact
          { publisher := recordAlerts okPublisher, geofences := sampleGeofences ℝ }
          (sampleLocation ℝ) ((), []) =
        (none, (), [alertFor (sampleLocation ℝ), alertFor (sampleLocation ℝ)]) :=
  ⟨fun _ _ => rfl,
    (CheckAndAlert_alerts_each_containing_geofence FloatMath.exact okPublisher (fun _ _ => rfl)
      (sampleGeofences ℝ) (sampleLocation ℝ) ()).trans (by rw [sampleGeofences_filter]; rfl)⟩

/-- The scenario of C9: three geofences contain the sample location and the
publisher fails on the first alert; one call is made, the error is returned. -/
theorem CheckAndAlert_stops_at_failed_publish_witness :
    (0 < 1 ∧
      1 ≤ ((nestedGeofences ℝ).filter
        (GeoPoint.contains FloatMath.exact (sampleLocation ℝ))).length ∧
      (downPublisher (alertFor (sampleLocation ℝ))
        (publishedState downPublisher (alertFor (sampleLocation ℝ)) (1 - 1) ())).1 =
          some "rabbitmq down") ∧
      GeofenceService.CheckAndAlert FloatMath.exact
          { publisher := recordAlerts downPublisher, geofences := nestedGeofences ℝ }
          (sampleLocation ℝ) ((), []) =
        (some "rabbitmq down", (), [alertFor (sampleLocation ℝ)]) :=
  ⟨⟨by decide, by rw [nestedGeofences_filter]; simp [nestedGeofences], rfl⟩,
    CheckAndAlert_stops_at_failed_publish FloatMath.exact downPublisher (nestedGeofences ℝ)
      (sampleLocation ℝ) () "rabbitmq down" 1 (by decide)
      (by rw [nestedGeofences_filter]; simp [nestedGeofences]) (fun i hi => by omega) rfl⟩

/-- The scenario of C10 (`TestCheckAndAlert_InsideGeofence`): the alert
published for the sample location carries its vehicle id, the event
`geofence_entry` and the timestamp 1715003456. -/
theorem CheckAndAlert_alert_fields_witness :
    alertFor (sampleLocation ℝ) ∈
        (GeofenceService.CheckAndAlert FloatMath.exact
          { publisher := recordAlerts okPublisher, geofences := sampleGeofences ℝ }
          (sampleLocation ℝ) ((), [])).2.2 ∧
      ((alertFor (sampleLocation ℝ)).Event = GeofenceEntry ∧
        (alertFor (sampleLocation ℝ)).Event ≠ GeofenceExit ∧
        (alertFor (sampleLocation ℝ)).VehicleID = "B1234XYZ" ∧
        (alertFor (sampleLocation ℝ)).Location = (sampleLocation ℝ).Location ∧
        (alertFor (sampleLocation ℝ)).Timestamp = 1715003456) :=
  have hmem : alertFor (sampleLocation ℝ) ∈
      (GeofenceService.CheckAndAlert FloatMath.exact
        { publisher := recordAlerts okPublisher, geofences := sampleGeofences ℝ }
        (sampleLocation ℝ) ((), [])).2.2 := by
    rw [CheckAndAlert_recorded, publishRepeatedly_ok okPublisher (fun _ _ => rfl),
      List.countP_eq_length_filter, sampleGeofences_filter]
    simp
  ⟨hmem, CheckAndAlert_alert_fields FloatMath.exact okPublisher (sampleGeofences ℝ)
    (sampleLocation ℝ) () (alertFor (sampleLocation ℝ)) hmem⟩

/-! ## Laws of float64 arithmetic and the distance -/

section LawFacts

variable {R : Type} [LinearOrderedField R]

/-- Negating twice gives the value back. -/
theorem F64.neg_neg (a : F64 R) : F64.neg (F64.neg a) = a := by
  cases a <;> simp [F64.neg]

/-- Zero degrees are zero radians. -/
theorem toRad_zero (fm : FloatMath R) (h : fm.ZeroLaws) : toRad fm (fin 0) = fin 0 := by
  obtain ⟨p, hp⟩ := h.Pi_finite
  rw [toRad, hp, h.zero_mul, h.zero_div 180 (by norm_num)]

/-- Under the zero laws the distance from a finite point to itself is zero,
provided its latitude converts to a finite number of radians. -/
theorem haversine_self_of_laws (fm : FloatMath R) (h : fm.ZeroLaws) (lat lon : R)
    (hrad : FiniteRadians fm lat) :
    haversine fm (fin lat) (fin lon) (fin lat) (fin lon) = fin 0 := by
  obtain ⟨r, hr⟩ := hrad
  obtain ⟨m, hm⟩ := h.Cos_mul_Cos r r
  have h2 : fm.div (fin 0) (fin 2) = fin 0 := h.zero_div 2 (by norm_num)
  simp only [haversine, h.sub_self, toRad_zero fm h, h2, h.Sin_zero, h.zero_mul, hr, hm,
    h.mul_zero, h.zero_add, h.Sqrt_zero, h.sub_zero, h.Sqrt_one, h.Atan2_zero 1 one_pos]

/-- Under the sign laws, swapping the operands of a subtraction negates the
radians of the difference. -/
theorem toRad_sub_swap (fm : FloatMath R) (h : fm.SignLaws) (a b : F64 R) :
    toRad fm (fm.sub a b) = F64.neg (toRad fm (fm.sub b a)) := by
  rw [toRad, h.sub_swap a b, h.neg_mul, h.neg_div, ← toRad]

/-- Under the sign laws a product is unchanged when both factors are negated. -/
theorem fm_mul_neg_neg (fm : FloatMath R) (h : fm.SignLaws) (a b : F64 R) :
    fm.mul (F64.neg a) (F64.neg b) = fm.mul a b := by
  rw [h.neg_mul, h.mul_comm a (F64.neg b), h.neg_mul, F64.neg_neg, h.mul_comm]

/-- Under the sign laws `haversine` is symmetric in its two points. -/
theorem haversine_symm_of_laws (fm : FloatMath R) (h : fm.SignLaws)
    (lat1 lon1 lat2 lon2 : F64 R) :
    haversine fm lat1 lon1 lat2 lon2 = haversine fm lat2 lon2 lat1 lon1 := by
  have hlat := toRad_sub_swap fm h lat2 lat1
  have hlon := toRad_sub_swap fm h lon2 lon1
  have hterm : ∀ c t : F64 R, fm.mul (fm.mul c (F64.neg t)) (F64.neg t) = fm.mul (fm.mul c t) t := by
    intro c t
    rw [h.mul_comm c (F64.neg t), h.neg_mul, fm_mul_neg_neg fm h, h.mul_comm t c]
  simp only [haversine, hlat, hlon, h.neg_div, h.Sin_neg, fm_mul_neg_neg fm h, hterm,
    h.mul_comm (fm.Cos (toRad fm lat1)) (fm.Cos (toRad fm lat2))]

end LawFacts

section ExactLawFacts

/-- Exact arithmetic obeys the zero laws. -/
theorem exact_zeroLaws : FloatMath.exact.ZeroLaws where
  sub_self := fun x => by simp [FloatMath.exact]
  sub_zero := fun x => by simp [FloatMath.exact]
  zero_mul := fun x => by simp [FloatMath.exact]
  mul_zero := fun x => by simp [FloatMath.exact]
  zero_div := fun x hx => by simp [FloatMath.exact, hx]
  zero_add := by simp [FloatMath.exact]
  Pi_finite := ⟨Real.pi, rfl⟩
  Sin_zero := by simp [FloatMath.exact]
  Cos_mul_Cos := fun x y => ⟨Real.cos x * Real.cos y, rfl⟩
  Sqrt_zero := by simp [FloatMath.exact]
  Sqrt_one := by simp [FloatMath.exact]
  Atan2_zero := fun x hx => by
    show fin (Complex.arg ⟨x, 0⟩) = fin 0
    rw [show (⟨x, 0⟩ : ℂ) = ((x : ℝ) : ℂ) from rfl, Complex.arg_ofReal_of_nonneg hx.le]

/-- In exact arithmetic every finite number of degrees is a finite number of
radians. -/
theorem exact_finiteRadians (deg : ℝ) : FiniteRadians FloatMath.exact deg :=
  ⟨deg * Real.pi / 180, exact_toRad_fin deg⟩

/-- Negating the finite factor negates the product with an infinity. -/
theorem infTimes_neg (positive : Bool) (x : ℝ) :
    infTimes positive (-x) = F64.neg (infTimes positive x) := by
  unfold infTimes
  rcases lt_trichotomy x 0 with hx | hx | hx
  · have h1 : ¬ x = 0 := hx.ne
    have h2 : ¬ 0 < x := not_lt.mpr hx.le
    cases positive <;> simp [h1, h2, hx, F64.neg]
  · subst hx; simp [F64.neg]
  · have h1 : ¬ x = 0 := hx.ne'
    have h2 : ¬ x < 0 := not_lt.mpr hx.le
    cases positive <;> simp [h1, h2, hx, F64.neg]

/-- Flipping the sign of the infinity negates the product. -/
theorem infTimes_not (positive : Bool) (x : ℝ) :
    infTimes (!positive) x = F64.neg (infTimes positive x) := by
  unfold infTimes
  by_cases h0 : x = 0
  · simp [h0, F64.neg]
  · by_cases h1 : 0 < x <;> cases positive <;> simp [h0, h1, F64.neg]

/-- Exact arithmetic obeys the sign laws. -/
theorem exact_signLaws : FloatMath.exact.SignLaws where
  sub_swap := fun a b => by
    cases a <;> cases b <;> simp [FloatMath.exact, F64.neg]
  neg_mul := fun a b => by
    cases a <;> cases b <;>
      first
      | rfl
      | exact infTimes_not false _
      | exact infTimes_not true _
      | exact infTimes_neg _ _
      | simp [FloatMath.exact, F64.neg]
  mul_comm := fun a b => by
    cases a <;> cases b <;> simp [FloatMath.exact, mul_comm]
  neg_div := fun a b => by
    cases a with
    | nan => cases b <;> rfl
    | negInf =>
      cases b with
      | fin y => simp only [FloatMath.exact, F64.neg]; split_ifs <;> rfl
      | _ => rfl
    | posInf =>
      cases b with
      | fin y => simp only [FloatMath.exact, F64.neg]; split_ifs <;> rfl
      | _ => rfl
    | fin x =>
      cases b with
      | nan => rfl
      | negInf => simp [FloatMath.exact, F64.neg]
      | posInf => simp [FloatMath.exact, F64.neg]
      | fin y =>
        simp only [FloatMath.exact, F64.neg]
        by_cases hy : y = 0
        · rcases lt_trichotomy x 0 with hx | hx | hx
          · simp [hy, hx.ne, hx, not_lt.mpr hx.le]
          · simp [hy, hx]
          · simp [hy, hx.ne', hx, not_lt.mpr hx.le]
        · simp [hy, neg_div]
  Sin_neg := fun a => by
    cases a <;> simp [FloatMath.exact, F64.neg]

end ExactLawFacts

section ExactRange

/-- In exact arithmetic the distance from a point with NaN latitude to itself
is NaN, not zero. -/
theorem haversine_exact_nan (lon : F64 ℝ) :
    haversine FloatMath.exact nan lon nan lon = nan := by
  simp only [haversine, toRad]
  have h1 : FloatMath.exact.sub nan nan = nan := rfl
  have h2 : ∀ b, FloatMath.exact.mul nan b = nan := fun b => by cases b <;> rfl
  have h3 : ∀ b, FloatMath.exact.div nan b = nan := fun b => by cases b <;> rfl
  have h4 : FloatMath.exact.Sin nan = nan := rfl
  have h5 : ∀ b, FloatMath.exact.add nan b = nan := fun b => by cases b <;> rfl
  have h6 : FloatMath.exact.Sqrt nan = nan := rfl
  have h7 : ∀ b, FloatMath.exact.Atan2 nan b = nan := fun b => by cases b <;> rfl
  rw [h1, h2, h3, h3, h4, h2, h5, h6, h7, exact_mul_nan]

/-- In exact arithmetic the intermediate value `a` of `haversine` lies in
`[0, 1]`, for all coordinates. -/
theorem haversineA_mem (lat1 lon1 lat2 lon2 : ℝ) :
    0 ≤ haversineA lat1 lon1 lat2 lon2 ∧ haversineA lat1 lon1 lat2 lon2 ≤ 1 := by
  set s : ℝ := (lat1 + lat2) * Real.pi / 180 / 2 with hs
  set d : ℝ := (lat2 - lat1) * Real.pi / 180 / 2 with hd
  set t : ℝ := Real.sin ((lon2 - lon1) * Real.pi / 180 / 2) *
    Real.sin ((lon2 - lon1) * Real.pi / 180 / 2) with ht
  have h1 : lat1 * Real.pi / 180 = s - d := by rw [hs, hd]; ring
  have h2 : lat2 * Real.pi / 180 = s + d := by rw [hs, hd]; ring
  have ht0 : 0 ≤ t := mul_self_nonneg _
  have ht1 : t ≤ 1 := by
    have := Real.sin_sq_le_one ((lon2 - lon1) * Real.pi / 180 / 2)
    rw [ht]; nlinarith
  have hps := Real.sin_sq_add_cos_sq s
  have hpd := Real.sin_sq_add_cos_sq d
  have hss0 := sq_nonneg (Real.sin s)
  have hcs0 := sq_nonneg (Real.cos s)
  have hsd0 := sq_nonneg (Real.sin d)
  have hcd0 := sq_nonneg (Real.cos d)
  have ha : haversineA lat1 lon1 lat2 lon2 =
      Real.sin d ^ 2 * (1 - Real.sin s ^ 2 * t) + Real.cos s ^ 2 * Real.cos d ^ 2 * t := by
    unfold haversineA
    rw [h1, h2, Real.cos_sub, Real.cos_add]
    ring
  have hb : 1 - haversineA lat1 lon1 lat2 lon2 =
      Real.cos d ^ 2 * (1 - Real.cos s ^ 2 * t) + Real.sin s ^ 2 * Real.sin d ^ 2 * t := by
    rw [ha]
    have : Real.cos d ^ 2 = 1 - Real.sin d ^ 2 := by linarith
    rw [this]; ring
  have hst : Real.sin s ^ 2 * t ≤ 1 := by nlinarith
  have hct : Real.cos s ^ 2 * t ≤ 1 := by nlinarith
  constructor
  · rw [ha]
    have := mul_nonneg hsd0 (sub_nonneg.mpr hst)
    have := mul_nonneg (mul_nonneg hcs0 hcd0) ht0
    linarith
  · have h3 := mul_nonneg hcd0 (sub_nonneg.mpr hct)
    have h4 := mul_nonneg (mul_nonneg hss0 hsd0) ht0
    linarith

/-- In exact arithmetic `haversine` of finite coordinates is `2 R` times the
angle `atan2(√a, √(1-a))`. -/
theorem haversine_exact_eq (lat1 lon1 lat2 lon2 : ℝ) :
    haversine FloatMath.exact (fin lat1) (fin lon1) (fin lat2) (fin lon2) =
      fin (((earthRadiusMeters * 2 : ℕ) : ℝ) *
        atan2 (Real.sqrt (haversineA lat1 lon1 lat2 lon2))
          (Real.sqrt (1 - haversineA lat1 lon1 lat2 lon2))) :=
  haversine_exact_of_mem lat1 lon1 lat2 lon2 (haversineA_mem lat1 lon1 lat2 lon2).1
    (haversineA_mem lat1 lon1 lat2 lon2).2

/-- The intermediate value `a` of the source is the `a` of the formula. -/
theorem haversineFormula_eq (lat1 lon1 lat2 lon2 : ℝ) :
    haversineFormula lat1 lon1 lat2 lon2 =
      ((earthRadiusMeters * 2 : ℕ) : ℝ) *
        atan2 (Real.sqrt (haversineA lat1 lon1 lat2 lon2))
          (Real.sqrt (1 - haversineA lat1 lon1 lat2 lon2)) := by
  have ha : Real.sin ((lat2 - lat1) * (Real.pi / 180) / 2) ^ 2 +
      Real.cos (lat1 * (Real.pi / 180)) * Real.cos (lat2 * (Real.pi / 180)) *
        Real.sin ((lon2 - lon1) * (Real.pi / 180) / 2) ^ 2 =
      haversineA lat1 lon1 lat2 lon2 := by
    unfold haversineA
    rw [show (lat2 - lat1) * (Real.pi / 180) / 2 = (lat2 - lat1) * Real.pi / 180 / 2 by ring,
      show (lon2 - lon1) * (Real.pi / 180) / 2 = (lon2 - lon1) * Real.pi / 180 / 2 by ring,
      show lat1 * (Real.pi / 180) = lat1 * Real.pi / 180 by ring,
      show lat2 * (Real.pi / 180) = lat2 * Real.pi / 180 by ring]
    ring
  simp only [haversineFormula, ha]
  norm_num [earthRadiusMeters]

/-- In exact arithmetic, two points with latitudes in `[-90, 90]` that differ
in latitude by `d ≤ 90` degrees are more than `r` metres apart whenever
`r < 79000 d`. -/
theorem haversine_exact_gt (lat1 lon1 lat2 lon2 r : ℝ) (h1 : |lat1| ≤ 90)
    (h2 : |lat2| ≤ 90) (hd : |lat2 - lat1| ≤ 90) (hr : r < 79000 * |lat2 - lat1|) :
    F64.gt (haversine FloatMath.exact (fin lat1) (fin lon1) (fin lat2) (fin lon2)) (fin r) =
      true := by
  have hle := haversine_exact_not_le lat1 lon1 lat2 lon2 r h1 h2 hd hr
  rw [haversine_exact_eq] at hle ⊢
  simp only [F64.le, decide_eq_false_iff_not, not_le] at hle
  simpa [F64.gt, F64.lt] using hle

end ExactRange

/-! ## Detector scenarios and the distance claims -/

section NumericClaims

variable {R : Type} [LinearOrderedField R] {σ : Type}

/-- A float64 strictly greater than another is not at most it. -/
theorem F64.le_eq_false_of_gt (a b : F64 R) (h : F64.gt a b = true) : F64.le a b = false := by
  cases a <;> cases b <;> simp_all [F64.gt, F64.lt, F64.le]

/-- Under the zero laws a geofence with a non-negative radius contains its own
centre, when the centre is finite and its latitude has finite radians. -/
theorem contains_center_of_laws (fm : FloatMath R) (hfm : fm.ZeroLaws) (vl : VehicleLocation R)
    (lat lon : R) (radius : F64 R) (hlat : vl.Location.Lat = fin lat)
    (hlon : vl.Location.Lon = fin lon) (hrad : FiniteRadians fm lat)
    (hr : F64.le (fin 0) radius = true) :
    GeoPoint.contains fm vl { Lat := fin lat, Lon := fin lon, Radius := radius } = true := by
  simp [GeoPoint.contains, hlat, hlon, haversine_self_of_laws fm hfm lat lon hrad, hr]

/-- C11: a position exactly at the centre of the only configured geofence,
whose radius is at least 0, makes `CheckAndAlert` publish exactly one alert,
a `geofence_entry`, and return nil when the publisher succeeds.  The float64
environment obeys the zero laws and the centre is a finite point whose
latitude has finite radians. -/
theorem CheckAndAlert_at_center (fm : FloatMath R) (hfm : fm.ZeroLaws)
    (publisher : GeofenceAlert R → σ → Option Error × σ)
    (hpub : ∀ alert w, (publisher alert w).1 = none) (vl : VehicleLocation R) (lat lon : R)
    (radius : F64 R) (hlat : vl.Location.Lat = fin lat) (hlon : vl.Location.Lon = fin lon)
    (hrad : FiniteRadians fm lat) (hr : F64.le (fin 0) radius = true) (w : σ) :
    GeofenceService.CheckAndAlert fm
        { publisher := recordAlerts publisher,
          geofences := [{ Lat := fin lat, Lon := fin lon, Radius := radius }] } vl (w, []) =
      (none, (publisher (alertFor vl) w).2, [alertFor vl]) ∧
      (alertFor vl).Event = GeofenceEntry := by
  refine ⟨?_, rfl⟩
  rw [CheckAndAlert_recorded, publishRepeatedly_ok publisher hpub]
  simp [contains_center_of_laws fm hfm vl lat lon radius hlat hlon hrad hr, publishedState]

/-- C12: when the haversine distance from the position to every configured
geofence exceeds that geofence's radius (in particular when no geofence is
configured), `CheckAndAlert` calls `PublishAlert` zero times and returns nil,
for every publisher. -/
theorem CheckAndAlert_outside_all (fm : FloatMath R)
    (publisher : GeofenceAlert R → σ → Option Error × σ) (gfs : List (GeoPoint R))
    (vl : VehicleLocation R) (w : σ)
    (hout : ∀ gf ∈ gfs,
      F64.gt (haversine fm vl.Location.Lat vl.Location.Lon gf.Lat gf.Lon) gf.Radius = true) :
    GeofenceService.CheckAndAlert fm
        { publisher := recordAlerts publisher, geofences := gfs } vl (w, []) =
      (none, w, []) := by
  have hcount : gfs.countP (GeoPoint.contains fm vl) = 0 := by
    rw [List.countP_eq_zero]
    intro gf hgf
    simp [GeoPoint.contains, F64.le_eq_false_of_gt _ _ (hout gf hgf)]
  rw [CheckAndAlert_recorded, hcount]
  simp [publishRepeatedly]

/-- A sequence of calls over a recording publisher that never fails: every
call returns nil and the log grows, call after call, by the alerts of that
call's location. -/
theorem checkEach_recorded (fm : FloatMath R)
    (publisher : GeofenceAlert R → σ → Option Error × σ)
    (hpub : ∀ alert w, (publisher alert w).1 = none) (gfs : List (GeoPoint R))
    (vls : List (VehicleLocation R)) (w : σ) (log : List (GeofenceAlert R)) :
    (checkEach fm { publisher := recordAlerts publisher, geofences := gfs } vls (w, log)).1 =
        vls.map (fun _ => none) ∧
      (checkEach fm { publisher := recordAlerts publisher, geofences := gfs } vls (w, log)).2.2 =
        log ++ vls.flatMap
          (fun vl => (gfs.filter (GeoPoint.contains fm vl)).map (fun _ => alertFor vl)) := by
  induction vls generalizing w log with
  | nil => simp [checkEach]
  | cons vl rest ih =>
    have hone : GeofenceService.CheckAndAlert fm
        { publisher := recordAlerts publisher, geofences := gfs } vl (w, log) =
        (none, publishedState publisher (alertFor vl) (gfs.countP (GeoPoint.contains fm vl)) w,
          log ++ List.replicate (gfs.countP (GeoPoint.contains fm vl)) (alertFor vl)) := by
      simp [GeofenceService.CheckAndAlert, checkGeofences_eq, publishRepeatedly_recordAlerts,
        publishRepeatedly_ok publisher hpub]
    simp only [checkEach, hone, List.map_cons, List.flatMap_cons]
    obtain ⟨h1, h2⟩ := ih (publishedState publisher (alertFor vl)
      (gfs.countP (GeoPoint.contains fm vl)) w)
      (log ++ List.replicate (gfs.countP (GeoPoint.contains fm vl)) (alertFor vl))
    refine ⟨by rw [h1], ?_⟩
    rw [h2, List.countP_eq_length_filter, List.append_assoc]
    simp [List.map_const']

/-- C13: the detector keeps no membership state.  When every location of a
sequence lies inside a configured geofence and the publisher succeeds, calling
`CheckAndAlert` on each in turn returns nil every time, and the alerts
published are, call after call, exactly those the location alone determines
(one per geofence containing it, the given geofence among them), whatever was
checked before; with that geofence as the only one, `n` calls publish `n`
alerts, one per call. -/
theorem checkEach_stateless (fm : FloatMath R)
    (publisher : GeofenceAlert R → σ → Option Error × σ)
    (hpub : ∀ alert w, (publisher alert w).1 = none) (gfs : List (GeoPoint R))
    (gf : GeoPoint R) (vls : List (VehicleLocation R)) (w : σ) (hmem : gf ∈ gfs)
    (hin : ∀ vl ∈ vls, GeoPoint.contains fm vl gf = true) :
    (checkEach fm { publisher := recordAlerts publisher, geofences := gfs } vls (w, [])).1 =
        vls.map (fun _ => none) ∧
      (checkEach fm { publisher := recordAlerts publisher, geofences := gfs } vls (w, [])).2.2 =
        vls.flatMap
          (fun vl => (gfs.filter (GeoPoint.contains fm vl)).map (fun _ => alertFor vl)) ∧
      (∀ vl ∈ vls, gf ∈ gfs.filter (GeoPoint.contains fm vl)) ∧
      (gfs = [gf] →
        (checkEach fm { publisher := recordAlerts publisher, geofences := gfs } vls (w, [])).2.2 =
          vls.map alertFor) := by
  obtain ⟨h1, h2⟩ := checkEach_recorded fm publisher hpub gfs vls w []
  refine ⟨h1, by simpa using h2, fun vl hvl => List.mem_filter.mpr ⟨hmem, hin vl hvl⟩, ?_⟩
  intro hgfs
  subst hgfs
  rw [h2, List.nil_append]
  clear h1 h2
  induction vls with
  | nil => rfl
  | cons vl rest ih =>
    have hc := hin vl (List.mem_cons_self _ _)
    rw [List.flatMap_cons, List.map_cons, ih (fun v hv => hin v (List.mem_cons_of_mem _ hv))]
    simp [List.filter, hc]

/-- C14: the haversine distance from a point to itself is exactly 0, in every
float64 environment obeying the zero laws, for every finite point whose
latitude has finite radians. -/
theorem haversine_self (fm : FloatMath R) (hfm : fm.ZeroLaws) (lat lon : R)
    (hrad : FiniteRadians fm lat) :
    haversine fm (fin lat) (fin lon) (fin lat) (fin lon) = fin 0 :=
  haversine_self_of_laws fm hfm lat lon hrad

/-- C15: `haversine` is symmetric in its two points, in every float64
environment obeying the sign laws, for all float64 arguments. -/
theorem haversine_symm (fm : FloatMath R) (hfm : fm.SignLaws) (lat1 lon1 lat2 lon2 : F64 R) :
    haversine fm lat1 lon1 lat2 lon2 = haversine fm lat2 lon2 lat1 lon1 :=
  haversine_symm_of_laws fm hfm lat1 lon1 lat2 lon2

end NumericClaims

/-- In exact arithmetic `haversine` of coordinates in degrees is
`2 R atan2(√a, √(1 - a))` with `R = 6371000` and
`a = sin²(Δlat/2) + cos(lat1) cos(lat2) sin²(Δlon/2)`, the angles being the
degree values multiplied by `π / 180`. -/
theorem haversine_eq_formula (lat1 lon1 lat2 lon2 : ℝ) :
    haversine FloatMath.exact (fin lat1) (fin lon1) (fin lat2) (fin lon2) =
      fin (haversineFormula lat1 lon1 lat2 lon2) := by
  rw [haversine_exact_eq, haversineFormula_eq]

/-- The scenario of C11 (`TestCheckAndAlert_InsideGeofence`): the sample
location at the centre of the radius-50 geofence gives exactly one alert. -/
theorem CheckAndAlert_at_center_witness :
    (FloatMath.exact.ZeroLaws ∧ FiniteRadians FloatMath.exact (-6.2088) ∧
      F64.le (fin 0) (fin (50 : ℝ)) = true) ∧
    (GeofenceService.CheckAndAlert FloatMath.exact
        { publisher := recordAlerts okPublisher,
          geofences := [{ Lat := fin (-6.2088), Lon := fin 106.8456, Radius := fin 50 }] }
        (sampleLocation ℝ) ((), []) =
      (none, (), [alertFor (sampleLocation ℝ)]) ∧
      (alertFor (sampleLocation ℝ)).Event = GeofenceEntry) :=
  ⟨⟨exact_zeroLaws, exact_finiteRadians _, by simp [F64.le]⟩,
    CheckAndAlert_at_center FloatMath.exact exact_zeroLaws okPublisher (fun _ _ => rfl)
      (sampleLocation ℝ) (-6.2088) 106.8456 (fin 50) rfl rfl (exact_finiteRadians _)
      (by simp [F64.le]) ()⟩

/-- In exact arithmetic the far location is more than 50 m from the centre
geofence. -/
theorem farLocation_outside :
    F64.gt (haversine FloatMath.exact (farLocation ℝ).Location.Lat (farLocation ℝ).Location.Lon
      (centerGeofence ℝ).Lat (centerGeofence ℝ).Lon) (centerGeofence ℝ).Radius = true := by
  apply haversine_exact_gt
  · rw [abs_le]; constructor <;> norm_num
  · rw [abs_le]; constructor <;> norm_num
  · rw [abs_le]; constructor <;> norm_num
  · rw [show ((-6.2088 : ℝ) - (-7.0)) = 0.7912 by norm_num, abs_of_nonneg (by norm_num)]
    norm_num

/-- The scenario of C12 (`TestCheckAndAlert_OutsideGeofence`): position
(-7.0, 107.0) against the geofence (-6.2088, 106.8456, radius 50) gives no
`PublishAlert` call, even with a publisher that would fail. -/
theorem CheckAndAlert_outside_all_witness :
    F64.gt (haversine FloatMath.exact (farLocation ℝ).Location.Lat (farLocation ℝ).Location.Lon
        (centerGeofence ℝ).Lat (centerGeofence ℝ).Lon) (centerGeofence ℝ).Radius = true ∧
      GeofenceService.CheckAndAlert FloatMath.exact
          { publisher := recordAlerts downPublisher, geofences := [centerGeofence ℝ] }
          (farLocation ℝ) ((), []) =
        (none, (), []) :=
  ⟨farLocation_outside,
    CheckAndAlert_outside_all FloatMath.exact downPublisher [centerGeofence ℝ] (farLocation ℝ) ()
      (fun gf hgf => by rw [List.mem_singleton.mp hgf]; exact farLocation_outside)⟩

/-- In exact arithmetic the centre geofence contains the sample location. -/
theorem centerGeofence_contains :
    GeoPoint.contains FloatMath.exact (sampleLocation ℝ) (centerGeofence ℝ) = true :=
  contains_exact_center (sampleLocation ℝ) (-6.2088) 106.8456 50 rfl rfl (by norm_num)

/-- The scenario of C13: the sample location reported twice.  Against the
three sample geofences each call publishes the same two alerts; against the
centre geofence alone the two calls publish two alerts, one per call. -/
theorem checkEach_stateless_witness :
    ((checkEach FloatMath.exact
          { publisher := recordAlerts okPublisher, geofences := sampleGeofences ℝ }
          [sampleLocation ℝ, sampleLocation ℝ] ((), [])).1 = [none, none] ∧
      (checkEach FloatMath.exact
          { publisher := recordAlerts okPublisher, geofences := sampleGeofences ℝ }
          [sampleLocation ℝ, sampleLocation ℝ] ((), [])).2.2 =
        [alertFor (sampleLocation ℝ), alertFor (sampleLocation ℝ),
          alertFor (sampleLocation ℝ), alertFor (sampleLocation ℝ)]) ∧
    (checkEach FloatMath.exact
        { publisher := recordAlerts okPublisher, geofences := [centerGeofence ℝ] }
        [sampleLocation ℝ, sampleLocation ℝ] ((), [])).2.2 =
      [alertFor (sampleLocation ℝ), alertFor (sampleLocation ℝ)] :=
  have hin : ∀ vl ∈ [sampleLocation ℝ, sampleLocation ℝ],
      GeoPoint.contains FloatMath.exact vl (centerGeofence ℝ) = true := by
    intro vl hvl
    have : vl = sampleLocation ℝ := by simpa using hvl
    rw [this]; exact centerGeofence_contains
  have hall := checkEach_stateless FloatMath.exact okPublisher (fun _ _ => rfl)
    (sampleGeofences ℝ) (centerGeofence ℝ) [sampleLocation ℝ, sampleLocation ℝ] ()
    (List.mem_cons_self _ _) hin
  have hone := checkEach_stateless FloatMath.exact okPublisher (fun _ _ => rfl)
    [centerGeofence ℝ] (centerGeofence ℝ) [sampleLocation ℝ, sampleLocation ℝ] ()
    (List.mem_singleton.mpr rfl) hin
  ⟨⟨hall.1, hall.2.1.trans (by simp [sampleGeofences_filter])⟩, hone.2.2.2 rfl⟩

/-- The instance of C14 checked by `TestHaversine`: the distance of
(-6.2088, 106.8456) to itself is 0. -/
theorem haversine_self_witness :
    (FloatMath.exact.ZeroLaws ∧ FiniteRadians FloatMath.exact (-6.2088)) ∧
      haversine FloatMath.exact (fin (-6.2088)) (fin 106.8456) (fin (-6.2088)) (fin 106.8456) =
        fin 0 :=
  ⟨⟨exact_zeroLaws, exact_finiteRadians _⟩,
    haversine_self FloatMath.exact exact_zeroLaws (-6.2088) 106.8456 (exact_finiteRadians _)⟩

/-- An instance of C15: the distance between the sample location and the far
location is the same in both directions. -/
theorem haversine_symm_witness :
    FloatMath.exact.SignLaws ∧
      haversine FloatMath.exact (fin (-6.2088)) (fin 106.8456) (fin (-7.0)) (fin 107.0) =
        haversine FloatMath.exact (fin (-7.0)) (fin 107.0) (fin (-6.2088)) (fin 106.8456) :=
  ⟨exact_signLaws,
    haversine_symm FloatMath.exact exact_signLaws (fin (-6.2088)) (fin 106.8456) (fin (-7.0))
      (fin 107.0)⟩

/-! ## End to end -/

section EndToEnd

variable {R : Type} [LinearOrderedField R] {σ : Type}

/-- C17: end to end, with `handleMessage` wired by `Build` to the location
service over a store whose inserts succeed and to the geofence service over a
publisher that succeeds: a valid report `(id, lat, lon, ts)` positioned at the
centre of the single configured geofence, of radius at least 0, causes exactly
one insert, of the location of vehicle `id`, followed by exactly one published
alert, with event `geofence_entry` and timestamp `ts`.  The float64
environment obeys the zero laws and the latitude has finite radians. -/
theorem handleMessage_end_to_end (fm : FloatMath R) (hfm : fm.ZeroLaws)
    (unmarshal : Unmarshal R) (payload : List UInt8) (repo : LocationRepository R σ)
    (publisher : GeofenceAlert R → σ → Option Error × σ)
    (hins : ∀ vl w, (repo.Insert vl w).1 = none)
    (hpub : ∀ alert w, (publisher alert w).1 = none)
    (id : String) (lat lon : R) (ts : Int) (radius : F64 R)
    (hdec : unmarshal payload =
      .ok { VehicleID := id, Latitude := fin lat, Longitude := fin lon, Timestamp := ts })
    (hv : validateLocationMessage
      ({ VehicleID := id, Latitude := fin lat, Longitude := fin lon, Timestamp := ts } :
        locationMessage R) = none)
    (hrad : FiniteRadians fm lat) (hr : F64.le (fin 0) radius = true) (w : σ) :
    (((Build fm (recordInserts repo) (recordPublishes publisher)
        [{ Lat := fin lat, Lon := fin lon, Radius := radius }]).subscriber.handleMessage
          unmarshal payload (w, [])).1).2 =
      [Effect.inserted
          { VehicleID := id,
            Location := { Lat := fin lat, Lon := fin lon, Timestamp := time.Unix ts 0 } },
        Effect.published
          { VehicleID := id, Event := GeofenceEntry,
            Location := { Lat := fin lat, Lon := fin lon, Timestamp := time.Unix ts 0 },
            Timestamp := ts }] := by
  have hsave : ((Build fm (recordInserts repo) (recordPublishes publisher)
      [{ Lat := fin lat, Lon := fin lon, Radius := radius }]).subscriber.locationSvc
        (locationMessage.toVehicleLocation
          { VehicleID := id, Latitude := fin lat, Longitude := fin lon, Timestamp := ts })
        (w, [])).1 = none := by
    simp [Build, LocationService.SaveLocation, recordInserts, hins]
  rw [handleMessage_saved unmarshal _ payload (w, []) _ hdec hv hsave]
  have hc := contains_center_of_laws fm hfm
    (locationMessage.toVehicleLocation
      { VehicleID := id, Latitude := fin lat, Longitude := fin lon, Timestamp := ts })
    lat lon radius rfl rfl hrad hr
  simp only [Build, LocationService.SaveLocation, recordInserts, GeofenceService.CheckAndAlert,
    checkGeofences_cons, hc, if_true]
  simp [recordPublishes, hpub, checkGeofences, alertFor, locationMessage.toVehicleLocation,
    time_Unix_Unix]

end EndToEnd

/-- The end-to-end scenario of the specification (C17): vehicle B1 at
(-6.2088, 106.8456), timestamp 1715003456, geofence radius 50, over the
in-memory repository: one insert for B1 and one `geofence_entry` alert with
timestamp 1715003456. -/
theorem handleMessage_end_to_end_witness :
    validateLocationMessage (b1Message ℝ) = none ∧
      (((Build FloatMath.exact (recordInserts (memoryRepo ℝ)) (recordPublishes acceptingPublisher)
          [centerGeofence ℝ]).subscriber.handleMessage
            (stubUnmarshal (b1Message ℝ)) [123, 125] ([], [])).1).2 =
        ([Effect.inserted
            { VehicleID := "B1",
              Location := { Lat := fin (-6.2088), Lon := fin 106.8456,
                            Timestamp := time.Unix 1715003456 0 } },
          Effect.published
            { VehicleID := "B1", Event := GeofenceEntry,
              Location := { Lat := fin (-6.2088), Lon := fin 106.8456,
                            Timestamp := time.Unix 1715003456 0 },
              Timestamp := 1715003456 }] : List (Effect ℝ)) :=
  have hv : validateLocationMessage (b1Message ℝ) = none :=
    validateLocationMessage_of_invariants _
      (by simp [IngressInvariants, b1Message, F64.InRange]; norm_num)
  ⟨hv,
    handleMessage_end_to_end FloatMath.exact exact_zeroLaws (stubUnmarshal (b1Message ℝ))
      [123, 125] (memoryRepo ℝ) acceptingPublisher (fun _ _ => rfl) (fun _ _ => rfl) "B1"
      (-6.2088) 106.8456 1715003456 (fin 50) rfl hv (exact_finiteRadians _)
      (by simp [F64.le]) []⟩

/-! ## Alert publisher -/

section PublisherClaims

variable {R : Type} {σ : Type}

/-- The JSON value `PublishAlert` hands to the encoder for an alert. -/
theorem PublishAlert_eq (Marshal : JSON R → Except Error (List UInt8))
    (p : rabbitmq.GeofencePublisher σ) (alert : GeofenceAlert R) (w : σ) :
    p.PublishAlert Marshal alert w =
      match Marshal (JSON.object
        [("vehicle_id", JSON.string alert.VehicleID),
         ("event", JSON.string alert.Event),
         ("location", JSON.object
           [("latitude", JSON.number alert.Location.Lat),
            ("longitude", JSON.number alert.Location.Lon)]),
         ("timestamp", JSON.integer alert.Timestamp)]) with
      | .error err => (some ("marshal alert: " ++ err), w)
      | .ok body =>
        p.ch.PublishWithContext rabbitmq.exchangeName "" false false
          { ContentType := "application/json", Body := body } w := rfl

/-- C18: the message `PublishAlert` hands to the transport is the encoding of
the JSON object with exactly the fields `vehicle_id`, `event`, `location` and
`timestamp` of the alert, `location` holding exactly `latitude` and
`longitude` (no timestamp of its own). -/
theorem PublishAlert_message (Marshal : JSON R → Except Error (List UInt8))
    (p : rabbitmq.GeofencePublisher σ) (alert : GeofenceAlert R) (w : σ) (body : List UInt8)
    (hbody : Marshal (JSON.object
        [("vehicle_id", JSON.string alert.VehicleID),
         ("event", JSON.string alert.Event),
         ("location", JSON.object
           [("latitude", JSON.number alert.Location.Lat),
            ("longitude", JSON.number alert.Location.Lon)]),
         ("timestamp", JSON.integer alert.Timestamp)]) = .ok body) :
    (rabbitmq.GeofencePublisher.PublishAlert Marshal { ch := rabbitmq.recordPublishings p.ch }
        alert (w, [])).2.2 =
      [{ exchange := "fleet.events", key := "", mandatory := false, immediate := false,
         msg := { ContentType := "application/json", Body := body } }] := by
  rw [PublishAlert_eq, hbody]
  rfl

/-- C19: `PublishAlert` hands the message to the transport at most once; when
the encoding succeeds and the transport returns an error, `PublishAlert` has
made exactly one transport call and returns that error. -/
theorem PublishAlert_no_retry (Marshal : JSON R → Except Error (List UInt8))
    (p : rabbitmq.GeofencePublisher σ) (alert : GeofenceAlert R) (w : σ) (body : List UInt8)
    (err : Error)
    (hbody : Marshal (JSON.object
        [("vehicle_id", JSON.string alert.VehicleID),
         ("event", JSON.string alert.Event),
         ("location", JSON.object
           [("latitude", JSON.number alert.Location.Lat),
            ("longitude", JSON.number alert.Location.Lon)]),
         ("timestamp", JSON.integer alert.Timestamp)]) = .ok body)
    (herr : (p.ch.PublishWithContext rabbitmq.exchangeName "" false false
      { ContentType := "application/json", Body := body } w).1 = some err) :
    (rabbitmq.GeofencePublisher.PublishAlert Marshal { ch := rabbitmq.recordPublishings p.ch }
        alert (w, [])).1 = some err ∧
      ((rabbitmq.GeofencePublisher.PublishAlert Marshal { ch := rabbitmq.recordPublishings p.ch }
        alert (w, [])).2.2).length = 1 ∧
      ∀ (Marshal' : JSON R → Except Error (List UInt8)) (p' : rabbitmq.GeofencePublisher σ)
        (alert' : GeofenceAlert R) (w' : σ),
        ((rabbitmq.GeofencePublisher.PublishAlert Marshal'
          { ch := rabbitmq.recordPublishings p'.ch } alert' (w', [])).2.2).length ≤ 1 := by
  refine ⟨?_, ?_, ?_⟩
  · rw [PublishAlert_eq, hbody]
    exact herr
  · rw [PublishAlert_eq, hbody]
    rfl
  · intro Marshal' p' alert' w'
    rw [PublishAlert_eq]
    split
    · simp
    · simp [rabbitmq.recordPublishings]

end PublisherClaims

/-- An instance of C18: the alert of the sample location, published over an
open channel. -/
theorem PublishAlert_message_witness :
    (rabbitmq.GeofencePublisher.PublishAlert stubMarshal
        { ch := rabbitmq.recordPublishings openChannel } (alertFor (sampleLocation ℚ))
        ((), [])).2.2 =
      [{ exchange := "fleet.events", key := "", mandatory := false, immediate := false,
         msg := { ContentType := "application/json", Body := [123, 125] } }] :=
  PublishAlert_message stubMarshal { ch := openChannel } (alertFor (sampleLocation ℚ)) ()
    [123, 125] rfl

/-- An instance of C19: over a closed channel the alert of the sample location
is handed to the transport once and the transport's error comes back. -/
theorem PublishAlert_no_retry_witness :
    (rabbitmq.GeofencePublisher.PublishAlert stubMarshal
        { ch := rabbitmq.recordPublishings closedChannel } (alertFor (sampleLocation ℚ))
        ((), [])).1 = some "channel/connection is not open" ∧
      ((rabbitmq.GeofencePublisher.PublishAlert stubMarshal
        { ch := rabbitmq.recordPublishings closedChannel } (alertFor (sampleLocation ℚ))
        ((), [])).2.2).length = 1 :=
  have h := PublishAlert_no_retry stubMarshal { ch := closedChannel }
    (alertFor (sampleLocation ℚ)) () [123, 125] "channel/connection is not open" rfl rfl
  ⟨h.1, h.2.1⟩

/-! ## Query API -/

section QueryFacts

variable {R : Type} {σ : Type}

/-- `GetLatestLocation` answers 404 to every error of the service. -/
theorem GetLatestLocation_error (h : http.VehicleHandler R σ) (c : http.Request) (w w1 : σ)
    (err : Error) (hsvc : h.locationSvc.GetLatest (c.Param "vehicle_id") w = (.error err, w1)) :
    h.GetLatestLocation c w =
      ({ status := 404, body := http.Body.error "vehicle not found" }, w1) := by
  simp [http.VehicleHandler.GetLatestLocation, hsvc, http.StatusNotFound]

/-- `GetAllVehicles` answers 500 to every error of the service. -/
theorem GetAllVehicles_error (h : http.VehicleHandler R σ) (c : http.Request) (w w1 : σ)
    (err : Error) (hsvc : h.locationSvc.GetAllVehicles w = (.error err, w1)) :
    h.GetAllVehicles c w =
      ({ status := 500, body := http.Body.error "failed to fetch vehicles" }, w1) := by
  simp [http.VehicleHandler.GetAllVehicles, hsvc, http.StatusInternalServerError]

/-- `GetHistory` answers 500 to every error of the service, once both
parameters have parsed. -/
theorem GetHistory_error (ParseInt : String → ℕ → ℕ → Except Error Int)
    (h : http.VehicleHandler R σ) (c : http.Request) (w w1 : σ) (start end_ : Int) (err : Error)
    (hstart : ParseInt (c.Query "start") 10 64 = .ok start)
    (hend : ParseInt (c.Query "end") 10 64 = .ok end_)
    (hsvc : h.locationSvc.GetHistory
      { VehicleID := c.Param "vehicle_id", Start := time.Unix start 0, End := time.Unix end_ 0 }
      w = (.error err, w1)) :
    h.GetHistory ParseInt c w =
      ({ status := 500, body := http.Body.error "failed to fetch history" }, w1) := by
  simp [http.VehicleHandler.GetHistory, hstart, hend, hsvc, http.StatusInternalServerError]

end QueryFacts

/-- C20: when the store is unreachable and the service returns the error
`db error`, which is not a not-found condition, `GetLatestLocation` answers
404 `vehicle not found`, while `GetHistory` and `GetAllVehicles` answer the
same error with 500. -/
theorem GetLatestLocation_db_error_is_404 :
    (http.VehicleHandler.GetLatestLocation { locationSvc := unreachableService ℚ }
        sampleRequest ()).1 =
      { status := 404, body := http.Body.error "vehicle not found" } ∧
    (http.VehicleHandler.GetHistory stubParseInt { locationSvc := unreachableService ℚ }
        sampleRequest ()).1 =
      { status := 500, body := http.Body.error "failed to fetch history" } ∧
    (http.VehicleHandler.GetAllVehicles { locationSvc := unreachableService ℚ }
        sampleRequest ()).1 =
      { status := 500, body := http.Body.error "failed to fetch vehicles" } := by
  refine ⟨?_, ?_, ?_⟩
  · rw [GetLatestLocation_error _ sampleRequest () () "db error" rfl]
  · rw [GetHistory_error stubParseInt _ sampleRequest () () 1715000000 1715009999 "db error"
      (by simp [stubParseInt, sampleRequest]) (by simp [stubParseInt, sampleRequest]) rfl]
  · rw [GetAllVehicles_error _ sampleRequest () () "db error" rfl]

/-! ## `strconv.ParseInt` and decimal numerals -/

section ParseFacts

/-- Reading further digits never lowers the accumulated value. -/
theorem decimalDigits_ge (cs : List Char) (acc m : ℕ) (h : decimalDigits cs acc = some m) :
    acc ≤ m := by
  induction cs generalizing acc with
  | nil =>
    simp only [decimalDigits, Option.some.injEq] at h
    omega
  | cons c rest ih =>
    simp only [decimalDigits] at h
    split_ifs at h with hc
    have := ih _ h
    omega

/-- The digit of a decimal digit character. -/
theorem digitValue_of_decimal (c : Char) (hc : 48 ≤ c.toNat ∧ c.toNat ≤ 57) :
    strconv.digitValue c = some (c.toNat - 48) := by
  simp [strconv.digitValue, hc]

/-- A character that is no decimal digit has no digit value below 10. -/
theorem digitValue_of_not_decimal (c : Char) (hc : ¬ (48 ≤ c.toNat ∧ c.toNat ≤ 57)) :
    strconv.digitValue c = none ∨ ∃ d, strconv.digitValue c = some d ∧ 10 ≤ d := by
  unfold strconv.digitValue
  rw [if_neg hc]
  split_ifs with h1 h2
  · exact Or.inr ⟨_, rfl, by omega⟩
  · exact Or.inr ⟨_, rfl, by omega⟩
  · exact Or.inl rfl

/-- One step of the base-10 digit loop on a decimal digit. -/
theorem parseUintLoop_cons_digit (c : Char) (rest : List Char) (n : ℕ)
    (hc : 48 ≤ c.toNat ∧ c.toNat ≤ 57) (hn : n < 2 ^ 64) :
    strconv.parseUintLoop 10 (2 ^ 64 - 1) (c :: rest) n =
      if n * 10 + (c.toNat - 48) < 2 ^ 64 then
        strconv.parseUintLoop 10 (2 ^ 64 - 1) rest (n * 10 + (c.toNat - 48))
      else (2 ^ 64 - 1, some strconv.ErrRange) := by
  have h64 : (2 : ℕ) ^ 64 = 18446744073709551616 := by norm_num
  simp only [strconv.parseUintLoop, digitValue_of_decimal c hc]
  rw [h64] at hn
  simp only [h64]
  have hd : ¬ (10 ≤ c.toNat - 48) := by omega
  rw [if_neg hd]
  by_cases hcut : (18446744073709551616 - 1) / 10 + 1 ≤ n
  · rw [if_pos hcut, if_neg (by omega)]
  · rw [if_neg hcut]
    by_cases hfit : n * 10 + (c.toNat - 48) < 18446744073709551616
    · rw [if_pos hfit, if_neg (by omega)]
      congr 1
      omega
    · rw [if_neg hfit, if_pos (by omega)]

/-- One step of the base-10 digit loop on any other character. -/
theorem parseUintLoop_cons_other (c : Char) (rest : List Char) (n maxVal : ℕ)
    (hc : ¬ (48 ≤ c.toNat ∧ c.toNat ≤ 57)) :
    strconv.parseUintLoop 10 maxVal (c :: rest) n = (0, some strconv.ErrSyntax) := by
  rcases digitValue_of_not_decimal c hc with h | ⟨d, h, hd⟩
  · simp [strconv.parseUintLoop, h]
  · simp [strconv.parseUintLoop, h, hd]

/-- The base-10 digit loop on `uint64` returns a value without error exactly
when the text is all decimal digits and the number read fits 64 bits. -/
theorem parseUintLoop_ok_iff (cs : List Char) (n m : ℕ) (hn : n < 2 ^ 64) :
    strconv.parseUintLoop 10 (2 ^ 64 - 1) cs n = (m, none) ↔
      decimalDigits cs n = some m ∧ m < 2 ^ 64 := by
  induction cs generalizing n with
  | nil =>
    simp only [strconv.parseUintLoop, decimalDigits, Prod.mk.injEq, and_true,
      Option.some.injEq]
    constructor
    · intro h; subst h; exact ⟨rfl, hn⟩
    · intro h; exact h.1
  | cons c rest ih =>
    by_cases hc : 48 ≤ c.toNat ∧ c.toNat ≤ 57
    · rw [parseUintLoop_cons_digit c rest n hc hn]
      simp only [decimalDigits, if_pos hc]
      by_cases hfit : n * 10 + (c.toNat - 48) < 2 ^ 64
      · rw [if_pos hfit]
        exact ih _ hfit
      · rw [if_neg hfit]
        constructor
        · intro h; simp at h
        · rintro ⟨h1, h2⟩
          have := decimalDigits_ge _ _ _ h1
          omega
    · rw [parseUintLoop_cons_other c rest n _ hc]
      simp [decimalDigits, hc]

/-- When the base-10 digit loop returns an error, it is a syntax error or the
value is the largest `uint64`. -/
theorem parseUintLoop_error (cs : List Char) (n v : ℕ) (e : Error) (hn : n < 2 ^ 64)
    (h : strconv.parseUintLoop 10 (2 ^ 64 - 1) cs n = (v, some e)) :
    e = strconv.ErrSyntax ∨ v = 2 ^ 64 - 1 := by
  induction cs generalizing n with
  | nil => simp [strconv.parseUintLoop] at h
  | cons c rest ih =>
    by_cases hc : 48 ≤ c.toNat ∧ c.toNat ≤ 57
    · rw [parseUintLoop_cons_digit c rest n hc hn] at h
      by_cases hfit : n * 10 + (c.toNat - 48) < 2 ^ 64
      · rw [if_pos hfit] at h
        exact ih _ hfit h
      · rw [if_neg hfit] at h
        simp only [Prod.mk.injEq] at h
        exact Or.inr h.1.symm
    · rw [parseUintLoop_cons_other c rest n _ hc] at h
      simp only [Prod.mk.injEq, Option.some.injEq] at h
      exact Or.inl h.2.symm

end ParseFacts

section ParseIntFacts

/-- `ParseUint` with base 10 and bit size 64 is the digit loop on a non-empty
text. -/
theorem ParseUint_10_64 (ds : List Char) :
    strconv.ParseUint ds 10 64 =
      if ds = [] then (0, some strconv.ErrSyntax)
      else strconv.parseUintLoop 10 (2 ^ 64 - 1) ds 0 := by
  simp [strconv.ParseUint]

/-- The two's complement reading of a `uint64` below `2 ^ 63` is itself. -/
theorem toInt64_of_lt (u : ℕ) (h : u < 2 ^ 63) : strconv.toInt64 u = u := by
  have h64 : (2 : ℕ) ^ 64 = 18446744073709551616 := by norm_num
  have h63 : (2 : ℕ) ^ 63 = 9223372036854775808 := by norm_num
  rw [h63] at h
  unfold strconv.toInt64
  simp only [h64, h63]
  have : u % 18446744073709551616 = u := by omega
  rw [this, if_pos h]

/-- Negating the two's complement reading of a `uint64` of at most `2 ^ 63`
gives minus that number. -/
theorem negInt64_toInt64 (u : ℕ) (h : u ≤ 2 ^ 63) :
    strconv.negInt64 (strconv.toInt64 u) = -(u : Int) := by
  have h64 : (2 : ℕ) ^ 64 = 18446744073709551616 := by norm_num
  have h63 : (2 : ℕ) ^ 63 = 9223372036854775808 := by norm_num
  have h64i : (2 : Int) ^ 64 = 18446744073709551616 := by norm_num
  have h63i : (2 : Int) ^ 63 = 9223372036854775808 := by norm_num
  rw [h63] at h
  unfold strconv.negInt64 strconv.toInt64
  simp only [h64, h63, h64i, h63i]
  have hu : u % 18446744073709551616 = u := by omega
  rw [hu]
  split_ifs with hlt
  · omega
  · omega

/-- The digit loop fails on a text that is not a decimal number fitting 64
bits: with an error that is a syntax error, or with the largest `uint64`. -/
theorem parseUintLoop_cases (ds : List Char) :
    (∃ u, strconv.parseUintLoop 10 (2 ^ 64 - 1) ds 0 = (u, none) ∧
        decimalDigits ds 0 = some u ∧ u < 2 ^ 64) ∨
      (∃ v e, strconv.parseUintLoop 10 (2 ^ 64 - 1) ds 0 = (v, some e) ∧
        (e = strconv.ErrSyntax ∨ v = 2 ^ 64 - 1) ∧
        ∀ u, decimalDigits ds 0 = some u → 2 ^ 64 ≤ u) := by
  have h0 : (0 : ℕ) < 2 ^ 64 := by norm_num
  rcases hloop : strconv.parseUintLoop 10 (2 ^ 64 - 1) ds 0 with ⟨un, err⟩
  cases err with
  | none =>
    exact Or.inl ⟨un, rfl, (parseUintLoop_ok_iff ds 0 un h0).mp hloop⟩
  | some e =>
    refine Or.inr ⟨un, e, rfl, parseUintLoop_error ds 0 un e h0 hloop, ?_⟩
    intro u hu
    by_contra hlt
    have := (parseUintLoop_ok_iff ds 0 u h0).mpr ⟨hu, by omega⟩
    rw [hloop] at this
    simp at this

/-- The range check after a minus sign, on the result of `ParseUint` for the
digits `ds`, with base 10 and bit size 64: it returns `n` exactly when `ds` is a non-empty string of
decimal digits whose number `u` is at most `2 ^ 63` and `n = -u`. -/
theorem parseInt_negative_ok_iff (ds : List Char) (n : Int) :
    strconv.signedResult true 64 (strconv.ParseUint ds 10 64).1 (strconv.ParseUint ds 10 64).2 =
        .ok n ↔
      ds ≠ [] ∧ ∃ u : ℕ, decimalDigits ds 0 = some u ∧ n = -(u : Int) ∧ u ≤ 2 ^ 63 := by
  have h63 : (2 : ℕ) ^ (64 - 1) = 9223372036854775808 := by norm_num
  have h63' : (2 : ℕ) ^ 63 = 9223372036854775808 := by norm_num
  have h64 : (2 : ℕ) ^ 64 = 18446744073709551616 := by norm_num
  rw [ParseUint_10_64]
  unfold strconv.signedResult
  by_cases hds : ds = []
  · simp [hds, strconv.ErrSyntax, strconv.ErrRange]
  · rw [if_neg hds]
    rcases parseUintLoop_cases ds with ⟨u, hloop, hu, hfit⟩ | ⟨v, e, hloop, herr, hbig⟩
    · rw [hloop]
      simp only [Option.isSome_none, Bool.false_eq_true, false_and, if_false,
        true_and, if_true, h63, show (if (64 : ℕ) = 0 then 64 else 64) = 64 from rfl]
      by_cases hcut : 9223372036854775808 < u
      · refine iff_of_false ?_ ?_
        · simp [hcut]
        · rintro ⟨_, u', hu', _, hle⟩
          have := Option.some.inj (hu.symm.trans hu')
          omega
      · rw [negInt64_toInt64 u (by omega)]
        have hl : (if true = false ∧ 9223372036854775808 ≤ u then
              (Except.error strconv.ErrRange : Except Error Int)
            else if 9223372036854775808 < u then Except.error strconv.ErrRange
            else Except.ok (-(u : Int))) = Except.ok (-(u : Int)) := by
          simp [hcut]
        rw [hl]
        constructor
        · intro h
          exact ⟨hds, u, hu, (Except.ok.inj h).symm, by omega⟩
        · rintro ⟨_, u', hu', hn, _⟩
          have := Option.some.inj (hu.symm.trans hu')
          rw [hn, this]
    · rw [hloop]
      have hright : ¬ (ds ≠ [] ∧ ∃ u : ℕ, decimalDigits ds 0 = some u ∧ n = -(u : Int) ∧
          u ≤ 2 ^ 63) := by
        rintro ⟨_, u, hu, _, hle⟩
        have := hbig u hu
        omega
      refine iff_of_false ?_ hright
      rcases herr with he | hv
      · subst he
        simp [strconv.ErrSyntax, strconv.ErrRange]
      · subst hv
        by_cases he : e = strconv.ErrRange
        · subst he
          simp
        · simp [he]

/-- The range check without a minus sign, on the result of `ParseUint` for the
digits `ds`, with base 10 and bit size 64: it returns `n` exactly when `ds` is a non-empty
string of decimal digits whose number `u` is below `2 ^ 63` and `n = u`. -/
theorem parseInt_positive_ok_iff (ds : List Char) (n : Int) :
    strconv.signedResult false 64 (strconv.ParseUint ds 10 64).1 (strconv.ParseUint ds 10 64).2 =
        .ok n ↔
      ds ≠ [] ∧ ∃ u : ℕ, decimalDigits ds 0 = some u ∧ n = (u : Int) ∧ u < 2 ^ 63 := by
  have h63 : (2 : ℕ) ^ (64 - 1) = 9223372036854775808 := by norm_num
  have h63' : (2 : ℕ) ^ 63 = 9223372036854775808 := by norm_num
  have h64 : (2 : ℕ) ^ 64 = 18446744073709551616 := by norm_num
  rw [ParseUint_10_64]
  unfold strconv.signedResult
  by_cases hds : ds = []
  · simp [hds, strconv.ErrSyntax, strconv.ErrRange]
  · rw [if_neg hds]
    rcases parseUintLoop_cases ds with ⟨u, hloop, hu, hfit⟩ | ⟨v, e, hloop, herr, hbig⟩
    · rw [hloop]
      simp only [Option.isSome_none, Bool.false_eq_true, false_and, if_false,
        true_and, h63, show (if (64 : ℕ) = 0 then 64 else 64) = 64 from rfl]
      by_cases hcut : 9223372036854775808 ≤ u
      · rw [if_pos hcut]
        simp only [reduceCtorEq, false_iff]
        rintro ⟨_, u', hu', _, hlt⟩
        have := Option.some.inj (hu.symm.trans hu')
        omega
      · rw [if_neg hcut, toInt64_of_lt u (by omega)]
        constructor
        · intro h
          exact ⟨hds, u, hu, (Except.ok.inj h).symm, by omega⟩
        · rintro ⟨_, u', hu', hn, _⟩
          have := Option.some.inj (hu.symm.trans hu')
          rw [hn, this]
    · rw [hloop]
      have hright : ¬ (ds ≠ [] ∧ ∃ u : ℕ, decimalDigits ds 0 = some u ∧ n = (u : Int) ∧
          u < 2 ^ 63) := by
        rintro ⟨_, u, hu, _, hlt⟩
        have := hbig u hu
        omega
      refine iff_of_false ?_ hright
      rcases herr with he | hv
      · subst he
        simp [strconv.ErrSyntax, strconv.ErrRange]
      · subst hv
        by_cases he : e = strconv.ErrRange
        · subst he
          simp
        · simp [he]

end ParseIntFacts

section ParseIntSpec

/-- `strconv.ParseInt(s, 10, 64)` returns the value `n` without error exactly
when `s` is a decimal numeral denoting `n` and `n` fits 64 signed bits. -/
theorem ParseInt_ok_iff (s : String) (n : Int) :
    strconv.ParseInt s 10 64 = .ok n ↔
      decimalNumeral s = some n ∧ -2 ^ 63 ≤ n ∧ n < 2 ^ 63 := by
  have h63 : (2 : ℕ) ^ 63 = 9223372036854775808 := by norm_num
  have h63i : (2 : Int) ^ 63 = 9223372036854775808 := by norm_num
  unfold strconv.ParseInt decimalNumeral
  cases hs : s.toList with
  | nil => simp
  | cons c rest =>
    show strconv.signedResult (decide (c = '-')) 64 _ _ = .ok n ↔
      (if c = '+' then _ else _) = some n ∧ _
    by_cases hminus : c = '-'
    · have hplus : ¬ c = '+' := by rw [hminus]; decide
      rw [if_neg hplus, if_pos hminus, if_pos (Or.inr hminus), decide_eq_true hminus,
        parseInt_negative_ok_iff rest n]
      by_cases hrest : rest = []
      · simp [hrest]
      · rw [if_neg hrest]
        constructor
        · rintro ⟨_, u, hu, hn, hle⟩
          refine ⟨by simp [hu, hn], ?_, ?_⟩ <;> omega
        · rintro ⟨hmap, hlo, hhi⟩
          rw [Option.map_eq_some'] at hmap
          obtain ⟨u, hu, hn⟩ := hmap
          exact ⟨hrest, u, hu, hn.symm, by omega⟩
    · by_cases hplus : c = '+'
      · rw [if_pos hplus, if_pos (Or.inl hplus), decide_eq_false hminus,
          parseInt_positive_ok_iff rest n]
        by_cases hrest : rest = []
        · simp [hrest]
        · rw [if_neg hrest]
          constructor
          · rintro ⟨_, u, hu, hn, hlt⟩
            refine ⟨by simp [hu, hn], ?_, ?_⟩ <;> omega
          · rintro ⟨hmap, hlo, hhi⟩
            rw [Option.map_eq_some'] at hmap
            obtain ⟨u, hu, hn⟩ := hmap
            exact ⟨hrest, u, hu, hn.symm, by omega⟩
      · rw [if_neg hplus, if_neg hminus, if_neg (not_or.mpr ⟨hplus, hminus⟩),
          decide_eq_false hminus, parseInt_positive_ok_iff (c :: rest) n]
        constructor
        · rintro ⟨_, u, hu, hn, hlt⟩
          refine ⟨by simp [hu, hn], ?_, ?_⟩ <;> omega
        · rintro ⟨hmap, hlo, hhi⟩
          rw [Option.map_eq_some'] at hmap
          obtain ⟨u, hu, hn⟩ := hmap
          exact ⟨by simp, u, hu, hn.symm, by omega⟩

/-- `strconv.ParseInt(s, 10, 64)` returns an error for every text that is not
a base-10 signed 64-bit integer. -/
theorem ParseInt_error_of_not_int64 (s : String) (h : ¬ IsBase10Int64 s) :
    ∃ err, strconv.ParseInt s 10 64 = .error err := by
  cases hp : strconv.ParseInt s 10 64 with
  | error err => exact ⟨err, rfl⟩
  | ok n => exact absurd ⟨n, (ParseInt_ok_iff s n).mp hp⟩ h

/-- `strconv.ParseInt(s, 10, 64)` returns its value for every text that is a
base-10 signed 64-bit integer. -/
theorem ParseInt_ok_of_int64 (s : String) (h : IsBase10Int64 s) :
    ∃ n, strconv.ParseInt s 10 64 = .ok n := by
  obtain ⟨n, hn⟩ := h
  exact ⟨n, (ParseInt_ok_iff s n).mpr hn⟩

/-- The text `abc` and the empty text are not base-10 signed 64-bit integers. -/
theorem not_int64_samples : ¬ IsBase10Int64 "abc" ∧ ¬ IsBase10Int64 "" := by
  have h1 : decimalNumeral "abc" = none := by decide
  have h2 : decimalNumeral "" = none := by decide
  constructor
  · rintro ⟨n, hn, _⟩
    rw [h1] at hn
    exact Option.noConfusion hn
  · rintro ⟨n, hn, _⟩
    rw [h2] at hn
    exact Option.noConfusion hn

/-- The texts `1715000000` and `1715009999` are base-10 signed 64-bit integers. -/
theorem int64_samples : IsBase10Int64 "1715000000" ∧ IsBase10Int64 "1715009999" :=
  ⟨⟨1715000000, by decide, by norm_num, by norm_num⟩,
    ⟨1715009999, by decide, by norm_num, by norm_num⟩⟩

end ParseIntSpec

/-! ## History query parameters -/

section HistoryParameters

variable {R : Type} {σ : Type}

/-- When `ParseInt` rejects the `start` parameter, `GetHistory` answers 400
with `invalid start parameter` and leaves the world as it was. -/
theorem GetHistory_bad_start (ParseInt : String → ℕ → ℕ → Except Error Int)
    (h : http.VehicleHandler R σ) (c : http.Request) (w : σ) (e : Error)
    (hs : ParseInt (c.Query "start") 10 64 = .error e) :
    http.VehicleHandler.GetHistory ParseInt h c w =
      ({ status := http.StatusBadRequest, body := http.Body.error "invalid start parameter" }, w) := by
  unfold http.VehicleHandler.GetHistory
  simp only [hs]

/-- When `ParseInt` accepts the `start` parameter and rejects the `end`
parameter, `GetHistory` answers 400 with `invalid end parameter` and leaves the
world as it was. -/
theorem GetHistory_bad_end (ParseInt : String → ℕ → ℕ → Except Error Int)
    (h : http.VehicleHandler R σ) (c : http.Request) (w : σ) (n : Int) (e : Error)
    (hs : ParseInt (c.Query "start") 10 64 = .ok n)
    (he : ParseInt (c.Query "end") 10 64 = .error e) :
    http.VehicleHandler.GetHistory ParseInt h c w =
      ({ status := http.StatusBadRequest, body := http.Body.error "invalid end parameter" }, w) := by
  unfold http.VehicleHandler.GetHistory
  simp only [hs, he]

/-- C21: `GetHistory`, run with `strconv.ParseInt` on a location service whose
calls are logged, answers a request whose `start` or `end` query parameter is
not a base-10 signed 64-bit integer (the empty text of a missing parameter
included) with status 400; the world and the call log are returned unchanged,
so the location service is never called; and `start` is checked before `end`:
the body names `start` whenever `start` is invalid, and `end` otherwise. -/
theorem GetHistory_invalid_parameter (svc : http.locationService R σ) (c : http.Request)
    (w : σ) (log : List http.ServiceCall)
    (hbad : ¬ IsBase10Int64 (c.Query "start") ∨ ¬ IsBase10Int64 (c.Query "end")) :
    (http.VehicleHandler.GetHistory strconv.ParseInt { locationSvc := svc.recorded } c
        (w, log)).1.status = 400 ∧
      (http.VehicleHandler.GetHistory strconv.ParseInt { locationSvc := svc.recorded } c
        (w, log)).2 = (w, log) ∧
      (¬ IsBase10Int64 (c.Query "start") →
        (http.VehicleHandler.GetHistory strconv.ParseInt { locationSvc := svc.recorded } c
          (w, log)).1.body = http.Body.error "invalid start parameter") ∧
      (IsBase10Int64 (c.Query "start") →
        (http.VehicleHandler.GetHistory strconv.ParseInt { locationSvc := svc.recorded } c
          (w, log)).1.body = http.Body.error "invalid end parameter") := by
  by_cases hstart : IsBase10Int64 (c.Query "start")
  · have hend : ¬ IsBase10Int64 (c.Query "end") := hbad.resolve_left (not_not.mpr hstart)
    obtain ⟨n, hn⟩ := ParseInt_ok_of_int64 _ hstart
    obtain ⟨e, he⟩ := ParseInt_error_of_not_int64 _ hend
    rw [GetHistory_bad_end strconv.ParseInt _ c (w, log) n e hn he]
    exact ⟨rfl, rfl, fun h => absurd hstart h, fun _ => rfl⟩
  · obtain ⟨e, he⟩ := ParseInt_error_of_not_int64 _ hstart
    rw [GetHistory_bad_start strconv.ParseInt _ c (w, log) e he]
    exact ⟨rfl, rfl, fun _ => rfl, fun h => absurd h hstart⟩

/-- C21 witness: the requests of `TestGetHistory_InvalidStart` (`start=abc`)
and `TestGetHistory_InvalidEnd` (`end=abc`) and a request without query
parameters get status 400 and do not reach the location service. -/
theorem GetHistory_invalid_parameter_witness :
    (¬ IsBase10Int64 (invalidStartRequest.Query "start") ∨
        ¬ IsBase10Int64 (invalidStartRequest.Query "end")) ∧
      ((http.VehicleHandler.GetHistory strconv.ParseInt
          { locationSvc := (unreachableService ℚ).recorded } invalidStartRequest
          ((), [])).1.status = 400 ∧
        (http.VehicleHandler.GetHistory strconv.ParseInt
          { locationSvc := (unreachableService ℚ).recorded } invalidStartRequest
          ((), [])).2 = ((), [])) ∧
      ((http.VehicleHandler.GetHistory strconv.ParseInt
          { locationSvc := (unreachableService ℚ).recorded } invalidEndRequest
          ((), [])).1 = { status := 400, body := http.Body.error "invalid end parameter" } ∧
        (http.VehicleHandler.GetHistory strconv.ParseInt
          { locationSvc := (unreachableService ℚ).recorded } invalidEndRequest
          ((), [])).2 = ((), [])) ∧
      ((http.VehicleHandler.GetHistory strconv.ParseInt
          { locationSvc := (unreachableService ℚ).recorded } bareRequest
          ((), [])).1 = { status := 400, body := http.Body.error "invalid start parameter" } ∧
        (http.VehicleHandler.GetHistory strconv.ParseInt
          { locationSvc := (unreachableService ℚ).recorded } bareRequest
          ((), [])).2 = ((), [])) := by
  have hs : ¬ IsBase10Int64 (invalidStartRequest.Query "start") := not_int64_samples.1
  have he : ¬ IsBase10Int64 (invalidEndRequest.Query "end") := not_int64_samples.1
  have hes : IsBase10Int64 (invalidEndRequest.Query "start") := int64_samples.1
  have hb : ¬ IsBase10Int64 (bareRequest.Query "start") := not_int64_samples.2
  have h1 := GetHistory_invalid_parameter (unreachableService ℚ) invalidStartRequest () []
    (Or.inl hs)
  have h2 := GetHistory_invalid_parameter (unreachableService ℚ) invalidEndRequest () []
    (Or.inr he)
  have h3 := GetHistory_invalid_parameter (unreachableService ℚ) bareRequest () [] (Or.inl hb)
  refine ⟨Or.inl hs, ⟨h1.1, h1.2.1⟩, ⟨?_, h2.2.1⟩, ⟨?_, h3.2.1⟩⟩
  · have hst := h2.1
    have hbd := h2.2.2.2 hes
    revert hst hbd
    cases http.VehicleHandler.GetHistory strconv.ParseInt
      { locationSvc := (unreachableService ℚ).recorded } invalidEndRequest ((), []) with
    | mk r w' =>
      cases r
      intro hst hbd
      simp only at hst hbd
      simp [hst, hbd]
  · have hst := h3.1
    have hbd := h3.2.2.1 hb
    revert hst hbd
    cases http.VehicleHandler.GetHistory strconv.ParseInt
      { locationSvc := (unreachableService ℚ).recorded } bareRequest ((), []) with
    | mk r w' =>
      cases r
      intro hst hbd
      simp only at hst hbd
      simp [hst, hbd]

end HistoryParameters

/-! ## Order of the validation checks -/

section FirstViolation

variable {R : Type} [LinearOrderedField R]

/-- An empty `vehicle_id` yields the vehicle_id error, whatever the other
fields hold. -/
theorem validateLocationMessage_vehicle_id_first (msg : locationMessage R)
    (hid : msg.VehicleID = "") :
    validateLocationMessage msg = some "vehicle_id: required" := by
  simp [validateLocationMessage, hid]

/-- With a non-empty `vehicle_id`, a latitude that is a number (or an infinity)
outside `[-90, 90]` yields the latitude error, whatever the longitude and the
timestamp hold. -/
theorem validateLocationMessage_latitude_first (msg : locationMessage R)
    (hid : msg.VehicleID ≠ "") (hnan : msg.Latitude ≠ nan)
    (hlat : ¬ F64.InRange (-90) 90 msg.Latitude) :
    validateLocationMessage msg = some "latitude: must be between -90 and 90" := by
  rcases msg with ⟨id, lat, lon, ts⟩
  simp only at hid hnan hlat
  cases lat with
  | nan => exact absurd rfl hnan
  | negInf => simp [validateLocationMessage, hid, F64.lt, F64.gt]
  | posInf => simp [validateLocationMessage, hid, F64.lt, F64.gt]
  | fin x =>
    simp only [F64.InRange, not_and_or, not_le] at hlat
    simp [validateLocationMessage, hid, F64.lt, F64.gt, hlat]

/-- With a non-empty `vehicle_id` and a latitude in `[-90, 90]`, a longitude
that is a number (or an infinity) outside `[-180, 180]` yields the longitude
error, whatever the timestamp holds. -/
theorem validateLocationMessage_longitude_first (msg : locationMessage R)
    (hid : msg.VehicleID ≠ "") (hlat : F64.InRange (-90) 90 msg.Latitude)
    (hnan : msg.Longitude ≠ nan) (hlon : ¬ F64.InRange (-180) 180 msg.Longitude) :
    validateLocationMessage msg = some "longitude: must be between -180 and 180" := by
  rcases msg with ⟨id, lat, lon, ts⟩
  simp only at hid hlat hnan hlon
  cases lat <;> simp only [F64.InRange] at hlat
  cases lon with
  | nan => exact absurd rfl hnan
  | negInf => simp [validateLocationMessage, hid, F64.lt, F64.gt, hlat.1, hlat.2, not_lt.mpr]
  | posInf => simp [validateLocationMessage, hid, F64.lt, F64.gt, hlat.1, hlat.2, not_lt.mpr]
  | fin y =>
    simp only [F64.InRange, not_and_or, not_le] at hlon
    simp [validateLocationMessage, hid, F64.lt, F64.gt, hlat.1, hlat.2, not_lt.mpr, hlon]

/-- With the first three fields valid, a timestamp that is not positive yields
the timestamp error. -/
theorem validateLocationMessage_timestamp_last (msg : locationMessage R)
    (hid : msg.VehicleID ≠ "") (hlat : F64.InRange (-90) 90 msg.Latitude)
    (hlon : F64.InRange (-180) 180 msg.Longitude) (hts : msg.Timestamp ≤ 0) :
    validateLocationMessage msg = some "timestamp: must be positive" := by
  rcases msg with ⟨id, lat, lon, ts⟩
  simp only at hid hlat hlon hts
  cases lat <;> simp only [F64.InRange] at hlat
  cases lon <;> simp only [F64.InRange] at hlon
  simp [validateLocationMessage, hid, F64.lt, F64.gt, hlat.1, hlat.2, hlon.1, hlon.2,
    not_lt.mpr, hts]

end FirstViolation

/-- The two examples of the short-circuit order: an empty `vehicle_id` with
latitude 91 yields the vehicle_id error, and latitude 91 with timestamp 0
yields the latitude error. -/
theorem validateLocationMessage_first_examples :
    validateLocationMessage
        ({ VehicleID := "", Latitude := fin 91, Longitude := fin 0, Timestamp := 1 } :
          locationMessage ℚ) = some "vehicle_id: required" ∧
      validateLocationMessage
        ({ VehicleID := "X", Latitude := fin 91, Longitude := fin 0, Timestamp := 0 } :
          locationMessage ℚ) = some "latitude: must be between -90 and 90" :=
  ⟨by decide, by decide⟩

/-- A report with a non-empty `vehicle_id`, a NaN latitude and timestamp 0
violates the latitude invariant and the timestamp invariant, and latitude comes
first in the order, yet `validateLocationMessage` returns the timestamp error:
both comparisons of the latitude check are false on NaN.  Likewise a NaN
longitude with timestamp 0 yields the timestamp error.  NaN is not among the
values `json.Unmarshal` decodes, so the handler never passes such a report. -/
theorem validateLocationMessage_nan_names_later_field :
    (¬ F64.InRange (-90) 90 (nan : F64 ℚ) ∧
      validateLocationMessage
        ({ VehicleID := "X", Latitude := nan, Longitude := fin 0, Timestamp := 0 } :
          locationMessage ℚ) = some "timestamp: must be positive") ∧
    (¬ F64.InRange (-180) 180 (nan : F64 ℚ) ∧
      validateLocationMessage
        ({ VehicleID := "X", Latitude := fin 0, Longitude := nan, Timestamp := 0 } :
          locationMessage ℚ) = some "timestamp: must be positive") :=
  ⟨⟨by simp [F64.InRange], by decide⟩, ⟨by simp [F64.InRange], by decide⟩⟩

/-! ## Distances on a meridian and the range of `haversine` -/

section Meridian

/-- On a meridian the intermediate value `a` of `haversine` is the squared sine
of half the latitude difference, in radians. -/
theorem haversineA_meridian (lat1 lat2 lon : ℝ) :
    haversineA lat1 lon lat2 lon = Real.sin ((lat2 - lat1) * Real.pi / 180 / 2) ^ 2 := by
  simp [haversineA, sq]

/-- For a half-angle `d` with `|d| ≤ π / 2`, the angle `atan2(√(sin² d), √(1 - sin² d))`
is `|d|`. -/
theorem arg_of_half_angle (d : ℝ) (hd : |d| ≤ Real.pi / 2) :
    Complex.arg ⟨Real.sqrt (1 - Real.sin d ^ 2), Real.sqrt (Real.sin d ^ 2)⟩ = |d| := by
  have hpi := Real.pi_pos
  have hc : 0 ≤ Real.cos d :=
    Real.cos_nonneg_of_neg_pi_div_two_le_of_le (abs_le.mp hd).1 (abs_le.mp hd).2
  have h1 : 1 - Real.sin d ^ 2 = Real.cos d ^ 2 := by
    have := Real.sin_sq_add_cos_sq d
    linarith
  rw [h1, Real.sqrt_sq hc, Real.sqrt_sq_eq_abs]
  have hs : |Real.sin d| = Real.sin |d| := by
    rcases abs_cases d with ⟨h, h0⟩ | ⟨h, h0⟩
    · rw [h, abs_of_nonneg (Real.sin_nonneg_of_nonneg_of_le_pi h0 (by linarith [(abs_le.mp hd).2]))]
    · rw [h, Real.sin_neg, abs_of_nonpos
        (Real.sin_nonpos_of_nonnpos_of_neg_pi_le h0.le (by linarith [(abs_le.mp hd).1]))]
  rw [hs, ← Real.cos_abs d]
  have hz : (⟨Real.cos |d|, Real.sin |d|⟩ : ℂ) =
      Complex.cos ((|d| : ℝ) : ℂ) + Complex.sin ((|d| : ℝ) : ℂ) * Complex.I := by
    apply Complex.ext
    · simp [Complex.cos_ofReal_re, Complex.sin_ofReal_re, Complex.sin_ofReal_im]
    · simp [Complex.cos_ofReal_im, Complex.sin_ofReal_re, Complex.sin_ofReal_im]
  rw [hz, Complex.arg_cos_add_sin_mul_I]
  exact ⟨by linarith [abs_nonneg d], by linarith⟩

/-- In exact real arithmetic, for two points on the same meridian with
latitudes in `[-90, 90]`, `haversine` returns the arc length
`R |lat2 - lat1| π / 180` with `R = 6371000`. -/
theorem haversine_meridian (lat1 lat2 lon : ℝ) (h1 : |lat1| ≤ 90) (h2 : |lat2| ≤ 90) :
    haversine FloatMath.exact (fin lat1) (fin lon) (fin lat2) (fin lon) =
      fin (6371000 * |lat2 - lat1| * Real.pi / 180) := by
  have hpi := Real.pi_pos
  have hd : |(lat2 - lat1) * Real.pi / 180 / 2| ≤ Real.pi / 2 := by
    have hsub : |lat2 - lat1| ≤ 180 := by
      have := abs_sub lat2 lat1
      linarith
    have : (lat2 - lat1) * Real.pi / 180 / 2 = (lat2 - lat1) * (Real.pi / 360) := by ring
    rw [this, abs_mul, abs_of_pos (by positivity : (0 : ℝ) < Real.pi / 360)]
    nlinarith
  rw [haversine_exact_eq, atan2, haversineA_meridian, arg_of_half_angle _ hd]
  congr 1
  have : (lat2 - lat1) * Real.pi / 180 / 2 = (lat2 - lat1) * (Real.pi / 360) := by ring
  rw [this, abs_mul, abs_of_pos (by positivity : (0 : ℝ) < Real.pi / 360)]
  simp only [earthRadiusMeters]
  push_cast
  ring

end Meridian

section DistanceRange

/-- In exact real arithmetic, for all finite coordinates (the latitudes
in `[-90, 90]` among them) the intermediate value `a` of `haversine` lies in
`[0, 1]`, so both square roots have non-negative arguments, and the result is
a number `d` with `0 ≤ d ≤ π · 6371000`. -/
theorem haversine_range (lat1 lon1 lat2 lon2 : ℝ) :
    haversine FloatMath.exact (fin lat1) (fin lon1) (fin lat2) (fin lon2) =
        FloatMath.exact.mul (fin ((earthRadiusMeters * 2 : ℕ) : ℝ))
          (FloatMath.exact.Atan2 (FloatMath.exact.Sqrt (fin (haversineA lat1 lon1 lat2 lon2)))
            (FloatMath.exact.Sqrt (fin (1 - haversineA lat1 lon1 lat2 lon2)))) ∧
      0 ≤ haversineA lat1 lon1 lat2 lon2 ∧ haversineA lat1 lon1 lat2 lon2 ≤ 1 ∧
      0 ≤ 1 - haversineA lat1 lon1 lat2 lon2 ∧
      ∃ d : ℝ, haversine FloatMath.exact (fin lat1) (fin lon1) (fin lat2) (fin lon2) = fin d ∧
        0 ≤ d ∧ d ≤ Real.pi * 6371000 := by
  obtain ⟨h0, h1⟩ := haversineA_mem lat1 lon1 lat2 lon2
  refine ⟨haversine_exact_fin lat1 lon1 lat2 lon2, h0, h1, by linarith, _,
    haversine_exact_of_mem lat1 lon1 lat2 lon2 h0 h1, ?_, ?_⟩
  · have hnn : 0 ≤ Complex.arg ⟨Real.sqrt (1 - haversineA lat1 lon1 lat2 lon2),
        Real.sqrt (haversineA lat1 lon1 lat2 lon2)⟩ :=
      Complex.arg_nonneg_iff.mpr (Real.sqrt_nonneg _)
    simp only [earthRadiusMeters]
    positivity
  · have hle : Complex.arg ⟨Real.sqrt (1 - haversineA lat1 lon1 lat2 lon2),
        Real.sqrt (haversineA lat1 lon1 lat2 lon2)⟩ ≤ Real.pi / 2 :=
      Complex.arg_le_pi_div_two_iff.mpr (Or.inl (Real.sqrt_nonneg _))
    simp only [earthRadiusMeters]
    push_cast
    linarith

end DistanceRange

/-! ## Geofences with a negative radius -/

section NegativeRadius

variable {R : Type} [LinearOrderedField R] {σ : Type}

/-- A value that is NaN or at least zero is not at most a negative value. -/
theorem F64.le_eq_false_of_notNegative (d r : F64 R) (hd : d.NotNegative)
    (hr : F64.lt r (fin 0) = true) : F64.le d r = false := by
  rcases hd with hd | hd
  · subst hd
    cases r <;> rfl
  · cases d <;> cases r <;> simp_all [F64.lt, F64.le]
    exact lt_of_lt_of_le hr hd

/-- Under the range laws the result of `haversine` is NaN or at least zero, for
all arguments. -/
theorem haversine_notNegative (fm : FloatMath R) (hfm : fm.RangeLaws)
    (lat1 lon1 lat2 lon2 : F64 R) : (haversine fm lat1 lon1 lat2 lon2).NotNegative := by
  unfold haversine
  exact hfm.mul_notNegative _ _ (by positivity)
    (hfm.Atan2_notNegative _ _ (hfm.Sqrt_notNegative _) (hfm.Sqrt_notNegative _))

/-- Under the range laws a geofence with a negative radius contains no
position. -/
theorem contains_negative_radius (fm : FloatMath R) (hfm : fm.RangeLaws)
    (vl : VehicleLocation R) (gf : GeoPoint R) (hr : F64.lt gf.Radius (fin 0) = true) :
    GeoPoint.contains fm vl gf = false :=
  F64.le_eq_false_of_notNegative _ _ (haversine_notNegative fm hfm _ _ _ _) hr

/-- The loop of `CheckAndAlert` skips a geofence that does not contain the
position: the run over `pre ++ gf :: post` is the run over `pre ++ post`. -/
theorem checkGeofences_skip (fm : FloatMath R)
    (publisher : GeofenceAlert R → σ → Option Error × σ) (vl : VehicleLocation R)
    (pre post : List (GeoPoint R)) (gf : GeoPoint R) (w : σ)
    (hc : GeoPoint.contains fm vl gf = false) :
    checkGeofences fm publisher vl (pre ++ gf :: post) w =
      checkGeofences fm publisher vl (pre ++ post) w := by
  rw [checkGeofences_eq, checkGeofences_eq]
  simp [List.countP_append, List.countP_cons, hc]

end NegativeRadius

/-- Exact real arithmetic obeys the range laws. -/
theorem exact_rangeLaws : FloatMath.exact.RangeLaws where
  Sqrt_notNegative := by
    intro v
    cases v with
    | nan => exact Or.inl rfl
    | negInf => exact Or.inl rfl
    | posInf => exact Or.inr rfl
    | fin x =>
      by_cases hx : x < 0
      · rw [exact_Sqrt_neg x hx]
        exact Or.inl rfl
      · rw [exact_Sqrt_fin x (not_lt.mp hx)]
        exact Or.inr (by simp [F64.le, Real.sqrt_nonneg])
  Atan2_notNegative := by
    intro y x hy hx
    have hpi := Real.pi_pos
    rcases hy with hy | hy
    · subst hy
      exact Or.inl (by cases x <;> rfl)
    rcases hx with hx | hx
    · subst hx
      exact Or.inl (exact_Atan2_nan y)
    cases y <;> cases x <;> simp [F64.le] at hy hx
    · exact Or.inr (by simp [FloatMath.exact, F64.le]; positivity)
    · exact Or.inr (by simp [FloatMath.exact, F64.le]; positivity)
    · exact Or.inr (by simp [FloatMath.exact, F64.le])
    · rename_i y x
      rw [exact_Atan2_fin]
      have hnn : 0 ≤ Complex.arg ⟨x, y⟩ := Complex.arg_nonneg_iff.mpr hy
      exact Or.inr (by simpa [F64.le] using hnn)
  mul_notNegative := by
    intro c v hc hv
    rcases hv with hv | hv
    · subst hv
      exact Or.inl rfl
    cases v <;> simp [F64.le] at hv
    · by_cases h0 : c = 0
      · exact Or.inl (by simp [FloatMath.exact, infTimes, h0])
      · exact Or.inr (by simp [FloatMath.exact, infTimes, h0, lt_of_le_of_ne hc (Ne.symm h0), F64.le])
    · rw [exact_mul_fin]
      exact Or.inr (by simpa [F64.le] using mul_nonneg hc hv)

section NegativeRadiusClaim

variable {R : Type} [LinearOrderedField R] {σ : Type}

/-- C26: a configured geofence with a negative radius never produces an alert.
In every float64 environment obeying the range laws, for every position and
every geofence `gf` whose radius is below zero, `gf` does not contain the
position; `CheckAndAlert` over geofences that include `gf`, run on a publisher
that logs its calls, returns the same error, world and call log as over the
geofences without `gf`; and with `gf` as the only geofence it makes no
`PublishAlert` call at all. -/
theorem CheckAndAlert_negative_radius (fm : FloatMath R) (hfm : fm.RangeLaws)
    (publisher : GeofenceAlert R → σ → Option Error × σ) (pre post : List (GeoPoint R))
    (gf : GeoPoint R) (vl : VehicleLocation R) (w : σ)
    (hr : F64.lt gf.Radius (fin 0) = true) :
    GeoPoint.contains fm vl gf = false ∧
      GeofenceService.CheckAndAlert fm
          { publisher := recordAlerts publisher, geofences := pre ++ gf :: post } vl (w, []) =
        GeofenceService.CheckAndAlert fm
          { publisher := recordAlerts publisher, geofences := pre ++ post } vl (w, []) ∧
      GeofenceService.CheckAndAlert fm
          { publisher := recordAlerts publisher, geofences := [gf] } vl (w, []) =
        (none, w, []) := by
  have hc := contains_negative_radius fm hfm vl gf hr
  refine ⟨hc, ?_, ?_⟩
  · exact checkGeofences_skip fm (recordAlerts publisher) vl pre post gf (w, []) hc
  · have h := checkGeofences_skip fm (recordAlerts publisher) vl [] [] gf (w, []) hc
    simpa [GeofenceService.CheckAndAlert, checkGeofences] using h

end NegativeRadiusClaim

/-- C26 witness: in exact arithmetic the sample location, exactly at the centre
of a geofence of radius -50, is not contained in it, and `CheckAndAlert` makes
no `PublishAlert` call, alone or next to the radius-50 geofence of the tests
(which still gives its one alert). -/
theorem CheckAndAlert_negative_radius_witness :
    (FloatMath.exact.RangeLaws ∧ F64.lt (negativeGeofence ℝ).Radius (fin 0) = true) ∧
      GeoPoint.contains FloatMath.exact (sampleLocation ℝ) (negativeGeofence ℝ) = false ∧
      GeofenceService.CheckAndAlert FloatMath.exact
          { publisher := recordAlerts okPublisher,
            geofences := [centerGeofence ℝ] ++ negativeGeofence ℝ :: [] }
          (sampleLocation ℝ) ((), []) =
        GeofenceService.CheckAndAlert FloatMath.exact
          { publisher := recordAlerts okPublisher, geofences := [centerGeofence ℝ] ++ [] }
          (sampleLocation ℝ) ((), []) ∧
      GeofenceService.CheckAndAlert FloatMath.exact
          { publisher := recordAlerts okPublisher, geofences := [negativeGeofence ℝ] }
          (sampleLocation ℝ) ((), []) = (none, (), []) := by
  have hr : F64.lt (negativeGeofence ℝ).Radius (fin 0) = true := by
    simp [negativeGeofence, F64.lt]
  exact ⟨⟨exact_rangeLaws, hr⟩,
    CheckAndAlert_negative_radius FloatMath.exact exact_rangeLaws okPublisher [centerGeofence ℝ] []
      (negativeGeofence ℝ) (sampleLocation ℝ) () hr⟩

/-! ## Validation of the values a decoded report can hold -/

section ReceivableReports

variable {R : Type} [LinearOrderedField R]

/-- C2: for every report whose latitude and longitude are not NaN (the values
`json.Unmarshal` yields; an infinity is allowed here and is rejected), a
report that violates at least one ingress invariant (empty `vehicle_id`,
latitude outside `[-90, 90]`, longitude outside `[-180, 180]`, timestamp not
positive) gets an error from `validateLocationMessage`, and every report it
accepts satisfies all four invariants. -/
theorem validateLocationMessage_rejects_invalid (msg : locationMessage R)
    (hlat : msg.Latitude ≠ nan) (hlon : msg.Longitude ≠ nan) :
    (¬ IngressInvariants msg → ∃ err, validateLocationMessage msg = some err) ∧
      (validateLocationMessage msg = none → IngressInvariants msg) :=
  ⟨validateLocationMessage_rejects msg hlat hlon, validateLocationMessage_sound msg hlat hlon⟩

/-- C23: validation short-circuits at the first violation in the order
`vehicle_id`, latitude, longitude, timestamp.  For every report whose latitude
and longitude are not NaN (the values `json.Unmarshal` yields): an empty
`vehicle_id` yields the vehicle_id error whatever the other fields hold; with a
`vehicle_id`, a latitude outside `[-90, 90]` yields the latitude error whatever
the longitude and the timestamp hold; with both valid, a longitude outside
`[-180, 180]` yields the longitude error whatever the timestamp holds; and with
all three valid a timestamp that is not positive yields the timestamp error. -/
theorem validateLocationMessage_first_violation (msg : locationMessage R)
    (hlat : msg.Latitude ≠ nan) (hlon : msg.Longitude ≠ nan) :
    (msg.VehicleID = "" → validateLocationMessage msg = some "vehicle_id: required") ∧
      (msg.VehicleID ≠ "" → ¬ F64.InRange (-90) 90 msg.Latitude →
        validateLocationMessage msg = some "latitude: must be between -90 and 90") ∧
      (msg.VehicleID ≠ "" → F64.InRange (-90) 90 msg.Latitude →
        ¬ F64.InRange (-180) 180 msg.Longitude →
        validateLocationMessage msg = some "longitude: must be between -180 and 180") ∧
      (msg.VehicleID ≠ "" → F64.InRange (-90) 90 msg.Latitude →
        F64.InRange (-180) 180 msg.Longitude → msg.Timestamp ≤ 0 →
        validateLocationMessage msg = some "timestamp: must be positive") :=
  ⟨validateLocationMessage_vehicle_id_first msg,
    fun hid h => validateLocationMessage_latitude_first msg hid hlat h,
    fun hid h1 h2 => validateLocationMessage_longitude_first msg hid h1 hlon h2,
    validateLocationMessage_timestamp_last msg⟩

end ReceivableReports

/-- C2 witness: the float64 nearest to 90.0000001 as a latitude, and the one
nearest to -180.0000001 as a longitude, are not NaN, violate the range
invariant and are rejected. -/
theorem validateLocationMessage_rejects_invalid_witness :
    ((fin (3166593491513317 / 35184372088832) : F64 ℚ) ≠ nan ∧ (fin 0 : F64 ℚ) ≠ nan ∧
        ¬ IngressInvariants
          ({ VehicleID := "X", Latitude := fin (3166593491513317 / 35184372088832),
             Longitude := fin 0, Timestamp := 1 } : locationMessage ℚ)) ∧
      (∃ err, validateLocationMessage
          ({ VehicleID := "X", Latitude := fin (3166593491513317 / 35184372088832),
             Longitude := fin 0, Timestamp := 1 } : locationMessage ℚ) = some err) ∧
      (∃ err, validateLocationMessage
          ({ VehicleID := "X", Latitude := fin 0,
             Longitude := fin (-6333186979508197 / 35184372088832), Timestamp := 1 } :
            locationMessage ℚ) = some err) := by
  have h1 : ¬ IngressInvariants
      ({ VehicleID := "X", Latitude := fin (3166593491513317 / 35184372088832),
         Longitude := fin 0, Timestamp := 1 } : locationMessage ℚ) := by
    simp only [IngressInvariants, F64.InRange]
    norm_num
  have h2 : ¬ IngressInvariants
      ({ VehicleID := "X", Latitude := fin 0,
         Longitude := fin (-6333186979508197 / 35184372088832), Timestamp := 1 } :
        locationMessage ℚ) := by
    simp only [IngressInvariants, F64.InRange]
    norm_num
  exact ⟨⟨by simp, by simp, h1⟩,
    (validateLocationMessage_rejects_invalid _ (by simp) (by simp)).1 h1,
    (validateLocationMessage_rejects_invalid _ (by simp) (by simp)).1 h2⟩

/-- C23 witness: the two examples of the order, an empty `vehicle_id` with
latitude 91 (vehicle_id error) and latitude 91 with timestamp 0 (latitude
error). -/
theorem validateLocationMessage_first_violation_witness :
    ((fin 91 : F64 ℚ) ≠ nan ∧ (fin 0 : F64 ℚ) ≠ nan ∧
        ¬ F64.InRange (-90) 90 (fin 91 : F64 ℚ)) ∧
      validateLocationMessage
          ({ VehicleID := "", Latitude := fin 91, Longitude := fin 0, Timestamp := 1 } :
            locationMessage ℚ) = some "vehicle_id: required" ∧
      validateLocationMessage
          ({ VehicleID := "X", Latitude := fin 91, Longitude := fin 0, Timestamp := 0 } :
            locationMessage ℚ) = some "latitude: must be between -90 and 90" := by
  have h91 : ¬ F64.InRange (-90) 90 (fin 91 : F64 ℚ) := by
    simp only [F64.InRange]
    norm_num
  exact ⟨⟨by simp, by simp, h91⟩,
    (validateLocationMessage_first_violation
      ({ VehicleID := "", Latitude := fin 91, Longitude := fin 0, Timestamp := 1 } :
        locationMessage ℚ) (by simp) (by simp)).1 rfl,
    (validateLocationMessage_first_violation
      ({ VehicleID := "X", Latitude := fin 91, Longitude := fin 0, Timestamp := 0 } :
        locationMessage ℚ) (by simp) (by simp)).2.1 (by decide) h91⟩

/-! ## The formula computed by `haversine` -/

section FormulaFacts

variable {R : Type} [LinearOrderedField R]

/-- The formula of the specification evaluated in a float64 environment is,
operation by operation, what `haversine` computes. -/
theorem haversineFormulaF64_eq (fm : FloatMath R) (lat1 lon1 lat2 lon2 : F64 R) :
    haversineFormulaF64 fm lat1 lon1 lat2 lon2 = haversine fm lat1 lon1 lat2 lon2 := by
  simp only [haversine, haversineFormulaF64, toRad, earthRadiusMeters]
  norm_num

/-- C16: in every float64 environment (binary64 arithmetic among them) and for
all arguments, `haversine` is the formula of the specification evaluated in
that environment: `2 R atan2(√a, √(1 - a))` with `R = 6371000` and
`a = sin²(Δlat/2) + cos(lat1) cos(lat2) sin²(Δlon/2)`, the angles being the
degree values converted to radians with `π / 180`. -/
theorem haversine_eq_formulaF64 (fm : FloatMath R) (lat1 lon1 lat2 lon2 : F64 R) :
    haversine fm lat1 lon1 lat2 lon2 = haversineFormulaF64 fm lat1 lon1 lat2 lon2 :=
  (haversineFormulaF64_eq fm lat1 lon1 lat2 lon2).symm

/-- The local variable `a` of `haversine` and the result in terms of it. -/
theorem haversine_eq_of_a (fm : FloatMath R) (lat1 lon1 lat2 lon2 : F64 R) :
    haversine fm lat1 lon1 lat2 lon2 =
      fm.mul (fin ((earthRadiusMeters * 2 : ℕ) : R))
        (fm.Atan2 (fm.Sqrt (haversine.a fm lat1 lon1 lat2 lon2))
          (fm.Sqrt (fm.sub (fin 1) (haversine.a fm lat1 lon1 lat2 lon2)))) := rfl

end FormulaFacts

/-- When no operation rounds, the formula evaluated in the float64 environment
is the formula of the specification over the real numbers. -/
theorem haversineFormulaF64_exact (lat1 lon1 lat2 lon2 : ℝ) :
    haversineFormulaF64 FloatMath.exact (fin lat1) (fin lon1) (fin lat2) (fin lon2) =
      fin (haversineFormula lat1 lon1 lat2 lon2) := by
  rw [haversineFormulaF64_eq, haversine_exact_eq, haversineFormula_eq]

/-! ## `haversine` in binary64 arithmetic -/

section Binary64Facts

/-- Rounding to binary64 on well-known values: `0.1`, `1/3`, `math.Pi`, the
largest float64, the overflow threshold, the smallest subnormal and half of it
(a tie, which goes to zero), and the square root of 2. -/
theorem binary64_round_examples :
    binary64.round 0.1 = binary64.ofBits 0x3FB999999999999A ∧
      binary64.round (1 / 3) = binary64.ofBits 0x3FD5555555555555 ∧
      binary64.round math.Pi = binary64.ofBits 0x400921FB54442D18 ∧
      binary64.round (2 ^ 1024 - 2 ^ 970 - 1) = binary64.ofBits 0x7FEFFFFFFFFFFFFF ∧
      binary64.round (2 ^ 1024 - 2 ^ 970) = posInf ∧
      binary64.round (1 / 2 ^ 1074) = binary64.ofBits 1 ∧
      binary64.round (1 / 2 ^ 1075) = fin 0 ∧
      binary64.Sqrt (fin 2) = binary64.ofBits 0x3FF6A09E667F3BCD := by
  decide!

/-- The constants of `sin.go` convert to the float64 values whose bit patterns
the source states next to them. -/
theorem math_constants_bits :
    (binary64.round math.PI4A = binary64.ofBits 0x3fe921fb40000000 ∧
      binary64.round math.PI4B = binary64.ofBits 0x3e64442d00000000 ∧
      binary64.round math.PI4C = binary64.ofBits 0x3ce8469898cc5170) ∧
    (binary64.round (math._sin 0) = binary64.ofBits 0x3de5d8fd1fd19ccd ∧
      binary64.round (math._sin 1) = binary64.ofBits 0xbe5ae5e5a9291f5d ∧
      binary64.round (math._sin 2) = binary64.ofBits 0x3ec71de3567d48a1 ∧
      binary64.round (math._sin 3) = binary64.ofBits 0xbf2a01a019bfdf03 ∧
      binary64.round (math._sin 4) = binary64.ofBits 0x3f8111111110f7d0 ∧
      binary64.round (math._sin 5) = binary64.ofBits 0xbfc5555555555548) ∧
    (binary64.round (math._cos 0) = binary64.ofBits 0xbda8fa49a0861a9b ∧
      binary64.round (math._cos 1) = binary64.ofBits 0x3e21ee9d7b4e3f05 ∧
      binary64.round (math._cos 2) = binary64.ofBits 0xbe927e4f7eac4bc6 ∧
      binary64.round (math._cos 3) = binary64.ofBits 0x3efa01a019c844f5 ∧
      binary64.round (math._cos 4) = binary64.ofBits 0xbf56c16c16c14f91 ∧
      binary64.round (math._cos 5) = binary64.ofBits 0x3fa555555555554b) := by
  decide!

/-- Below `reduceThreshold`, `math.sin` does not depend on `trigReduce`. -/
theorem math.sin_congr (tr tr' : F64 ℚ → ℕ × F64 ℚ) (v : F64 ℚ)
    (h : math.belowThreshold v = true) : math.sin tr v = math.sin tr' v := by
  cases v with
  | fin x =>
    simp only [math.belowThreshold, Bool.not_eq_true'] at h
    simp only [math.sin, h]
    rfl
  | nan => rfl
  | posInf => rfl
  | negInf => rfl

/-- Below `reduceThreshold`, `math.cos` does not depend on `trigReduce`. -/
theorem math.cos_congr (tr tr' : F64 ℚ → ℕ × F64 ℚ) (v : F64 ℚ)
    (h : math.belowThreshold v = true) : math.cos tr v = math.cos tr' v := by
  cases v with
  | fin x =>
    simp only [math.belowThreshold, Bool.not_eq_true'] at h
    simp only [math.cos, h]
    rfl
  | nan => rfl
  | posInf => rfl
  | negInf => rfl

/-- When the four arguments handed to `math.Sin` and `math.Cos` are below
`reduceThreshold`, the local variable `a` of `haversine` in binary64 arithmetic
does not depend on `trigReduce`. -/
theorem haversine_a_binary64_congr (tr tr' : F64 ℚ → ℕ × F64 ℚ) (lat1 lon1 lat2 lon2 : F64 ℚ)
    (h : (trigArguments lat1 lon1 lat2 lon2).all math.belowThreshold = true) :
    haversine.a (FloatMath.binary64 tr) lat1 lon1 lat2 lon2 =
      haversine.a (FloatMath.binary64 tr') lat1 lon1 lat2 lon2 := by
  simp only [trigArguments, List.all_cons, List.all_nil, Bool.and_true, Bool.and_eq_true,
    toRad, FloatMath.binary64] at h
  obtain ⟨h1, h2, h3, h4⟩ := h
  simp only [haversine.a, toRad, FloatMath.binary64]
  rw [math.sin_congr tr tr' _ h1, math.sin_congr tr tr' _ h2, math.cos_congr tr tr' _ h3,
    math.cos_congr tr tr' _ h4]

/-- When the four arguments handed to `math.Sin` and `math.Cos` are below
`reduceThreshold`, `haversine` in binary64 arithmetic does not depend on
`trigReduce`. -/
theorem haversine_binary64_congr (tr tr' : F64 ℚ → ℕ × F64 ℚ) (lat1 lon1 lat2 lon2 : F64 ℚ)
    (h : (trigArguments lat1 lon1 lat2 lon2).all math.belowThreshold = true) :
    haversine (FloatMath.binary64 tr) lat1 lon1 lat2 lon2 =
      haversine (FloatMath.binary64 tr') lat1 lon1 lat2 lon2 := by
  rw [haversine_eq_of_a, haversine_eq_of_a, haversine_a_binary64_congr tr tr' _ _ _ _ h]
  rfl

/-- The value of `a` at the points (-87.5, 0) and (87.5, 180), evaluated in
binary64 arithmetic: `1 + 2 ^ (-52)`, the float64 next above 1. -/
theorem haversine_a_antipodal_eval :
    haversine.a (FloatMath.binary64 noReduce) (fin (-87.5)) (fin 0) (fin 87.5) (fin 180) =
      fin (4503599627370497 / 4503599627370496) := by
  decide!

/-- The result of `haversine` at the points (-87.5, 0) and (87.5, 180),
evaluated in binary64 arithmetic: NaN. -/
theorem haversine_antipodal_eval :
    haversine (FloatMath.binary64 noReduce) (fin (-87.5)) (fin 0) (fin 87.5) (fin 180) = nan := by
  decide!

/-- The arguments of `math.Sin` and `math.Cos` for the points (-87.5, 0) and
(87.5, 180) are below `reduceThreshold`. -/
theorem trigArguments_antipodal :
    (trigArguments (fin (-87.5)) (fin 0) (fin 87.5) (fin 180)).all math.belowThreshold = true := by
  decide!

/-- The result of `haversine` at the points of `TestHaversine`, evaluated in
binary64 arithmetic: the float64 `133.4339119734558`. -/
theorem haversine_test_points_eval :
    haversine (FloatMath.binary64 noReduce) (binary64.round (-6.2088))
        (binary64.round 106.8456) (binary64.round (-6.2100)) (binary64.round 106.8456) =
      fin (1173697102035631 / 8796093022208) := by
  decide!

/-- The arguments of `math.Sin` and `math.Cos` for the points of
`TestHaversine` are below `reduceThreshold`. -/
theorem trigArguments_test_points :
    (trigArguments (binary64.round (-6.2088)) (binary64.round 106.8456)
      (binary64.round (-6.2100)) (binary64.round 106.8456)).all math.belowThreshold = true := by
  decide!

/-- The arc length `6371000 · 0.0012 · π / 180` lies between the float64
`133.4339119734558` plus `10⁻¹¹` and that float64 plus `2 · 10⁻¹¹`. -/
theorem arc_test_points_bounds :
    ((1173697102035631 / 8796093022208 : ℚ) : ℝ) + 1 / 10 ^ 11 <
        6371000 * |(-6.2100 : ℝ) - (-6.2088)| * Real.pi / 180 ∧
      6371000 * |(-6.2100 : ℝ) - (-6.2088)| * Real.pi / 180 <
        ((1173697102035631 / 8796093022208 : ℚ) : ℝ) + 2 / 10 ^ 11 := by
  have habs : |(-6.2100 : ℝ) - (-6.2088)| = 0.0012 := by
    rw [abs_of_nonpos (by norm_num)]
    norm_num
  have hlo := Real.pi_gt_d20
  have hhi := Real.pi_lt_d20
  rw [habs]
  push_cast
  constructor
  · linarith
  · linarith

/-- C25: in binary64 arithmetic, for the points (-87.5, 0) and (87.5, 180),
both with a latitude in `[-90, 90]`, the local variable `a` of `haversine` is
`1 + 2 ^ (-52)`, above 1, and `haversine` returns NaN, whatever `trigReduce`
is: `1 - a` is negative, its square root is NaN, and nothing clamps `a`.  The
test `dist <= gf.Radius` of `CheckAndAlert` is then false for every radius. -/
theorem haversine_antipodal_nan (tr : F64 ℚ → ℕ × F64 ℚ) :
    haversine.a (FloatMath.binary64 tr) (fin (-87.5)) (fin 0) (fin 87.5) (fin 180) =
        fin (4503599627370497 / 4503599627370496) ∧
      F64.gt (haversine.a (FloatMath.binary64 tr) (fin (-87.5)) (fin 0) (fin 87.5) (fin 180))
        (fin 1) = true ∧
      haversine (FloatMath.binary64 tr) (fin (-87.5)) (fin 0) (fin 87.5) (fin 180) = nan ∧
      ∀ radius : F64 ℚ,
        F64.le (haversine (FloatMath.binary64 tr) (fin (-87.5)) (fin 0) (fin 87.5) (fin 180))
          radius = false := by
  rw [haversine_a_binary64_congr tr noReduce _ _ _ _ trigArguments_antipodal,
    haversine_binary64_congr tr noReduce _ _ _ _ trigArguments_antipodal,
    haversine_a_antipodal_eval, haversine_antipodal_eval]
  exact ⟨rfl, by decide!, rfl, fun radius => by cases radius <;> rfl⟩

/-- C24, the claim as worded fails in binary64 arithmetic: at the points of
`TestHaversine`, on the meridian 106.8456, `haversine` returns, whatever
`trigReduce` is, a float64 that is not the arc length
`6371000 · |lat2 - lat1| · π / 180`. -/
theorem haversine_test_points_not_arc :
    ∃ q : ℚ,
      (∀ tr : F64 ℚ → ℕ × F64 ℚ,
        haversine (FloatMath.binary64 tr) (binary64.round (-6.2088)) (binary64.round 106.8456)
          (binary64.round (-6.2100)) (binary64.round 106.8456) = fin q) ∧
        (q : ℝ) ≠ 6371000 * |(-6.2100 : ℝ) - (-6.2088)| * Real.pi / 180 := by
  refine ⟨1173697102035631 / 8796093022208, ?_, ?_⟩
  · intro tr
    rw [haversine_binary64_congr tr noReduce _ _ _ _ trigArguments_test_points,
      haversine_test_points_eval]
  · have h := arc_test_points_bounds.1
    intro heq
    rw [← heq] at h
    linarith

/-- C24, amended: in binary64 arithmetic, whatever `trigReduce` is,
`haversine(-6.2088, 106.8456, -6.2100, 106.8456)`, two points on the same
meridian, is the float64 `133.4339119734558` (`1173697102035631 / 2 ^ 43`); it
lies strictly between 100 and 200 in the comparison of the source, and it is
within `2 · 10⁻¹¹` of the arc length `R |lat2 - lat1| π / 180`, `R = 6371000`. -/
theorem haversine_test_points_rounded (tr : F64 ℚ → ℕ × F64 ℚ) :
    haversine (FloatMath.binary64 tr) (binary64.round (-6.2088)) (binary64.round 106.8456)
        (binary64.round (-6.2100)) (binary64.round 106.8456) =
      fin (1173697102035631 / 2 ^ 43) ∧
    F64.lt (fin 100)
      (haversine (FloatMath.binary64 tr) (binary64.round (-6.2088))
        (binary64.round 106.8456) (binary64.round (-6.2100)) (binary64.round 106.8456)) =
      true ∧
    F64.lt
      (haversine (FloatMath.binary64 tr) (binary64.round (-6.2088))
        (binary64.round 106.8456) (binary64.round (-6.2100)) (binary64.round 106.8456))
      (fin 200) = true ∧
    |((1173697102035631 / 2 ^ 43 : ℚ) : ℝ) -
        6371000 * |(-6.2100 : ℝ) - (-6.2088)| * Real.pi / 180| < 2 / 10 ^ 11 := by
  have hq : (1173697102035631 / 2 ^ 43 : ℚ) = 1173697102035631 / 8796093022208 := by norm_num
  rw [haversine_binary64_congr tr noReduce _ _ _ _ trigArguments_test_points,
    haversine_test_points_eval, hq]
  refine ⟨rfl, by decide!, by decide!, ?_⟩
  obtain ⟨h1, h2⟩ := arc_test_points_bounds
  rw [abs_lt]
  constructor <;> linarith

end Binary64Facts

end Fleet
